import Mathlib

/-!
Verification development for the BrainZag adaptive n-back engine
(`core algorithms` file of the repository).

The JavaScript source is shallowly embedded as follows.

* Colors are symbol names; only identity matters, so they are modelled as `ℕ`.
* JavaScript floating point numbers are modelled as elements of a linear
  ordered field `α` (instantiated at `ℚ` for executable witnesses and at `ℝ`
  for the components that use `Math.log` / `Math.exp` / `Math.sqrt`); decimal
  literals of the source are written as exact fractions.
* `Math.random()` outcomes are modelled by an oracle `σ : ℕ → α` of draws in
  `[0,1)`.  Within one call of `generateNextColor` every `Math.random()` call
  site executes at most once, so each call site reads a fixed index of `σ`:
  index 0 = the TSE repeat-bias coin, 1 = the pick inside
  `pickNextWithConstraint`, 2 = the pick inside `forceRepair`,
  3 = the swap coin, 4 = the replacement pick, 5 = the keep pick.
* A JavaScript expression that can produce `undefined` (indexing an empty
  list) is modelled with `Option`.
* `new Set(list)` enumerated in insertion order is modelled by `setList`
  (first occurrences, in order); `Math.round` (half away from zero on the
  nonnegative values used here) is modelled by `jsRound x = ⌊x + 1/2⌋`.
-/

/-- First occurrences of the elements of a list, in order: the model of
iterating a JavaScript `Set` built from the list. -/
def setList : List ℕ → List ℕ
  | [] => []
  | a :: l => a :: setList (l.filter (fun b => b ≠ a))
termination_by l => l.length
decreasing_by
  simp only [List.length_cons]
  exact Nat.lt_succ_of_le (List.length_filter_le _ _)

/-- Model of `new Set(list).size`: the number of distinct values. -/
def uniqueCount (l : List ℕ) : ℕ := (setList l).length

/-- Model of JavaScript `Math.round` for the nonnegative arguments used by the
source: round half up. -/
def jsRound {α : Type} [LinearOrderedField α] [FloorRing α] (x : α) : ℤ := ⌊x + 1 / 2⌋

/-- Model of `l[Math.floor(r * l.length)]` for a draw `r ∈ [0,1)`. -/
def pickUniform {α : Type} [LinearOrderedField α] [FloorRing α] {β : Type}
    (r : α) (l : List β) : Option β :=
  l.get? (Int.toNat ⌊r * (l.length : α)⌋)

-- ===========================================================================
-- WORKING MEMORY STATE TRACKER (class WorkingMemoryState)
-- ===========================================================================

structure WorkingMemoryState where
  n : ℕ
  recentColors : List ℕ
  currentLoad : ℕ
deriving DecidableEq

namespace WorkingMemoryState

/-- Constructor `new WorkingMemoryState(n)`. -/
def init (n : ℕ) : WorkingMemoryState := ⟨n, [], 0⟩

/-- `addColor(color)`: push, evict the oldest element once the length exceeds
`n + 1`, recompute `currentLoad` as the distinct count. -/
def addColor (ms : WorkingMemoryState) (color : ℕ) : WorkingMemoryState :=
  let rc0 := ms.recentColors ++ [color]
  let rc := if rc0.length > ms.n + 1 then rc0.drop 1 else rc0
  ⟨ms.n, rc, uniqueCount rc⟩

def getRecentColors (ms : WorkingMemoryState) : List ℕ := ms.recentColors

def getCurrentLoad (ms : WorkingMemoryState) : ℕ := ms.currentLoad

end WorkingMemoryState

-- ===========================================================================
-- COLOR SEQUENCE GENERATOR (class ColorSequenceGenerator)
-- ===========================================================================

structure ColorSequenceGenerator (α : Type) where
  n : ℕ
  availableColors : List ℕ
  memoryState : WorkingMemoryState
  activeSet : Option (List ℕ)
  swapProbability : α
  lastTarget : Option ℕ

namespace ColorSequenceGenerator

variable {α : Type} [LinearOrderedField α] [FloorRing α]

/-- Constructor `new ColorSequenceGenerator(n, availableColors)` (the source
stores `{name, rank}` records and only ever reads `name`; we store the names).
`lastTarget` starts undefined, `swapProbability = 0.7`. -/
def init (n : ℕ) (availableColors : List ℕ) : ColorSequenceGenerator α :=
  ⟨n, availableColors, WorkingMemoryState.init n, none, 7 / 10, none⟩

/-- `isValidMatchColor(currentWindow, candidate, target)`: simulate the
trailing `(n+1)`-window after appending the candidate and accept when the
distinct count is at most `target`. -/
def isValidMatchColor (g : ColorSequenceGenerator α)
    (currentWindow : List ℕ) (candidate target : ℕ) : Bool :=
  let windowSize := g.n + 1
  let appended := currentWindow ++ [candidate]
  let simulated := appended.drop (appended.length - windowSize)
  decide (uniqueCount simulated ≤ target)

/-- `isValidNextColor(currentWindow, candidate, target)`: simulate and require
the distinct count to be exactly `target`. -/
def isValidNextColor (g : ColorSequenceGenerator α)
    (currentWindow : List ℕ) (candidate target : ℕ) : Bool :=
  let windowSize := g.n + 1
  let appended := currentWindow ++ [candidate]
  let simulated := appended.drop (appended.length - windowSize)
  decide (uniqueCount simulated = target)

/-- `forceRepair(currentWindow, target)`: introduce a missing color when the
window is under target and a new color is available, otherwise repeat the
first distinct color of the window (`[...windowSet][0]`). -/
def forceRepair (g : ColorSequenceGenerator α) (σ : ℕ → α)
    (currentWindow : List ℕ) (target : ℕ) : Option ℕ :=
  let windowSize := g.n + 1
  let recentWindow := currentWindow.drop (currentWindow.length - windowSize)
  let windowSet := setList recentWindow
  let available := g.availableColors.filter (fun c => c ∉ windowSet)
  if windowSet.length < target ∧ available.length > 0 then
    pickUniform (σ 2) available
  else
    windowSet.head?

/-- `pickNextWithConstraint(currentWindow, candidates, target)`: filter the
candidates through the window simulation, pick uniformly among the valid ones,
fall back to `forceRepair` when none is valid. -/
def pickNextWithConstraint (g : ColorSequenceGenerator α) (σ : ℕ → α)
    (currentWindow : List ℕ) (candidates : List ℕ) (target : ℕ) : Option ℕ :=
  let valid := candidates.filter (fun c => g.isValidNextColor currentWindow c target)
  if valid.length > 0 then pickUniform (σ 1) valid
  else g.forceRepair σ currentWindow target

/-- `generateForMinLoad` (case K = 2): maintain an active pair with
probabilistic swap-for-novelty.  Returns the color and the updated
`activeSet`. -/
def generateForMinLoad (g : ColorSequenceGenerator α) (σ : ℕ → α)
    (currentWindow : List ℕ) (excludeColor : Option ℕ) (target : ℕ) :
    Option ℕ × Option (List ℕ) :=
  let uniqueColors := setList currentWindow
  let introResult : Option (Option ℕ × Option (List ℕ)) :=
    if uniqueColors.length < 2 then
      let windowSet := setList currentWindow
      let candidates := g.availableColors.filter
        (fun c => c ∉ windowSet ∧ some c ≠ excludeColor)
      if candidates.length > 0 then
        match g.pickNextWithConstraint σ currentWindow candidates target with
        | some newColor =>
          if uniqueColors.length = 1 then
            some (some newColor, some [uniqueColors.headI, newColor])
          else
            some (some newColor, some [newColor])
        | none => some (none, g.activeSet)
      else none
    else none
  match introResult with
  | some r => r
  | none =>
    let activeSet :=
      match g.activeSet with
      | some s => if s.length ≠ 2 then uniqueColors.take 2 else s
      | none => uniqueColors.take 2
    let swapResult : Option (Option ℕ × Option (List ℕ)) :=
      if σ 3 < g.swapProbability then
        match pickUniform (σ 5) activeSet with
        | some keep =>
          let availableForSwap := g.availableColors.filter (fun c => c ∉ activeSet)
          if availableForSwap.length > 0 then
            let validReplacements := availableForSwap.filter
              (fun r => g.isValidNextColor currentWindow r target)
            if validReplacements.length > 0 then
              match pickUniform (σ 4) validReplacements with
              | some replacement => some (some replacement, some [keep, replacement])
              | none => some (none, some activeSet)
            else none
          else none
        | none => some (none, some activeSet)
      else none
    match swapResult with
    | some r => r
    | none =>
      let candidates :=
        if excludeColor.isSome then activeSet.filter (fun c => some c ≠ excludeColor)
        else activeSet
      (g.pickNextWithConstraint σ currentWindow candidates target, some activeSet)

/-- `generateForMaxLoad` (case K = n+1): pick a color absent from the current
window (and not excluded). -/
def generateForMaxLoad (g : ColorSequenceGenerator α) (σ : ℕ → α)
    (currentWindow : List ℕ) (excludeColor : Option ℕ) (target : ℕ) :
    Option ℕ × Option (List ℕ) :=
  let windowSet := setList currentWindow
  let candidates := g.availableColors.filter
    (fun c => c ∉ windowSet ∧ some c ≠ excludeColor)
  (g.pickNextWithConstraint σ currentWindow candidates target, g.activeSet)

/-- `generateForMidLoad` (case 2 < K < n+1): maintain an active set of K
colors, introducing new colors while underpopulated and occasionally swapping
one member. -/
def generateForMidLoad (g : ColorSequenceGenerator α) (σ : ℕ → α)
    (currentWindow : List ℕ) (excludeColor : Option ℕ) (target : ℕ) :
    Option ℕ × Option (List ℕ) :=
  let uniqueColors := setList currentWindow
  let introResult : Option (Option ℕ × Option (List ℕ)) :=
    if uniqueColors.length < target then
      let windowSet := setList currentWindow
      let candidates := g.availableColors.filter
        (fun c => c ∉ windowSet ∧ some c ≠ excludeColor)
      if candidates.length > 0 then
        match g.pickNextWithConstraint σ currentWindow candidates target with
        | some newColor =>
          let newActive :=
            match g.activeSet with
            | none => uniqueColors ++ [newColor]
            | some s => (setList (s ++ [newColor])).take target
          some (some newColor, some newActive)
        | none => some (none, g.activeSet)
      else none
    else none
  match introResult with
  | some r => r
  | none =>
    let activeSet :=
      match g.activeSet with
      | some s => if s.length ≠ target then uniqueColors.take target else s
      | none => uniqueColors.take target
    let swapResult : Option (Option ℕ × Option (List ℕ)) :=
      if σ 3 < g.swapProbability then
        let keepIndex := Int.toNat ⌊σ 5 * (activeSet.length : α)⌋
        let keep := activeSet.eraseIdx keepIndex
        let availableForSwap := g.availableColors.filter (fun c => c ∉ activeSet)
        if availableForSwap.length > 0 then
          let validReplacements := availableForSwap.filter
            (fun r => g.isValidNextColor currentWindow r target)
          if validReplacements.length > 0 then
            match pickUniform (σ 4) validReplacements with
            | some replacement => some (some replacement, some (keep ++ [replacement]))
            | none => some (none, some activeSet)
          else none
        else none
      else none
    match swapResult with
    | some r => r
    | none =>
      let candidates :=
        if excludeColor.isSome then activeSet.filter (fun c => some c ≠ excludeColor)
        else activeSet
      (g.pickNextWithConstraint σ currentWindow candidates target, some activeSet)

/-- Dispatch on the three load regimes of `generateNextColor` (the source
tests `target === 2` first, then `target === this.n + 1`). -/
def generateByRegime (g : ColorSequenceGenerator α) (σ : ℕ → α)
    (currentWindow : List ℕ) (excludeColor : Option ℕ) (target : ℕ) :
    Option ℕ × Option (List ℕ) :=
  if target = 2 then g.generateForMinLoad σ currentWindow excludeColor target
  else if target = g.n + 1 then g.generateForMaxLoad σ currentWindow excludeColor target
  else g.generateForMidLoad σ currentWindow excludeColor target

/-- The non-match portion of `generateNextColor`: the TSE repeat-bias step
followed by the three-regime dispatch. -/
def generateOrdinary (g : ColorSequenceGenerator α) (σ : ℕ → α)
    (currentWindow : List ℕ) (excludeColor : Option ℕ) (target : ℕ) (tse : α) :
    Option ℕ × Option (List ℕ) :=
  let repeatHit : Option ℕ :=
    if tse < 1 ∧ currentWindow.length > 0 then
      match currentWindow.getLast? with
      | some lastColor =>
        if some lastColor ≠ excludeColor ∧
            σ 0 < (1 - 1 / ((g.n : α) + 1)) * (1 - tse) ∧
            g.isValidNextColor currentWindow lastColor target = true then
          some lastColor
        else none
      | none => none
    else none
  match repeatHit with
  | some c => (some c, g.activeSet)
  | none => g.generateByRegime σ currentWindow excludeColor target

/-- `generateNextColor(targetUniqueColors, shouldMatch, nBackColor, isForced,
tse)`.  Returns the emitted color together with the generator state (the
source mutates `activeSet` and `lastTarget`). -/
def generateNextColor (g : ColorSequenceGenerator α) (σ : ℕ → α)
    (targetUniqueColors : ℕ) (shouldMatch : Bool) (nBackColor : Option ℕ)
    (isForced : Bool) (tse : α) : Option ℕ × ColorSequenceGenerator α :=
  let currentWindow := g.memoryState.recentColors
  let target := max 2 targetUniqueColors
  let activeSet0 :=
    if g.lastTarget ≠ none ∧ g.lastTarget ≠ some target then none else g.activeSet
  let g1 := { g with activeSet := activeSet0, lastTarget := some target }
  let matchHit : Option ℕ :=
    if shouldMatch then
      match nBackColor with
      | some nb =>
        if isForced then some nb
        else if g1.isValidMatchColor currentWindow nb target then some nb
        else none
      | none => none
    else none
  match matchHit with
  | some c => (some c, g1)
  | none =>
    let excludeColor := if ¬shouldMatch then nBackColor else none
    let (c, activeSet1) := g1.generateOrdinary σ currentWindow excludeColor target tse
    (c, { g1 with activeSet := activeSet1 })

/-- `updateMemoryState(color)`. -/
def updateMemoryState (g : ColorSequenceGenerator α) (color : ℕ) :
    ColorSequenceGenerator α :=
  { g with memoryState := g.memoryState.addColor color }

def getMemoryState (g : ColorSequenceGenerator α) : WorkingMemoryState :=
  g.memoryState

end ColorSequenceGenerator

-- ===========================================================================
-- MATCH GENERATOR (class MatchGenerator)
-- ===========================================================================

structure MatchGenerator (α : Type) where
  targetRate : α
  recentMatches : List Bool
  windowSize : ℕ
  trialsSinceLastMatch : ℕ
  maxGap : ℤ

namespace MatchGenerator

variable {α : Type} [LinearOrderedField α] [FloorRing α]

/-- Constructor `new MatchGenerator(targetMatchRate = 0.30)`:
`maxGap = Math.round(1 / targetMatchRate) * 2`. -/
def init (targetMatchRate : α) : MatchGenerator α :=
  ⟨targetMatchRate, [], 20, 0, jsRound (1 / targetMatchRate) * 2⟩

/-- `setTargetRate(rate)`: clamp to `[0.20, 0.45]` and recompute `maxGap`. -/
def setTargetRate (mg : MatchGenerator α) (rate : α) : MatchGenerator α :=
  let r := max (1 / 5) (min (9 / 20) rate)
  { mg with targetRate := r, maxGap := jsRound (1 / r) * 2 }

/-- `shouldCreateMatch(memoryState)` with the `Math.random()` draw made
explicit.  Returns `(shouldMatch, isForced)`. -/
def shouldCreateMatch (mg : MatchGenerator α) (ms : WorkingMemoryState)
    (rand : α) : Bool × Bool :=
  if ms.recentColors.length < ms.n then (false, false)
  else
    let recentRate : α :=
      if mg.recentMatches.length > 0 then
        ((mg.recentMatches.countP id : ℕ) : α) / (mg.recentMatches.length : α)
      else mg.targetRate
    let p0 : α := mg.targetRate
    let p1 : α :=
      if recentRate < mg.targetRate - 1 / 20 then p0 + 3 / 20
      else if recentRate > mg.targetRate + 1 / 20 then p0 - 3 / 20
      else p0
    let gap : α × Bool :=
      if (mg.trialsSinceLastMatch : ℤ) > mg.maxGap then (1, true)
      else (p1 + (mg.trialsSinceLastMatch : α) * (3 / 100), false)
    let probability := min (max gap.1 0) 1
    let shouldMatch := decide (rand < probability)
    (shouldMatch, gap.2 && shouldMatch)

/-- `registerActualMatch(didMatch)`. -/
def registerActualMatch (mg : MatchGenerator α) (didMatch : Bool) :
    MatchGenerator α :=
  let rm0 := mg.recentMatches ++ [didMatch]
  let rm := if rm0.length > mg.windowSize then rm0.drop 1 else rm0
  { mg with recentMatches := rm,
            trialsSinceLastMatch := if didMatch then 0 else mg.trialsSinceLastMatch + 1 }

/-- `getNBackColor(memoryState)`. -/
def getNBackColor (mg : MatchGenerator α) (ms : WorkingMemoryState) : Option ℕ :=
  if ms.recentColors.length < ms.n then none
  else ms.recentColors.get? (ms.recentColors.length - ms.n)

end MatchGenerator

-- ===========================================================================
-- DIFFICULTY CONTROLLER (class DifficultyController)
-- ===========================================================================

structure DifficultyController (α : Type) where
  n : ℕ
  targetTheta : α
  Kp : α
  Ki : α
  integral : α
  integralMax : α
  targetEntropy : α
  matchRate : α
  stimulusInterval : α
  tse : α
  tseClimbRate : α
  tseDropRate : α
  minUniqueColors : ℕ
  maxUniqueColors : ℕ
  currentUniqueColors : ℕ
  stepHoldIncrease : ℕ
  stepHoldDecrease : ℕ
  stepHoldCounter : ℕ
  pendingUniqueColors : ℕ
  entropyClimbRate : α
  entropyDropRate : α

namespace DifficultyController

variable {α : Type} [LinearOrderedField α] [FloorRing α]

/-- Constructor `new DifficultyController(n)`.  For the degenerate `n = 1`
(color range 0) the JavaScript divides by zero and produces infinite hold
counts; the application always uses `n ≥ 2`, and the claims about this
component are stated for `n ≥ 2`. -/
def init (n : ℕ) : DifficultyController α :=
  let minU : ℕ := 2
  let maxU : ℕ := n + 1
  let colorRange : α := (maxU : α) - (minU : α)
  let shInc : ℕ := Int.toNat (max 2 (jsRound ((6 : α) / colorRange)))
  let shDec : ℕ := Int.toNat (max 1 (jsRound ((3 : α) / colorRange)))
  let climb : α := min (12 / 100) (max (6 / 100) (3 / 100 + 15 / 1000 * colorRange))
  { n := n
    targetTheta := 9 / 5
    Kp := 3 / 10
    Ki := 1 / 20
    integral := 0
    integralMax := 3
    targetEntropy := 0
    matchRate := 3 / 10
    stimulusInterval := 1
    tse := 0
    tseClimbRate := 6 / 100
    tseDropRate := 12 / 100
    minUniqueColors := minU
    maxUniqueColors := maxU
    currentUniqueColors := 2
    stepHoldIncrease := shInc
    stepHoldDecrease := shDec
    stepHoldCounter := 0
    pendingUniqueColors := 2
    entropyClimbRate := climb
    entropyDropRate := climb * 2 }

/-- The integral after the clamped accumulation step of `update`. -/
def integralAfter (dc : DifficultyController α) (theta : α) : α :=
  max (-dc.integralMax) (min dc.integralMax (dc.integral + (dc.targetTheta - theta)))

/-- The `adjustment` value of `update`: PI output plus the flow-boost and
recovery overrides. -/
def adjustmentOf (dc : DifficultyController α) (theta trend fatigue : α) : α :=
  let error := dc.targetTheta - theta
  let adj0 := dc.Kp * error + dc.Ki * integralAfter dc theta
  let adj1 := if theta > 8 / 5 ∧ trend > 1 / 200 then adj0 - 1 / 10 else adj0
  if trend < -(1 / 100) ∧ fatigue > 1 / 2 then adj1 + 3 / 20 else adj1

/-- `targetEntropy` after the asymmetric climb/drop step of `update`. -/
def entropyAfter (dc : DifficultyController α) (theta trend fatigue : α) : α :=
  let adjustment := adjustmentOf dc theta trend fatigue
  let entropyDelta :=
    if adjustment < 0 then -adjustment * dc.entropyClimbRate
    else -adjustment * dc.entropyDropRate
  max 0 (min 1 (dc.targetEntropy + entropyDelta))

/-- The candidate unique-color count computed by `update` from the freshly
updated `targetEntropy`. -/
def candidateOf (dc : DifficultyController α) (theta trend fatigue : α) : ℕ :=
  let te := entropyAfter dc theta trend fatigue
  let range : α := (dc.maxUniqueColors : α) - (dc.minUniqueColors : α)
  let targetFloat := (dc.minUniqueColors : α) + te * range
  Int.toNat (jsRound (max (dc.minUniqueColors : α)
    (min (dc.maxUniqueColors : α) targetFloat)))

/-- Knob 1 of `update`: the step-hold and TSE gated unique-color transition.
Takes the pre-call state and the freshly computed candidate; yields the new
`(currentUniqueColors, pendingUniqueColors, stepHoldCounter)`. -/
def knob1Of (dc : DifficultyController α) (candidateColors : ℕ) : ℕ × ℕ × ℕ :=
  if candidateColors ≠ dc.currentUniqueColors then
    let pc : ℕ × ℕ :=
      if candidateColors = dc.pendingUniqueColors then
        (dc.pendingUniqueColors, dc.stepHoldCounter + 1)
      else (candidateColors, 1)
    let requiredHold :=
      if candidateColors > dc.currentUniqueColors then dc.stepHoldIncrease
      else dc.stepHoldDecrease
    if pc.2 ≥ requiredHold then
      if candidateColors > dc.currentUniqueColors ∧ dc.tse < 1 / 2 then
        (dc.currentUniqueColors, pc.1, pc.2)
      else (candidateColors, pc.1, 0)
    else (dc.currentUniqueColors, pc.1, pc.2)
  else (dc.currentUniqueColors, dc.pendingUniqueColors, 0)

/-- `update(abilityModel)`, with the four scalars the source reads from the
ability model (`theta`, `getThetaTrend()`, `getFatigueIndex()`,
`getFlowScore()`) passed explicitly. -/
def update (dc : DifficultyController α) (theta trend fatigue flow : α) :
    DifficultyController α :=
  let integral := integralAfter dc theta
  let adjustment := adjustmentOf dc theta trend fatigue
  let targetEntropy := entropyAfter dc theta trend fatigue
  let candidateColors := candidateOf dc theta trend fatigue
  -- Knob 1: unique colors behind the step-hold gate and the TSE gate.
  let knob1 : ℕ × ℕ × ℕ := knob1Of dc candidateColors
  -- Knob 2: match rate.
  let matchAdj := max (-(1 / 20)) (min (1 / 10) (adjustment * (1 / 20)))
  let matchRate := max (1 / 4) (min (2 / 5) (3 / 10 + matchAdj))
  -- Knob 3: stimulus interval.
  let stimulusInterval : α :=
    if flow > 3 / 5 ∧ fatigue < 3 / 10 then 19 / 20
    else if fatigue > 3 / 5 then 21 / 20
    else 1
  -- Knob 4: temporal structure entropy.
  let tseDelta :=
    if adjustment < 0 then -adjustment * dc.tseClimbRate
    else -adjustment * dc.tseDropRate
  let tse := max 0 (min 1 (dc.tse + tseDelta))
  { dc with
    integral := integral
    targetEntropy := targetEntropy
    currentUniqueColors := knob1.1
    pendingUniqueColors := knob1.2.1
    stepHoldCounter := knob1.2.2
    matchRate := matchRate
    stimulusInterval := stimulusInterval
    tse := tse }

def getTargetUniqueColors (dc : DifficultyController α) : ℕ := dc.currentUniqueColors

def getCurrentUniqueColors (dc : DifficultyController α) : ℕ := dc.currentUniqueColors

def getMaxUniqueColors (dc : DifficultyController α) : ℕ := dc.maxUniqueColors

def getMatchRate (dc : DifficultyController α) : α := dc.matchRate

/-- `onSessionStopped()`: the fast difficulty-reset path. -/
def onSessionStopped (dc : DifficultyController α) : DifficultyController α :=
  { dc with
    targetEntropy := max 0 (dc.targetEntropy * (1 / 2))
    currentUniqueColors :=
      if dc.currentUniqueColors > dc.minUniqueColors then dc.currentUniqueColors - 1
      else dc.currentUniqueColors
    integral := 0
    stepHoldCounter := 0
    matchRate := min (2 / 5) (dc.matchRate + 1 / 20)
    tse := max 0 (dc.tse * (3 / 10)) }

/-- One ability-model reading per `update` call: `(theta, trend, fatigue,
flow)`. -/
abbrev Inputs (α : Type) := α × α × α × α

/-- Iterated `update` over a list of ability-model readings. -/
def runUpdates (dc : DifficultyController α) : List (Inputs α) → DifficultyController α
  | [] => dc
  | i :: rest => runUpdates (dc.update i.1 i.2.1 i.2.2.1 i.2.2.2) rest

/-- The candidate computed at each step of a run of updates. -/
def candTrace (dc : DifficultyController α) : List (Inputs α) → List ℕ
  | [] => []
  | i :: rest =>
    candidateOf dc i.1 i.2.1 i.2.2.1 :: candTrace (dc.update i.1 i.2.1 i.2.2.1 i.2.2.2) rest

end DifficultyController

-- ===========================================================================
-- D-PRIME (function computeDPrime / invNorm), over ℝ
-- ===========================================================================

/-- The rational-polynomial inverse-normal approximation `invNorm` nested in
`computeDPrime`, with the decimal coefficients of the source taken as exact
rationals (`Math.log` and `Math.sqrt` become `Real.log` and `Real.sqrt`). -/
noncomputable def invNorm (p : ℝ) : ℝ :=
  let a1 : ℝ := -39.69683028665376
  let a2 : ℝ := 220.9460984245205
  let a3 : ℝ := -275.9285104469687
  let a4 : ℝ := 138.3577518672690
  let a5 : ℝ := -30.66479806614716
  let a6 : ℝ := 2.506628277459239
  let b1 : ℝ := -54.47609879822406
  let b2 : ℝ := 161.5858368580409
  let b3 : ℝ := -155.6989798598866
  let b4 : ℝ := 66.80131188771972
  let b5 : ℝ := -13.28068155288572
  let c1 : ℝ := -0.007784894002430293
  let c2 : ℝ := -0.3223964580411365
  let c3 : ℝ := -2.400758277161838
  let c4 : ℝ := -2.549732539343734
  let c5 : ℝ := 4.374664141464968
  let c6 : ℝ := 2.938163982698783
  let d1 : ℝ := 0.007784695709041462
  let d2 : ℝ := 0.3224671290700398
  let d3 : ℝ := 2.445134137142996
  let d4 : ℝ := 3.754408661907416
  let pLow : ℝ := 0.02425
  let pHigh : ℝ := 1 - pLow
  if p < pLow then
    let q := Real.sqrt (-2 * Real.log p)
    (((((c1 * q + c2) * q + c3) * q + c4) * q + c5) * q + c6) /
      ((((d1 * q + d2) * q + d3) * q + d4) * q + 1)
  else if p ≤ pHigh then
    let q := p - 0.5
    let r := q * q
    (((((a1 * r + a2) * r + a3) * r + a4) * r + a5) * r + a6) * q /
      (((((b1 * r + b2) * r + b3) * r + b4) * r + b5) * r + 1)
  else
    let q := Real.sqrt (-2 * Real.log (1 - p)) ;
    -((((((c1 * q + c2) * q + c3) * q + c4) * q + c5) * q + c6) /
      ((((d1 * q + d2) * q + d3) * q + d4) * q + 1))

/-- `computeDPrime(hitRate, faRate)`: clamp both rates to `[0.01, 0.99]` and
take the difference of the inverse-normal values. -/
noncomputable def computeDPrime (hitRate faRate : ℝ) : ℝ :=
  invNorm (max 0.01 (min 0.99 hitRate)) - invNorm (max 0.01 (min 0.99 faRate))

-- ===========================================================================
-- ABILITY MODEL (class AbilityModel)
-- ===========================================================================

/-- Trial outcomes are stored as `(wasMatch, userClicked)` pairs. -/
structure AbilityModel where
  trialWindow : List (Bool × Bool)
  windowSize : ℕ
  theta : ℝ
  thetaAlpha : ℝ
  thetaWindow : List ℝ
  thetaWindowSize : ℕ
  rtWindow : List ℝ
  rtWindowSize : ℕ
  totalTrials : ℕ

namespace AbilityModel

/-- Constructor `new AbilityModel()`. -/
noncomputable def init : AbilityModel :=
  ⟨[], 30, 1.5, 0.15, [], 20, [], 20, 0⟩

/-- The rolling trial window after the push-and-evict step of `recordTrial`. -/
def pushedWindow (ab : AbilityModel) (wasMatch userClicked : Bool) :
    List (Bool × Bool) :=
  let tw0 := ab.trialWindow ++ [(wasMatch, userClicked)]
  if tw0.length > ab.windowSize then tw0.drop 1 else tw0

/-- The raw (unsmoothed) d-prime computed inside `recordTrial` from the pushed
window, using the windowed SDT contingency table with the `+0.5/+1`
continuity correction.  It does not depend on the reaction time. -/
noncomputable def rawDPrimeAfter (ab : AbilityModel)
    (wasMatch userClicked : Bool) : ℝ :=
  let tw := ab.pushedWindow wasMatch userClicked
  let hits := tw.countP (fun t => t.1 && t.2)
  let misses := tw.countP (fun t => t.1 && !t.2)
  let falseAlarms := tw.countP (fun t => !t.1 && t.2)
  let correctRejections := tw.countP (fun t => !t.1 && !t.2)
  let targets := hits + misses
  let nonTargets := falseAlarms + correctRejections
  let hitRate : ℝ := ((hits : ℝ) + 0.5) / ((targets : ℝ) + 1)
  let faRate : ℝ := ((falseAlarms : ℝ) + 0.5) / ((nonTargets : ℝ) + 1)
  computeDPrime hitRate faRate

/-- `recordTrial(wasMatch, userClicked, reactionTime)`: push to the rolling
window, EMA-blend the raw d-prime into `theta`, and store history. -/
noncomputable def recordTrial (ab : AbilityModel)
    (wasMatch userClicked : Bool) (reactionTime : ℝ) : AbilityModel :=
  let tw := ab.pushedWindow wasMatch userClicked
  let rawDPrime := ab.rawDPrimeAfter wasMatch userClicked
  let theta := ab.theta * (1 - ab.thetaAlpha) + rawDPrime * ab.thetaAlpha
  let thw0 := ab.thetaWindow ++ [theta]
  let thw := if thw0.length > ab.thetaWindowSize then thw0.drop 1 else thw0
  let rtw :=
    if reactionTime > 0 then
      let r0 := ab.rtWindow ++ [reactionTime]
      if r0.length > ab.rtWindowSize * 2 then r0.drop 1 else r0
    else ab.rtWindow
  { ab with trialWindow := tw, theta := theta, thetaWindow := thw,
            rtWindow := rtw, totalTrials := ab.totalTrials + 1 }

/-- `getThetaTrend()`: ordinary least-squares slope over the stored theta
history (0 when fewer than 5 samples or on a degenerate denominator). -/
noncomputable def getThetaTrend (ab : AbilityModel) : ℝ :=
  let h := ab.thetaWindow
  if h.length < 5 then 0
  else
    let n : ℝ := (h.length : ℝ)
    let sumX : ℝ := (((List.range h.length).map (fun i => (i : ℝ)))).sum
    let sumY : ℝ := h.sum
    let sumXY : ℝ := (List.zipWith (fun (i : ℕ) (y : ℝ) => (i : ℝ) * y)
      (List.range h.length) h).sum
    let sumX2 : ℝ := (((List.range h.length).map (fun i => (i : ℝ) * (i : ℝ)))).sum
    let denom := n * sumX2 - sumX * sumX
    if denom = 0 then 0 else (n * sumXY - sumX * sumY) / denom

structure RTStats where
  median : ℝ
  p90 : ℝ
  cv : ℝ

/-- `getRTStats()`: median, p90 and coefficient of variation of the last
`rtWindowSize` reaction times (defaults when fewer than 3 samples).
`Math.floor(sorted.length * 0.9)` agrees with `9 * len / 10` in natural
division for every relevant length. -/
noncomputable def getRTStats (ab : AbilityModel) : RTStats :=
  let rts := ab.rtWindow.drop (ab.rtWindow.length - ab.rtWindowSize)
  if rts.length < 3 then ⟨800, 1200, 0.2⟩
  else
    let sorted := rts.insertionSort (· ≤ ·)
    let median := sorted.getD (sorted.length / 2) 0
    let p90 := sorted.getD (9 * sorted.length / 10) 0
    let mean := rts.sum / (rts.length : ℝ)
    let variance := (rts.map (fun rt => (rt - mean) ^ 2)).sum / (rts.length : ℝ)
    let cv := if mean > 0 then Real.sqrt variance / mean else 0
    ⟨median, p90, cv⟩

/-- `getFatigueIndex()`. -/
noncomputable def getFatigueIndex (ab : AbilityModel) : ℝ :=
  let rt := ab.getRTStats
  let trend := ab.getThetaTrend
  let tailRatio := if rt.median > 0 then rt.p90 / rt.median else 1
  let tailComponent := max 0 ((tailRatio - 1.6) / 0.6)
  let cvComponent := max 0 ((rt.cv - 0.4) / 0.3)
  let trendComponent := max 0 (-trend * 10)
  min 1 ((tailComponent + cvComponent + trendComponent) / 3)

/-- `getFlowScore()`. -/
noncomputable def getFlowScore (ab : AbilityModel) : ℝ :=
  let rt := ab.getRTStats
  let trend := ab.getThetaTrend
  let normalizedTheta := max 0 (min 1 (ab.theta / 2.5))
  let cvBonus := max 0 (min 1 (1 - max 0 (rt.cv - 0.15) / 0.45))
  let trendBonus := max 0 (min 1 (trend * 20))
  min 1 (normalizedTheta * 0.55 + cvBonus * 0.25 + trendBonus * 0.20)

/-- `getNormalizedPerformance()`. -/
noncomputable def getNormalizedPerformance (ab : AbilityModel) : ℝ :=
  max 0 (min 1 (0.3 + ab.theta * 0.2))

structure SDTCounts where
  hits : ℕ
  misses : ℕ
  falseAlarms : ℕ
  correctRejections : ℕ

/-- `getSDTCounts()`. -/
def getSDTCounts (ab : AbilityModel) : SDTCounts :=
  ⟨ab.trialWindow.countP (fun t => t.1 && t.2),
   ab.trialWindow.countP (fun t => t.1 && !t.2),
   ab.trialWindow.countP (fun t => !t.1 && t.2),
   ab.trialWindow.countP (fun t => !t.1 && !t.2)⟩

structure AbilityStats where
  theta : ℝ
  thetaTrend : ℝ
  flowScore : ℝ
  fatigueIndex : ℝ
  rtMedian : ℝ
  rtP90 : ℝ
  rtCV : ℝ
  totalTrials : ℕ
  hits : ℕ
  misses : ℕ
  falseAlarms : ℕ
  correctRejections : ℕ

/-- `getStats()`. -/
noncomputable def getStats (ab : AbilityModel) : AbilityStats :=
  let rt := ab.getRTStats
  let sdt := ab.getSDTCounts
  ⟨ab.theta, ab.getThetaTrend, ab.getFlowScore, ab.getFatigueIndex,
   rt.median, rt.p90, rt.cv, ab.totalTrials,
   sdt.hits, sdt.misses, sdt.falseAlarms, sdt.correctRejections⟩

/-- `reset()`: clear the windows and restore the neutral prior 1.5. -/
noncomputable def reset (ab : AbilityModel) : AbilityModel :=
  { ab with trialWindow := [], theta := 1.5, thetaWindow := [],
            rtWindow := [], totalTrials := 0 }

end AbilityModel

-- ===========================================================================
-- SPRT STOPPER (class SPRTStopper)
-- ===========================================================================

structure SPRTStopper where
  theta0 : ℝ
  theta1 : ℝ
  logLR : ℝ
  stopBound : ℝ
  acceptBound : ℝ
  decision : String
  trialsRecorded : ℕ

namespace SPRTStopper

/-- Constructor `new SPRTStopper()`:
`stopBound = Math.log((1 - 0.10) / 0.05)`,
`acceptBound = Math.log(0.10 / (1 - 0.05))`. -/
noncomputable def init : SPRTStopper :=
  ⟨1.5, 0.8, 0, Real.log ((1 - 0.10) / 0.05), Real.log (0.10 / (1 - 0.05)),
   "continue", 0⟩

/-- `thetaToAccuracy(theta, isTarget)`: logistic mapping with trial-type
specific offsets. -/
noncomputable def thetaToAccuracy (theta : ℝ) (isTarget : Bool) : ℝ :=
  if isTarget then 1 / (1 + Real.exp (-(theta - 0.5) * 1.5))
  else 1 / (1 + Real.exp (-(theta - 0.2) * 1.5))

/-- The guarded log-likelihood-ratio accumulation step of `recordTrial`. -/
noncomputable def nextLogLR (s : SPRTStopper) (correct wasMatch : Bool) : ℝ :=
  let p0 := thetaToAccuracy s.theta0 wasMatch
  let p1 := thetaToAccuracy s.theta1 wasMatch
  let pObserved0 := if correct then p0 else 1 - p0
  let pObserved1 := if correct then p1 else 1 - p1
  if pObserved0 > 0 ∧ pObserved1 > 0 then s.logLR + Real.log (pObserved1 / pObserved0)
  else s.logLR

/-- `recordTrial(correct, wasMatch)`: accumulate the log likelihood ratio and
apply the two boundary rules. -/
noncomputable def recordTrial (s : SPRTStopper) (correct wasMatch : Bool) :
    SPRTStopper :=
  let logLR := s.nextLogLR correct wasMatch
  if logLR ≥ s.stopBound then
    { s with logLR := logLR, decision := "stop",
             trialsRecorded := s.trialsRecorded + 1 }
  else if logLR ≤ s.acceptBound then
    { s with logLR := 0, decision := "continue",
             trialsRecorded := s.trialsRecorded + 1 }
  else
    { s with logLR := logLR, trialsRecorded := s.trialsRecorded + 1 }

/-- `shouldStop()`: at least 8 recorded trials are required before a stop is
reported. -/
def shouldStop (s : SPRTStopper) : Bool :=
  if s.trialsRecorded < 8 then false else decide (s.decision = "stop")

structure SPRTStatus where
  logLR : ℝ
  stopBound : ℝ
  acceptBound : ℝ
  decision : String
  trialsRecorded : ℕ

/-- `getStatus()`. -/
def getStatus (s : SPRTStopper) : SPRTStatus :=
  ⟨s.logLR, s.stopBound, s.acceptBound, s.decision, s.trialsRecorded⟩

/-- `reset()`. -/
def reset (s : SPRTStopper) : SPRTStopper :=
  { s with logLR := 0, decision := "continue", trialsRecorded := 0 }

/-- Iterated `recordTrial` over a list of `(correct, wasMatch)` outcomes. -/
noncomputable def runTrials (s : SPRTStopper) : List (Bool × Bool) → SPRTStopper
  | [] => s
  | t :: rest => (s.recordTrial t.1 t.2).runTrials rest

end SPRTStopper

-- ===========================================================================
-- COLOR SEQUENCE GENERATOR, entropy monitor (needs Math.log2, hence ℝ only)
-- ===========================================================================

/-- `computeEntropy(window)`: Shannon entropy of the window contents. -/
noncomputable def ColorSequenceGenerator.computeEntropy
    (g : ColorSequenceGenerator ℝ) (window : List ℕ) : ℝ :=
  if window.length = 0 then 0
  else
    (setList window).foldl
      (fun ent c =>
        let p : ℝ := (window.count c : ℝ) / (window.length : ℝ)
        if p > 0 then ent - p * Real.logb 2 p else ent)
      0

-- ===========================================================================
-- MAIN WORKING MEMORY TRAINER (class WorkingMemoryTrainer)
-- ===========================================================================

/-- The tile object built by `generateNextTrial`.  `color` and `position` are
`Option`s because the JavaScript expressions can produce `undefined` on an
empty palette or a fully excluded grid. -/
structure Tile where
  color : Option ℕ
  position : Option (ℕ × ℕ)
  isMatch : Bool
  currentLoad : ℕ
  targetLoad : ℕ
  targetUniqueColors : ℕ
  trialNumber : ℕ

/-- The result object returned by `recordResponse`. -/
structure RecordResult where
  correct : Bool
  wasMatch : Bool
  feedback : String
  isValid : Bool
deriving DecidableEq

structure WorkingMemoryTrainer where
  n : ℕ
  colors : List ℕ
  abilityModel : AbilityModel
  difficultyController : DifficultyController ℝ
  sprtStopper : SPRTStopper
  colorGenerator : ColorSequenceGenerator ℝ
  matchGenerator : MatchGenerator ℝ
  trialNumber : ℕ
  currentTile : Option Tile
  lastTrialCorrect : Bool
  excludedPositions : List (ℕ × ℕ)

namespace WorkingMemoryTrainer

/-- Constructor `new WorkingMemoryTrainer(n, colors)`. -/
noncomputable def init (n : ℕ) (colors : List ℕ) : WorkingMemoryTrainer :=
  { n := n
    colors := colors
    abilityModel := AbilityModel.init
    difficultyController := DifficultyController.init n
    sprtStopper := SPRTStopper.init
    colorGenerator := ColorSequenceGenerator.init n colors
    matchGenerator := MatchGenerator.init (3 / 10)
    trialNumber := 0
    currentTile := none
    lastTrialCorrect := true
    excludedPositions := [] }

/-- `setExcludedPositions(positions)` (`positions || []`). -/
def setExcludedPositions (t : WorkingMemoryTrainer)
    (positions : Option (List (ℕ × ℕ))) : WorkingMemoryTrainer :=
  { t with excludedPositions := positions.getD [] }

/-- `generatePosition()`: pick uniformly among the non-excluded cells of the
3x3 grid. -/
noncomputable def generatePosition (t : WorkingMemoryTrainer) (r : ℝ) :
    Option (ℕ × ℕ) :=
  let positions := ((List.range 3).map
    (fun row => (List.range 3).map (fun col => (row, col)))).flatten.filter
    (fun p => ¬ t.excludedPositions.any (fun e => e.1 = p.1 ∧ e.2 = p.2))
  pickUniform r positions

/-- `isValidTrial(reactionTime)`: reject reaction times below 150 ms or above
5000 ms. -/
noncomputable def isValidTrial (reactionTime : ℝ) : Bool :=
  if reactionTime < 150 then false
  else if reactionTime > 5000 then false
  else true

/-- `generateFeedback(correct, wasMatch)`. -/
def generateFeedback (correct wasMatch : Bool) : String :=
  if correct && wasMatch then "Correct match!"
  else if correct && !wasMatch then "Correct - no match"
  else if !correct && wasMatch then "Missed a match"
  else "False positive"

/-- `generateNextTrial()`: the per-trial pipeline.  The `Math.random()` draws
of `shouldCreateMatch` and `generatePosition` use the oracle indices 6 and 7
(disjoint from the generator's indices 0-5).  Note that in the source the
tile reads `memoryState.getCurrentLoad()` through the same object reference
after step 6 has already inserted the new color, so `currentLoad` is the
post-insertion load. -/
noncomputable def generateNextTrial (t : WorkingMemoryTrainer) (σ : ℕ → ℝ) :
    Tile × WorkingMemoryTrainer :=
  let mg1 := t.matchGenerator.setTargetRate t.difficultyController.getMatchRate
  let targetUniqueColors := t.difficultyController.getTargetUniqueColors
  let memoryState := t.colorGenerator.getMemoryState
  let matchDecision := mg1.shouldCreateMatch memoryState (σ 6)
  let shouldMatch := matchDecision.1
  let isForced := matchDecision.2
  let nBackColor := mg1.getNBackColor memoryState
  let gen := t.colorGenerator.generateNextColor σ targetUniqueColors shouldMatch
    nBackColor isForced t.difficultyController.tse
  let cg1 :=
    match gen.1 with
    | some c => gen.2.updateMemoryState c
    | none => gen.2
  let actuallyIsMatch := decide (nBackColor ≠ none ∧ gen.1 = nBackColor)
  let mg2 := mg1.registerActualMatch actuallyIsMatch
  let tile : Tile :=
    { color := gen.1
      position := t.generatePosition (σ 7)
      isMatch := actuallyIsMatch
      currentLoad := cg1.getMemoryState.getCurrentLoad
      targetLoad := targetUniqueColors
      targetUniqueColors := targetUniqueColors
      trialNumber := t.trialNumber }
  (tile, { t with colorGenerator := cg1, matchGenerator := mg2,
                  currentTile := some tile, trialNumber := t.trialNumber + 1 })

/-- `recordResponse(userClicked, wasMatch, reactionTime)`: validity filter,
then (on valid trials only) the AbilityModel, DifficultyController and SPRT
updates, in that order; always returns the result object. -/
noncomputable def recordResponse (t : WorkingMemoryTrainer)
    (userClicked wasMatch : Bool) (reactionTime : ℝ) :
    WorkingMemoryTrainer × RecordResult :=
  let correct := userClicked == wasMatch
  let isValid := isValidTrial reactionTime
  let t1 :=
    if isValid then
      let ab := t.abilityModel.recordTrial wasMatch userClicked reactionTime
      let dc := t.difficultyController.update ab.theta ab.getThetaTrend
        ab.getFatigueIndex ab.getFlowScore
      let sprt := t.sprtStopper.recordTrial correct wasMatch
      { t with lastTrialCorrect := correct, abilityModel := ab,
               difficultyController := dc, sprtStopper := sprt }
    else t
  (t1, { correct := correct, wasMatch := wasMatch,
         feedback := generateFeedback correct wasMatch, isValid := isValid })

structure TrainerStats where
  n : ℕ
  trialNumber : ℕ
  currentLoad : ℕ
  theta : ℝ
  thetaTrend : ℝ
  flowScore : ℝ
  fatigueIndex : ℝ
  targetEntropy : ℝ
  tse : ℝ
  windowEntropy : ℝ
  matchRate : ℝ
  stimulusInterval : ℝ
  sprtStatus : SPRTStopper.SPRTStatus
  rtMedian : ℝ
  rtCV : ℝ
  hits : ℕ
  misses : ℕ
  falseAlarms : ℕ
  correctRejections : ℕ
  targetUniqueColors : ℕ
  maxUniqueColors : ℕ
  minUniqueColors : ℕ
  performanceEMA : ℝ
  accuracy : ℝ
  recentAccuracy : ℝ
  totalTrials : ℕ
  confidence : ℝ
  isRecovery : Bool
  piError : ℝ
  piIntegral : ℝ

/-- `getStats()` of the trainer (the `piError` expression reproduces the
source formula verbatim). -/
noncomputable def getStats (t : WorkingMemoryTrainer) : TrainerStats :=
  let ability := t.abilityModel.getStats
  let dc := t.difficultyController
  let memoryState := t.colorGenerator.getMemoryState
  let sprt := t.sprtStopper.getStatus
  let windowEntropy := t.colorGenerator.computeEntropy memoryState.getRecentColors
  { n := t.n
    trialNumber := t.trialNumber
    currentLoad := memoryState.getCurrentLoad
    theta := ability.theta
    thetaTrend := ability.thetaTrend
    flowScore := ability.flowScore
    fatigueIndex := ability.fatigueIndex
    targetEntropy := dc.targetEntropy
    tse := dc.tse
    windowEntropy := windowEntropy
    matchRate := dc.matchRate
    stimulusInterval := dc.stimulusInterval
    sprtStatus := sprt
    rtMedian := ability.rtMedian
    rtCV := ability.rtCV
    hits := ability.hits
    misses := ability.misses
    falseAlarms := ability.falseAlarms
    correctRejections := ability.correctRejections
    targetUniqueColors := dc.currentUniqueColors
    maxUniqueColors := dc.maxUniqueColors
    minUniqueColors := dc.minUniqueColors
    performanceEMA := t.abilityModel.getNormalizedPerformance
    accuracy := t.abilityModel.getNormalizedPerformance
    recentAccuracy := t.abilityModel.getNormalizedPerformance
    totalTrials := ability.totalTrials
    confidence := t.abilityModel.getFlowScore
    isRecovery := decide (t.abilityModel.getFatigueIndex > 0.6)
    piError := dc.targetTheta - dc.integral / max 1 |dc.integral| * dc.Ki
    piIntegral := dc.integral }

/-- `reset()`. -/
noncomputable def reset (t : WorkingMemoryTrainer) : WorkingMemoryTrainer :=
  { t with trialNumber := 0
           currentTile := none
           colorGenerator := ColorSequenceGenerator.init t.n t.colors
           matchGenerator := MatchGenerator.init (3 / 10)
           abilityModel := t.abilityModel.reset
           difficultyController := DifficultyController.init t.n
           sprtStopper := t.sprtStopper.reset }

end WorkingMemoryTrainer

-- ===========================================================================
-- PERSISTED PROFILE DATA (the strategic / recency split of toJSON/warmStart)
-- ===========================================================================

/-- The slow-moving persisted fields.  Each field is optional because
`warmStart` guards every assignment with an `!== undefined` check. -/
structure StrategicData where
  theta : Option ℝ
  totalTrials : Option ℕ
  targetEntropy : Option ℝ
  tse : Option ℝ
  currentUniqueColors : Option ℕ
  integral : Option ℝ
  matchRate : Option ℝ

/-- The short-horizon persisted fields (rolling windows, hold counters). -/
structure RecencyData where
  trialWindow : Option (List (Bool × Bool))
  thetaWindow : Option (List ℝ)
  rtWindow : Option (List ℝ)
  stepHoldCounter : Option ℕ
  pendingUniqueColors : Option ℕ

/-- `warmStart(strategic, recency)` of the trainer: selectively restore the
persisted fields (`recency` may be null = `none`). -/
noncomputable def WorkingMemoryTrainer.warmStart (t : WorkingMemoryTrainer)
    (strategic : Option StrategicData) (recency : Option RecencyData) :
    WorkingMemoryTrainer :=
  let t1 :=
    match strategic with
    | none => t
    | some s =>
      { t with
        abilityModel := { t.abilityModel with
          theta := s.theta.getD t.abilityModel.theta
          totalTrials := s.totalTrials.getD t.abilityModel.totalTrials }
        difficultyController := { t.difficultyController with
          targetEntropy := s.targetEntropy.getD t.difficultyController.targetEntropy
          tse := s.tse.getD t.difficultyController.tse
          currentUniqueColors :=
            s.currentUniqueColors.getD t.difficultyController.currentUniqueColors
          integral := s.integral.getD t.difficultyController.integral
          matchRate := s.matchRate.getD t.difficultyController.matchRate } }
  match recency with
  | none => t1
  | some r =>
    { t1 with
      abilityModel := { t1.abilityModel with
        trialWindow := r.trialWindow.getD t1.abilityModel.trialWindow
        thetaWindow := r.thetaWindow.getD t1.abilityModel.thetaWindow
        rtWindow := r.rtWindow.getD t1.abilityModel.rtWindow }
      difficultyController := { t1.difficultyController with
        stepHoldCounter :=
          r.stepHoldCounter.getD t1.difficultyController.stepHoldCounter
        pendingUniqueColors :=
          r.pendingUniqueColors.getD t1.difficultyController.pendingUniqueColors } }

def WorkingMemoryTrainer.getCurrentN (t : WorkingMemoryTrainer) : ℕ := t.n

-- ===========================================================================
-- N-BACK ENGINE (class NBackEngine, the facade)
-- ===========================================================================

structure NBackEngine where
  currentN : ℕ
  colors : List ℕ
  trainer : WorkingMemoryTrainer
  currentTile : Option Tile

namespace NBackEngine

/-- Constructor `new NBackEngine(options)`: `options.startN || 2` (a missing
or zero `startN` falls back to 2), `options.colors || []`. -/
noncomputable def init (startN : ℕ) (colors : List ℕ) : NBackEngine :=
  let n := if startN = 0 then 2 else startN
  ⟨n, colors, WorkingMemoryTrainer.init n colors, none⟩

/-- `generateNextTile()`. -/
noncomputable def generateNextTile (e : NBackEngine) (σ : ℕ → ℝ) :
    Tile × NBackEngine :=
  let r := e.trainer.generateNextTrial σ
  (r.1, { e with trainer := r.2, currentTile := some r.1 })

/-- `onUserResponse(userClicked, wasMatch, reactionTime)`: throws when no tile
is pending (modelled as `none`). -/
noncomputable def onUserResponse (e : NBackEngine)
    (userClicked wasMatch : Bool) (reactionTime : ℝ) :
    Option (RecordResult × NBackEngine) :=
  if e.currentTile.isNone then none
  else
    let r := e.trainer.recordResponse userClicked wasMatch reactionTime
    some (r.2, { e with trainer := r.1 })

def getCurrentN (e : NBackEngine) : ℕ := e.currentN

def setExcludedPositions (e : NBackEngine)
    (positions : Option (List (ℕ × ℕ))) : NBackEngine :=
  { e with trainer := e.trainer.setExcludedPositions positions }

/-- `onPoorPerformanceStop()`: fast difficulty reset plus SPRT reset. -/
noncomputable def onPoorPerformanceStop (e : NBackEngine) : NBackEngine :=
  { e with trainer := { e.trainer with
      difficultyController := e.trainer.difficultyController.onSessionStopped
      sprtStopper := e.trainer.sprtStopper.reset } }

/-- `shouldStopSession()`: returns the decision and the (possibly penalized)
engine. -/
noncomputable def shouldStopSession (e : NBackEngine) : Bool × NBackEngine :=
  if ¬ e.trainer.sprtStopper.shouldStop then (false, e)
  else (true, e.onPoorPerformanceStop)

/-- `shouldStopForErrors(recentTrials, errorThreshold = 5)`: recent trials are
`(wasMatch, userClicked)` with `wasMatch = none` for unanswered trials. -/
noncomputable def shouldStopForErrors (e : NBackEngine)
    (recentTrials : List (Option Bool × Bool)) (errorThreshold : ℕ) :
    Bool × NBackEngine :=
  let respondedTrials := recentTrials.filter (fun t => t.1.isSome)
  if (respondedTrials.length : ℤ) < (recentTrials.length : ℤ) - 1 then (false, e)
  else
    let errors := respondedTrials.countP
      (fun t => (t.2 && !(t.1.getD false)) || (!t.2 && t.1.getD false))
    if errors ≥ errorThreshold then (true, e.onPoorPerformanceStop)
    else (false, e)

structure WorkingMemoryStats where
  currentLoad : ℕ
  targetUniqueColors : ℕ
  maxUniqueColors : ℕ
  minUniqueColors : ℕ
  performanceEMA : ℝ
  progressToMax : ℝ
  piError : ℝ
  piIntegral : ℝ

structure EngineStats where
  currentN : ℕ
  accuracy : ℝ
  confidence : ℝ
  theta : ℝ
  thetaTrend : ℝ
  flowScore : ℝ
  fatigueIndex : ℝ
  targetEntropy : ℝ
  windowEntropy : ℝ
  matchRate : ℝ
  stimulusInterval : ℝ
  tse : ℝ
  sprtStatus : SPRTStopper.SPRTStatus
  rtMedian : ℝ
  rtCV : ℝ
  workingMemory : WorkingMemoryStats
  totalTrials : ℕ
  isRecovery : Bool

/-- `getStats()` of the facade. -/
noncomputable def getStats (e : NBackEngine) : EngineStats :=
  let stats := e.trainer.getStats
  { currentN := e.currentN
    accuracy := stats.accuracy
    confidence := stats.confidence
    theta := stats.theta
    thetaTrend := stats.thetaTrend
    flowScore := stats.flowScore
    fatigueIndex := stats.fatigueIndex
    targetEntropy := stats.targetEntropy
    windowEntropy := stats.windowEntropy
    matchRate := stats.matchRate
    stimulusInterval := stats.stimulusInterval
    tse := stats.tse
    sprtStatus := stats.sprtStatus
    rtMedian := stats.rtMedian
    rtCV := stats.rtCV
    workingMemory :=
      { currentLoad := stats.currentLoad
        targetUniqueColors := stats.targetUniqueColors
        maxUniqueColors := stats.maxUniqueColors
        minUniqueColors := stats.minUniqueColors
        performanceEMA := stats.performanceEMA
        progressToMax := (stats.targetUniqueColors : ℝ) / (stats.maxUniqueColors : ℝ)
        piError := stats.piError
        piIntegral := stats.piIntegral }
    totalTrials := stats.totalTrials
    isRecovery := stats.isRecovery }

/-- `reset()`. -/
noncomputable def reset (e : NBackEngine) : NBackEngine :=
  { e with currentTile := none, trainer := e.trainer.reset }

/-- `warmStart(strategic, recency)` of the facade. -/
noncomputable def warmStart (e : NBackEngine) (strategic : Option StrategicData)
    (recency : Option RecencyData) : NBackEngine :=
  { e with currentTile := none, trainer := e.trainer.warmStart strategic recency }

structure EngineJSON where
  currentN : ℕ
  savedAt : ℤ
  strategic : StrategicData
  recency : RecencyData

/-- `toJSON()` (`savedAt = Date.now()` is passed in as `now`). -/
def toJSON (e : NBackEngine) (now : ℤ) : EngineJSON :=
  let ab := e.trainer.abilityModel
  let dc := e.trainer.difficultyController
  { currentN := e.currentN
    savedAt := now
    strategic :=
      { theta := some ab.theta
        totalTrials := some ab.totalTrials
        targetEntropy := some dc.targetEntropy
        tse := some dc.tse
        currentUniqueColors := some dc.currentUniqueColors
        integral := some dc.integral
        matchRate := some dc.matchRate }
    recency :=
      { trialWindow := some ab.trialWindow
        thetaWindow := some ab.thetaWindow
        rtWindow := some ab.rtWindow
        stepHoldCounter := some dc.stepHoldCounter
        pendingUniqueColors := some dc.pendingUniqueColors } }

end NBackEngine

-- ===========================================================================
-- CLAIMS
-- ===========================================================================

/-- C3: for every call to `recordResponse` with a reaction time below 150 ms
or above 5000 ms the trial is classified invalid: the trainer state (hence
the AbilityModel, the DifficultyController and the SPRT stopper) is left
completely unchanged, and the result object with `isValid = false` together
with the computed `correct`, `wasMatch` and `feedback` fields is still
returned. -/
theorem claim_C3_recordResponse_invalid
    (t : WorkingMemoryTrainer) (userClicked wasMatch : Bool) (reactionTime : ℝ)
    (h : reactionTime < 150 ∨ reactionTime > 5000) :
    (t.recordResponse userClicked wasMatch reactionTime).1 = t ∧
    (t.recordResponse userClicked wasMatch reactionTime).2 =
      { correct := userClicked == wasMatch, wasMatch := wasMatch,
        feedback := WorkingMemoryTrainer.generateFeedback (userClicked == wasMatch) wasMatch,
        isValid := false } := by
  have hv : WorkingMemoryTrainer.isValidTrial reactionTime = false := by
    unfold WorkingMemoryTrainer.isValidTrial
    rcases h with h | h
    · rw [if_pos h]
    · rw [if_neg (by linarith), if_pos h]
  unfold WorkingMemoryTrainer.recordResponse
  rw [hv]
  simp

/-- Witness for C3 at a concrete input: a 100 ms reaction time on a fresh
trainer updates nothing. -/
theorem claim_C3_witness :
    (100 : ℝ) < 150 ∧
    ((WorkingMemoryTrainer.init 2 [0, 1, 2]).recordResponse true true 100).1 =
      WorkingMemoryTrainer.init 2 [0, 1, 2] :=
  ⟨by norm_num,
   (claim_C3_recordResponse_invalid (WorkingMemoryTrainer.init 2 [0, 1, 2])
      true true 100 (Or.inl (by norm_num))).1⟩

/-- C5: restoring `toJSON().strategic` and `toJSON().recency` into a freshly
constructed engine with the same `n` reproduces `getStats().theta`,
`.targetEntropy`, `.tse` and the committed unique-color count
(`workingMemory.targetUniqueColors`) exactly. -/
theorem claim_C5_warmStart_roundtrip (e : NBackEngine) (cs : List ℕ) (now : ℤ) :
    ((NBackEngine.init e.currentN cs).warmStart
        (some (e.toJSON now).strategic) (some (e.toJSON now).recency)).getStats.theta
      = e.getStats.theta ∧
    ((NBackEngine.init e.currentN cs).warmStart
        (some (e.toJSON now).strategic) (some (e.toJSON now).recency)).getStats.targetEntropy
      = e.getStats.targetEntropy ∧
    ((NBackEngine.init e.currentN cs).warmStart
        (some (e.toJSON now).strategic) (some (e.toJSON now).recency)).getStats.tse
      = e.getStats.tse ∧
    ((NBackEngine.init e.currentN cs).warmStart
        (some (e.toJSON now).strategic)
        (some (e.toJSON now).recency)).getStats.workingMemory.targetUniqueColors
      = e.getStats.workingMemory.targetUniqueColors :=
  ⟨rfl, rfl, rfl, rfl⟩

/-- C8: `onSessionStopped()` on a controller holding `currentUniqueColors = 4`
(with the constructor invariants `minUniqueColors = 2`, `targetEntropy ≥ 0`,
`tse ≥ 0`) decrements the unique-color count to 3 regardless of the hold
counter (the hold gate is bypassed because the `update` path is not involved),
zeroes the PI integral and the hold counter, exactly halves `targetEntropy`,
nudges the match rate easier by 0.05 up to the 0.40 cap, and shrinks `tse` to
30 percent of its value. -/
theorem claim_C8_onSessionStopped {α : Type} [LinearOrderedField α] [FloorRing α]
    (dc : DifficultyController α)
    (hmin : dc.minUniqueColors = 2) (hcur : dc.currentUniqueColors = 4)
    (hte : 0 ≤ dc.targetEntropy) (htse : 0 ≤ dc.tse) :
    dc.onSessionStopped.currentUniqueColors = 3 ∧
    dc.onSessionStopped.integral = 0 ∧
    dc.onSessionStopped.stepHoldCounter = 0 ∧
    dc.onSessionStopped.targetEntropy = dc.targetEntropy / 2 ∧
    dc.onSessionStopped.matchRate = min (2 / 5) (dc.matchRate + 1 / 20) ∧
    dc.onSessionStopped.tse = (3 / 10) * dc.tse := by
  unfold DifficultyController.onSessionStopped
  refine ⟨?_, rfl, rfl, ?_, rfl, ?_⟩
  · simp only [hcur, hmin]
    norm_num
  · simp only
    rw [max_eq_right (by positivity)]
    ring
  · simp only
    rw [max_eq_right (by positivity)]
    ring

/-- Witness for C8 at a concrete rational controller state with
`currentUniqueColors = 4`. -/
theorem claim_C8_witness :
    ({ DifficultyController.init 3 with
        currentUniqueColors := 4, targetEntropy := 1 / 2, tse := 1 / 4 } :
          DifficultyController ℚ).minUniqueColors = 2 ∧
    ({ DifficultyController.init 3 with
        currentUniqueColors := 4, targetEntropy := 1 / 2, tse := 1 / 4 } :
          DifficultyController ℚ).onSessionStopped.currentUniqueColors = 3 :=
  ⟨rfl,
   (claim_C8_onSessionStopped
      ({ DifficultyController.init 3 with
          currentUniqueColors := 4, targetEntropy := 1 / 2, tse := 1 / 4 } :
            DifficultyController ℚ)
      rfl rfl (by norm_num) (by norm_num)).1⟩

/-- C9: `shouldCreateMatch` returns `(false, false)` for every RNG outcome
while the memory window holds fewer than `n` symbols (so with `n = 2` and an
empty history the first two trials are never matches); whenever
`trialsSinceLastMatch` exceeds `maxGap` (and the window has reached `n`) it
returns a forced match `(true, true)` with probability 1, i.e. for every draw
in `[0,1)`; and the constructor sets `maxGap = round(1/targetRate) * 2`. -/
theorem claim_C9_shouldCreateMatch {α : Type} [LinearOrderedField α] [FloorRing α]
    (mg : MatchGenerator α) (ms : WorkingMemoryState) (rand : α) :
    (ms.recentColors.length < ms.n →
      mg.shouldCreateMatch ms rand = (false, false)) ∧
    (ms.n ≤ ms.recentColors.length →
      mg.maxGap < (mg.trialsSinceLastMatch : ℤ) →
      0 ≤ rand → rand < 1 →
      mg.shouldCreateMatch ms rand = (true, true)) ∧
    (∀ r : α, (MatchGenerator.init r : MatchGenerator α).maxGap = jsRound (1 / r) * 2) := by
  refine ⟨?_, ?_, fun r => rfl⟩
  · intro hlt
    unfold MatchGenerator.shouldCreateMatch
    rw [if_pos hlt]
  · intro hlen hgap h0 h1
    unfold MatchGenerator.shouldCreateMatch
    rw [if_neg (Nat.not_lt.2 hlen)]
    simp only [if_pos hgap]
    have hmax : max (1 : α) 0 = 1 := max_eq_left zero_le_one
    have hmin : min (max (1 : α) 0) 1 = 1 := by rw [hmax, min_self]
    simp only [hmin]
    rw [decide_eq_true h1]
    rfl

/-- Witness for C9: a concrete rational generator past its gap and a short
window instance. -/
theorem claim_C9_witness :
    ((WorkingMemoryState.init 2).recentColors.length < 2 ∧
      (MatchGenerator.init (3 / 10) : MatchGenerator ℚ).shouldCreateMatch
        (WorkingMemoryState.init 2) 0 = (false, false)) ∧
    (({ MatchGenerator.init (3 / 10) with trialsSinceLastMatch := 7 } :
        MatchGenerator ℚ).shouldCreateMatch ⟨2, [5, 9], 2⟩ 0 = (true, true))
 := by
  have hfloor : ⌊(1 / (3 / 10 : ℚ)) + 1 / 2⌋ = (3 : ℤ) := by
    rw [Int.floor_eq_iff]
    norm_num
  have hmg : ({ MatchGenerator.init (3 / 10) with trialsSinceLastMatch := 7 } :
      MatchGenerator ℚ).maxGap = 6 := by
    show jsRound (1 / (3 / 10 : ℚ)) * 2 = 6
    unfold jsRound
    rw [hfloor]
    decide
  refine ⟨⟨by decide,
    (claim_C9_shouldCreateMatch (MatchGenerator.init (3 / 10))
      (WorkingMemoryState.init 2) 0).1 (by decide)⟩, ?_⟩
  exact (claim_C9_shouldCreateMatch
      ({ MatchGenerator.init (3 / 10) with trialsSinceLastMatch := 7 })
      ⟨2, [5, 9], 2⟩ 0).2.1 (by decide) (by rw [hmg]; norm_num) (by norm_num) (by norm_num)

/-- C4: `recordTrial` sets `decision = "stop"` exactly when the accumulated
`logLR` reaches the upper bound `ln(0.90/0.05) ≈ 2.89` (stated for a stopper
whose decision is still `"continue"`: the assignment to `"stop"` happens on
the call at which the bound is reached, and a previously committed stop
persists by not being reassigned); when `logLR` reaches the lower bound
`ln(0.10/0.95) ≈ −2.25` it resets `logLR` to 0 and keeps
`decision = "continue"` while still incrementing (never resetting)
`trialsRecorded`; the constructor bounds are exactly those logarithms; and
`shouldStop()` returns `false` whenever fewer than 8 trials have been
recorded, regardless of `logLR`.  The hypothesis `acceptBound < stopBound` is
the constructor invariant (−2.25 < 2.89). -/
theorem claim_C4_sprt_boundaries (s : SPRTStopper) (correct wasMatch : Bool)
    (hcont : s.decision = "continue") (hb : s.acceptBound < s.stopBound) :
    ((s.recordTrial correct wasMatch).decision = "stop" ↔
      s.stopBound ≤ s.nextLogLR correct wasMatch) ∧
    (s.nextLogLR correct wasMatch ≤ s.acceptBound →
      (s.recordTrial correct wasMatch).logLR = 0 ∧
      (s.recordTrial correct wasMatch).decision = "continue" ∧
      (s.recordTrial correct wasMatch).trialsRecorded = s.trialsRecorded + 1) ∧
    (SPRTStopper.init.stopBound = Real.log (0.90 / 0.05) ∧
      SPRTStopper.init.acceptBound = Real.log (0.10 / 0.95)) ∧
    (∀ u : SPRTStopper, u.trialsRecorded < 8 → u.shouldStop = false) := by
  have hbounds : SPRTStopper.init.stopBound = Real.log (0.90 / 0.05) ∧
      SPRTStopper.init.acceptBound = Real.log (0.10 / 0.95) := by
    constructor
    · show Real.log ((1 - 0.10) / 0.05) = Real.log (0.90 / 0.05)
      norm_num
    · show Real.log (0.10 / (1 - 0.05)) = Real.log (0.10 / 0.95)
      norm_num
  have hstop8 : ∀ u : SPRTStopper, u.trialsRecorded < 8 → u.shouldStop = false := by
    intro u hu
    unfold SPRTStopper.shouldStop
    rw [if_pos hu]
  unfold SPRTStopper.recordTrial
  by_cases hstop : s.nextLogLR correct wasMatch ≥ s.stopBound
  · rw [if_pos hstop]
    refine ⟨by simpa using hstop, fun hacc => absurd hacc (by push_neg; linarith), hbounds, hstop8⟩
  · rw [if_neg hstop]
    by_cases hacc : s.nextLogLR correct wasMatch ≤ s.acceptBound
    · rw [if_pos hacc]
      refine ⟨?_, fun _ => ⟨rfl, rfl, rfl⟩, hbounds, hstop8⟩
      constructor
      · intro h
        exact absurd h (show ("continue" : String) ≠ "stop" by decide)
      · intro h
        exact absurd h hstop
    · rw [if_neg hacc]
      refine ⟨?_, fun h => absurd h hacc, hbounds, hstop8⟩
      constructor
      · intro h
        have h2 : s.decision = "stop" := h
        rw [hcont] at h2
        exact absurd h2 (show ("continue" : String) ≠ "stop" by decide)
      · intro h
        exact absurd h hstop

/-- Witness for C4 on the freshly constructed stopper: the decision starts at
`"continue"` and the boundary constants satisfy the invariant. -/
theorem claim_C4_witness :
    SPRTStopper.init.decision = "continue" ∧
    SPRTStopper.init.acceptBound < SPRTStopper.init.stopBound ∧
    ((SPRTStopper.init.recordTrial true true).decision = "stop" ↔
      SPRTStopper.init.stopBound ≤ SPRTStopper.init.nextLogLR true true) := by
  have hb : SPRTStopper.init.acceptBound < SPRTStopper.init.stopBound := by
    show Real.log (0.10 / (1 - 0.05)) < Real.log ((1 - 0.10) / 0.05)
    apply Real.log_lt_log
    · norm_num
    · norm_num
  exact ⟨rfl, hb, (claim_C4_sprt_boundaries SPRTStopper.init true true rfl hb).1⟩

/-- Evaluation of the inverse-normal approximation at 1/2 (central branch,
`q = 0`). -/
theorem invNorm_half : invNorm (1 / 2 : ℝ) = 0 := by
  simp only [invNorm]
  rw [if_neg (by norm_num), if_pos (by norm_num)]
  norm_num

/-- Numeric bounds for the inverse-normal approximation at 3/4 (central
branch). -/
theorem invNorm_34 :
    (0.6744 : ℝ) < invNorm (3 / 4) ∧ invNorm (3 / 4 : ℝ) < 0.6745 := by
  simp only [invNorm]
  rw [if_neg (by norm_num), if_pos (by norm_num)]
  constructor
  · rw [lt_div_iff₀ (by norm_num)]
    norm_num
  · rw [div_lt_iff₀ (by norm_num)]
    norm_num

/-- Numeric bounds for the inverse-normal approximation at 1/4 (central
branch). -/
theorem invNorm_14 :
    (-0.6745 : ℝ) < invNorm (1 / 4) ∧ invNorm (1 / 4 : ℝ) < -0.6744 := by
  simp only [invNorm]
  rw [if_neg (by norm_num), if_pos (by norm_num)]
  constructor
  · rw [lt_div_iff₀ (by norm_num)]
    norm_num
  · rw [div_lt_iff₀ (by norm_num)]
    norm_num

/-- Removing the `computeDPrime` rate caps when the rate is inside
`[0.01, 0.99]`. -/
theorem cappedRate_eq {x : ℝ} (h1 : (0.01 : ℝ) ≤ x) (h2 : x ≤ 0.99) :
    max 0.01 (min 0.99 x) = x := by
  rw [min_eq_right h2, max_eq_right h1]

/-- The four possible raw d-prime values after one recorded trial on a fresh
ability model, bounded inside `(-1, 1)`.  The reaction time plays no role in
the raw d-prime. -/
theorem rawDPrimeAfter_init_bound (w u : Bool) :
    -1 < AbilityModel.init.rawDPrimeAfter w u ∧
      AbilityModel.init.rawDPrimeAfter w u < 1 := by
  have h34 := invNorm_34
  have h14 := invNorm_14
  have h12 := invNorm_half
  have hcap34 : max (0.01 : ℝ) (min 0.99 (3 / 4)) = 3 / 4 :=
    cappedRate_eq (by norm_num) (by norm_num)
  have hcap14 : max (0.01 : ℝ) (min 0.99 (1 / 4)) = 1 / 4 :=
    cappedRate_eq (by norm_num) (by norm_num)
  have hcap12 : max (0.01 : ℝ) (min 0.99 (1 / 2)) = 1 / 2 :=
    cappedRate_eq (by norm_num) (by norm_num)
  have hw : ∀ w u : Bool, AbilityModel.init.pushedWindow w u = [(w, u)] :=
    fun w u => rfl
  cases w <;> cases u <;>
    · rw [show AbilityModel.init.rawDPrimeAfter _ _ = computeDPrime _ _ from rfl]
      unfold computeDPrime
      norm_num [hw, List.countP_cons, List.countP_nil, hcap34, hcap14, hcap12, h12]
      constructor <;> linarith [h34.1, h34.2, h14.1, h14.2]

/-- Counterexample to C6 as stated.  The claim says that across public engine
operations `theta` is only ever updated through the EMA blend
`theta = (1 - 0.15) * theta + 0.15 * rawDPrime` and that no operation other
than `reset()` (which restores 1.5) assigns `theta` directly.  But `warmStart`
is a public engine operation and it assigns the supplied persisted value
verbatim: warm-starting a fresh engine with `strategic.theta = 42` yields
`theta = 42`, which is not the unchanged fresh value 1.5, not the reset prior
1.5, and not equal to the EMA blend of the fresh `theta` with the raw d-prime
of any recordable trial (the four possible raw d-prime values after one trial
on a fresh model lie in `(-1, 1)` and do not depend on the reaction time, so
every blend value lies in `(1.125, 1.425)`). -/
theorem claim_C6_counterexample :
    ((NBackEngine.init 2 [0, 1, 2]).warmStart
        (some ⟨some 42, none, none, none, none, none, none⟩)
        none).trainer.abilityModel.theta = 42 ∧
    (NBackEngine.init 2 [0, 1, 2]).trainer.abilityModel.theta = 1.5 ∧
    (42 : ℝ) ≠ 1.5 ∧
    (42 : ℝ) ≠ 1.5 * (1 - 0.15) + AbilityModel.init.rawDPrimeAfter true true * 0.15 ∧
    (42 : ℝ) ≠ 1.5 * (1 - 0.15) + AbilityModel.init.rawDPrimeAfter true false * 0.15 ∧
    (42 : ℝ) ≠ 1.5 * (1 - 0.15) + AbilityModel.init.rawDPrimeAfter false true * 0.15 ∧
    (42 : ℝ) ≠ 1.5 * (1 - 0.15) + AbilityModel.init.rawDPrimeAfter false false * 0.15 := by
  refine ⟨rfl, rfl, by norm_num, ?_, ?_, ?_, ?_⟩ <;>
    · have hb := rawDPrimeAfter_init_bound
      intro heq
      first
      | (have h1 := (hb true true).1; have h2 := (hb true true).2; nlinarith)
      | (have h1 := (hb true false).1; have h2 := (hb true false).2; nlinarith)
      | (have h1 := (hb false true).1; have h2 := (hb false true).2; nlinarith)
      | (have h1 := (hb false false).1; have h2 := (hb false false).2; nlinarith)

/-- C6 amended: `theta` is only ever updated through the EMA blend, except by
`reset()` (which restores the 1.5 neutral prior) and by `warmStart` (which
restores the supplied persisted `theta` verbatim); every other public engine
operation leaves `theta` unchanged.  The response path is stated on the
trainer, to which the facade delegates `onUserResponse` one to one. -/
theorem claim_C6_amended (e : NBackEngine) (t : WorkingMemoryTrainer)
    (σ : ℕ → ℝ) (u w : Bool) (rt : ℝ)
    (sd : Option StrategicData) (rd : Option RecencyData)
    (rts : List (Option Bool × Bool)) (thr : ℕ) (ps : Option (List (ℕ × ℕ))) :
    (WorkingMemoryTrainer.isValidTrial rt = true →
      ((t.recordResponse u w rt).1).abilityModel.theta =
        t.abilityModel.theta * (1 - t.abilityModel.thetaAlpha) +
          t.abilityModel.rawDPrimeAfter w u * t.abilityModel.thetaAlpha) ∧
    (WorkingMemoryTrainer.isValidTrial rt = false →
      ((t.recordResponse u w rt).1).abilityModel.theta = t.abilityModel.theta) ∧
    (e.reset.trainer.abilityModel.theta = 1.5) ∧
    ((e.warmStart sd rd).trainer.abilityModel.theta =
      (sd.map (fun s => s.theta.getD e.trainer.abilityModel.theta)).getD
        e.trainer.abilityModel.theta) ∧
    ((e.generateNextTile σ).2.trainer.abilityModel.theta =
      e.trainer.abilityModel.theta) ∧
    (e.onPoorPerformanceStop.trainer.abilityModel.theta =
      e.trainer.abilityModel.theta) ∧
    ((e.shouldStopSession).2.trainer.abilityModel.theta =
      e.trainer.abilityModel.theta) ∧
    ((e.shouldStopForErrors rts thr).2.trainer.abilityModel.theta =
      e.trainer.abilityModel.theta) ∧
    ((e.setExcludedPositions ps).trainer.abilityModel.theta =
      e.trainer.abilityModel.theta) := by
  refine ⟨?_, ?_, rfl, ?_, rfl, rfl, ?_, ?_, rfl⟩
  · intro h
    unfold WorkingMemoryTrainer.recordResponse
    rw [h]
    rfl
  · intro h
    unfold WorkingMemoryTrainer.recordResponse
    rw [h]
    rfl
  · rcases sd with _ | s <;> rcases rd with _ | r <;> rfl
  · unfold NBackEngine.shouldStopSession
    split <;> rfl
  · unfold NBackEngine.shouldStopForErrors
    dsimp only
    split
    · rfl
    · split <;> rfl

/-- Witness for C6 amended: a valid 500 ms trial on a fresh trainer lands the
EMA-blend branch. -/
theorem claim_C6_witness :
    WorkingMemoryTrainer.isValidTrial 500 = true ∧
    (((WorkingMemoryTrainer.init 2 [0, 1, 2]).recordResponse true true 500).1).abilityModel.theta =
      (WorkingMemoryTrainer.init 2 [0, 1, 2]).abilityModel.theta *
          (1 - (WorkingMemoryTrainer.init 2 [0, 1, 2]).abilityModel.thetaAlpha) +
        (WorkingMemoryTrainer.init 2 [0, 1, 2]).abilityModel.rawDPrimeAfter true true *
          (WorkingMemoryTrainer.init 2 [0, 1, 2]).abilityModel.thetaAlpha := by
  have hv : WorkingMemoryTrainer.isValidTrial 500 = true := by
    unfold WorkingMemoryTrainer.isValidTrial
    rw [if_neg (by norm_num), if_neg (by norm_num)]
  exact ⟨hv,
    (claim_C6_amended (NBackEngine.init 2 [0, 1, 2])
      (WorkingMemoryTrainer.init 2 [0, 1, 2]) (fun _ => 0) true true 500
      none none [] 5 none).1 hv⟩

namespace DifficultyController

variable {α : Type} [LinearOrderedField α] [FloorRing α]

theorem runUpdates_append (dc : DifficultyController α) (l : List (Inputs α))
    (i : Inputs α) :
    runUpdates dc (l ++ [i]) =
      update (runUpdates dc l) i.1 i.2.1 i.2.2.1 i.2.2.2 := by
  induction l generalizing dc with
  | nil => rfl
  | cons j l ih =>
    show runUpdates (dc.update j.1 j.2.1 j.2.2.1 j.2.2.2) (l ++ [i]) = _
    rw [ih]
    rfl

theorem candTrace_append (dc : DifficultyController α) (l : List (Inputs α))
    (i : Inputs α) :
    candTrace dc (l ++ [i]) =
      candTrace dc l ++ [candidateOf (runUpdates dc l) i.1 i.2.1 i.2.2.1] := by
  induction l generalizing dc with
  | nil => rfl
  | cons j l ih =>
    show candidateOf dc j.1 j.2.1 j.2.2.1 ::
        candTrace (dc.update j.1 j.2.1 j.2.2.1 j.2.2.2) (l ++ [i]) = _
    rw [ih]
    rfl

theorem candTrace_length (dc : DifficultyController α) (l : List (Inputs α)) :
    (candTrace dc l).length = l.length := by
  induction l generalizing dc with
  | nil => rfl
  | cons j l ih =>
    show (candTrace dc (j :: l)).length = l.length + 1
    unfold candTrace
    rw [List.length_cons, ih]

theorem update_knob1 (dc : DifficultyController α) (theta trend fatigue flow : α) :
    (update dc theta trend fatigue flow).currentUniqueColors =
        (knob1Of dc (candidateOf dc theta trend fatigue)).1 ∧
    (update dc theta trend fatigue flow).pendingUniqueColors =
        (knob1Of dc (candidateOf dc theta trend fatigue)).2.1 ∧
    (update dc theta trend fatigue flow).stepHoldCounter =
        (knob1Of dc (candidateOf dc theta trend fatigue)).2.2 :=
  ⟨rfl, rfl, rfl⟩

/-- The invariant behind the step-hold gate: after any run of updates from a
state with a zeroed hold counter, the value of `stepHoldCounter` is at most
the number of updates, and the trailing `stepHoldCounter` candidates of the
run all equal the pending unique-color count. -/
theorem counter_invariant (dc0 : DifficultyController α)
    (h0 : dc0.stepHoldCounter = 0) (l : List (Inputs α)) :
    (runUpdates dc0 l).stepHoldCounter ≤ l.length ∧
    (candTrace dc0 l).drop (l.length - (runUpdates dc0 l).stepHoldCounter) =
      List.replicate (runUpdates dc0 l).stepHoldCounter
        (runUpdates dc0 l).pendingUniqueColors := by
  induction l using List.reverseRecOn with
  | nil =>
    refine ⟨le_of_eq h0, ?_⟩
    show (candTrace dc0 []).drop (0 - dc0.stepHoldCounter) =
      List.replicate dc0.stepHoldCounter dc0.pendingUniqueColors
    rw [h0]
    rfl
  | append_singleton l i ih =>
    obtain ⟨ihlen, ihdrop⟩ := ih
    rw [runUpdates_append, candTrace_append, List.length_append,
        List.length_singleton]
    rw [(update_knob1 (runUpdates dc0 l) i.1 i.2.1 i.2.2.1 i.2.2.2).2.1,
        (update_knob1 (runUpdates dc0 l) i.1 i.2.1 i.2.2.1 i.2.2.2).2.2]
    set s := runUpdates dc0 l with hs
    set cand := candidateOf s i.1 i.2.1 i.2.2.1 with hcand
    have hctlen : (candTrace dc0 l).length = l.length := candTrace_length dc0 l
    have hfull : ∀ p : ℕ, (candTrace dc0 l ++ [cand]).drop (l.length + 1 - 0) =
        List.replicate 0 p := by
      intro p
      rw [Nat.sub_zero, List.drop_eq_nil_of_le
        (by rw [List.length_append, List.length_singleton, hctlen])]
      rfl
    have hsucc : (candTrace dc0 l ++ [cand]).drop
        (l.length + 1 - (s.stepHoldCounter + 1)) =
        List.replicate s.stepHoldCounter s.pendingUniqueColors ++ [cand] := by
      have hd : l.length + 1 - (s.stepHoldCounter + 1) = l.length - s.stepHoldCounter := by
        omega
      rw [hd, List.drop_append_of_le_length (by rw [hctlen]; exact Nat.sub_le _ _),
        ihdrop]
    have hone : (candTrace dc0 l ++ [cand]).drop (l.length + 1 - 1) = [cand] := by
      have hd : l.length + 1 - 1 = l.length := by omega
      rw [hd, ← hctlen, List.drop_left]
    unfold knob1Of
    by_cases h1 : cand ≠ s.currentUniqueColors
    · rw [if_pos h1]
      dsimp only
      by_cases h2 : cand = s.pendingUniqueColors
      · rw [if_pos h2]
        split_ifs <;>
          first
            | exact ⟨Nat.zero_le _, hfull _⟩
            | exact ⟨by show s.stepHoldCounter + 1 ≤ l.length + 1; omega,
                by rw [hsucc, h2, ← List.replicate_succ']⟩
      · rw [if_neg h2]
        split_ifs <;>
          first
            | exact ⟨Nat.zero_le _, hfull _⟩
            | exact ⟨by show (1 : ℕ) ≤ l.length + 1; omega, by rw [hone]; rfl⟩
    · rw [if_neg h1]
      exact ⟨Nat.zero_le _, hfull _⟩

/-- The trailing candidates of an extended run: the last
`stepHoldCounter + 1` candidates are the pending value repeated followed by
the new candidate, and the last single candidate is the new candidate. -/
theorem trailing_run (dc0 : DifficultyController α)
    (h0 : dc0.stepHoldCounter = 0) (l : List (Inputs α)) (i : Inputs α) :
    (candTrace dc0 (l ++ [i])).drop
        (l.length + 1 - ((runUpdates dc0 l).stepHoldCounter + 1)) =
      List.replicate (runUpdates dc0 l).stepHoldCounter
          (runUpdates dc0 l).pendingUniqueColors ++
        [candidateOf (runUpdates dc0 l) i.1 i.2.1 i.2.2.1] ∧
    (candTrace dc0 (l ++ [i])).drop (l.length + 1 - 1) =
      [candidateOf (runUpdates dc0 l) i.1 i.2.1 i.2.2.1] := by
  obtain ⟨ihlen, ihdrop⟩ := counter_invariant dc0 h0 l
  have hctlen := candTrace_length dc0 l
  rw [candTrace_append]
  constructor
  · have hd : l.length + 1 - ((runUpdates dc0 l).stepHoldCounter + 1) =
        l.length - (runUpdates dc0 l).stepHoldCounter := by omega
    rw [hd, List.drop_append_of_le_length (by rw [hctlen]; exact Nat.sub_le _ _),
      ihdrop]
  · have hd : l.length + 1 - 1 = l.length := by omega
    rw [hd, ← hctlen, List.drop_left]

/-- A trailing run of identical candidates restricts to any shorter trailing
run. -/
theorem drop_of_trailing {ct : List ℕ} {m k h v : ℕ} (hk : k ≤ m) (hh : h ≤ k)
    (htr : ct.drop (m - k) = List.replicate k v) :
    ct.drop (m - h) = List.replicate h v := by
  have hd : m - h = (m - k) + (k - h) := by omega
  rw [hd, ← List.drop_drop, htr, List.drop_replicate]
  congr 1
  omega

/-- When knob 1 commits a change of the unique-color count, the new value is
the candidate and the directional hold requirement was met by the (updated)
hold counter. -/
theorem knob1Of_change (dc : DifficultyController α) (cand : ℕ)
    (hne : (knob1Of dc cand).1 ≠ dc.currentUniqueColors) :
    (knob1Of dc cand).1 = cand ∧
    (if dc.currentUniqueColors < cand then dc.stepHoldIncrease
      else dc.stepHoldDecrease) ≤
      (if cand = dc.pendingUniqueColors then dc.stepHoldCounter + 1 else 1) := by
  unfold knob1Of at hne ⊢
  by_cases h1 : cand ≠ dc.currentUniqueColors
  · rw [if_pos h1] at hne ⊢
    dsimp only at hne ⊢
    by_cases h2 : cand = dc.pendingUniqueColors
    · rw [if_pos h2] at hne ⊢
      rw [if_pos h2]
      by_cases hgt : cand > dc.currentUniqueColors
      · rw [if_pos hgt] at hne ⊢
        split_ifs at hne ⊢ with hreq hgate
        · exact absurd rfl hne
        · exact ⟨rfl, hreq⟩
        · exact absurd rfl hne
      · rw [if_neg hgt] at hne ⊢
        split_ifs at hne ⊢ with hreq hgate
        · exact absurd rfl hne
        · exact ⟨rfl, hreq⟩
        · exact absurd rfl hne
    · rw [if_neg h2] at hne ⊢
      rw [if_neg h2]
      by_cases hgt : cand > dc.currentUniqueColors
      · rw [if_pos hgt] at hne ⊢
        split_ifs at hne ⊢ with hreq hgate
        · exact absurd rfl hne
        · exact ⟨rfl, hreq⟩
        · exact absurd rfl hne
      · rw [if_neg hgt] at hne ⊢
        split_ifs at hne ⊢ with hreq hgate
        · exact absurd rfl hne
        · exact ⟨rfl, hreq⟩
        · exact absurd rfl hne
  · rw [if_neg h1] at hne
    exact absurd rfl hne

/-- When knob 1 does not meet the TSE gate, the unique-color count cannot
increase. -/
theorem knob1Of_tse_gate (dc : DifficultyController α) (cand : ℕ)
    (htse : dc.tse < 1 / 2) :
    (knob1Of dc cand).1 ≤ dc.currentUniqueColors := by
  unfold knob1Of
  dsimp only
  split_ifs <;>
    first
      | exact le_refl _
      | (show cand ≤ dc.currentUniqueColors
         by_contra hc
         exact ‹¬(cand > dc.currentUniqueColors ∧ dc.tse < 1 / 2)›
           ⟨Nat.lt_of_not_le hc, htse⟩)

end DifficultyController

open DifficultyController in
/-- C2: starting from a freshly constructed controller, over every sequence
of `update` calls the committed `currentUniqueColors` never increases on a
call whose pre-call `tse` is below 0.5, and whenever a call changes
`currentUniqueColors` the same candidate value was computed on each of the
last `stepHoldIncrease` consecutive calls (for an increase) respectively
`stepHoldDecrease` consecutive calls (for a decrease), the change committing
to exactly that candidate. -/
theorem claim_C2_stepHoldGate {α : Type} [LinearOrderedField α] [FloorRing α]
    (n : ℕ) (l : List (Inputs α)) (i : Inputs α) :
    ((runUpdates (init n) l).tse < 1 / 2 →
      (runUpdates (init n) (l ++ [i])).currentUniqueColors ≤
        (runUpdates (init n) l).currentUniqueColors) ∧
    ((runUpdates (init n) (l ++ [i])).currentUniqueColors ≠
        (runUpdates (init n) l).currentUniqueColors →
      (if (runUpdates (init n) l).currentUniqueColors <
            (runUpdates (init n) (l ++ [i])).currentUniqueColors
        then (runUpdates (init n) l).stepHoldIncrease
        else (runUpdates (init n) l).stepHoldDecrease) ≤ l.length + 1 ∧
      (candTrace (init n) (l ++ [i])).drop
          (l.length + 1 -
            (if (runUpdates (init n) l).currentUniqueColors <
                  (runUpdates (init n) (l ++ [i])).currentUniqueColors
              then (runUpdates (init n) l).stepHoldIncrease
              else (runUpdates (init n) l).stepHoldDecrease)) =
        List.replicate
          (if (runUpdates (init n) l).currentUniqueColors <
                (runUpdates (init n) (l ++ [i])).currentUniqueColors
            then (runUpdates (init n) l).stepHoldIncrease
            else (runUpdates (init n) l).stepHoldDecrease)
          (runUpdates (init n) (l ++ [i])).currentUniqueColors) := by
  have h0 : (init n : DifficultyController α).stepHoldCounter = 0 := rfl
  have hknob := update_knob1 (runUpdates (init n) l) i.1 i.2.1 i.2.2.1 i.2.2.2
  constructor
  · intro htse
    rw [runUpdates_append, hknob.1]
    exact knob1Of_tse_gate _ _ htse
  · intro hne
    rw [runUpdates_append, hknob.1] at hne
    obtain ⟨hcc, hhold⟩ := knob1Of_change _ _ hne
    obtain ⟨ihlen, _⟩ := counter_invariant (init n) h0 l
    have htr := trailing_run (init n) h0 l i
    rw [runUpdates_append, hknob.1, hcc]
    set s := runUpdates (init n) l with hs
    set cand := candidateOf s i.1 i.2.1 i.2.2.1 with hcand
    have hc2le : (if cand = s.pendingUniqueColors
        then s.stepHoldCounter + 1 else 1) ≤ l.length + 1 := by
      split_ifs <;> omega
    have htrail : (candTrace (init n) (l ++ [i])).drop
        (l.length + 1 -
          (if cand = s.pendingUniqueColors then s.stepHoldCounter + 1 else 1)) =
        List.replicate
          (if cand = s.pendingUniqueColors then s.stepHoldCounter + 1 else 1)
          cand := by
      split_ifs with h2
      · rw [htr.1, h2, ← List.replicate_succ']
      · rw [htr.2]
        rfl
    exact ⟨le_trans hhold hc2le, drop_of_trailing hc2le hhold htrail⟩

open DifficultyController in
/-- Witness for C2: with constant readings `theta = 1000` a fresh `n = 2`
controller saturates entropy and TSE on the first call, holds the candidate 3
for `stepHoldIncrease = 6` consecutive calls, and commits the increase on the
sixth call. -/
theorem claim_C2_witness :
    (runUpdates (init 2 : DifficultyController ℚ)
        (List.replicate 5 ((1000 : ℚ), (0 : ℚ), (0 : ℚ), (0 : ℚ)) ++
          [((1000 : ℚ), (0 : ℚ), (0 : ℚ), (0 : ℚ))])).currentUniqueColors ≠
      (runUpdates (init 2 : DifficultyController ℚ)
        (List.replicate 5 ((1000 : ℚ), (0 : ℚ), (0 : ℚ), (0 : ℚ)))).currentUniqueColors ∧
    ((if (runUpdates (init 2 : DifficultyController ℚ)
            (List.replicate 5 ((1000 : ℚ), (0 : ℚ), (0 : ℚ), (0 : ℚ)))).currentUniqueColors <
          (runUpdates (init 2 : DifficultyController ℚ)
            (List.replicate 5 ((1000 : ℚ), (0 : ℚ), (0 : ℚ), (0 : ℚ)) ++
              [((1000 : ℚ), (0 : ℚ), (0 : ℚ), (0 : ℚ))])).currentUniqueColors
        then (runUpdates (init 2 : DifficultyController ℚ)
            (List.replicate 5 ((1000 : ℚ), (0 : ℚ), (0 : ℚ), (0 : ℚ)))).stepHoldIncrease
        else (runUpdates (init 2 : DifficultyController ℚ)
            (List.replicate 5 ((1000 : ℚ), (0 : ℚ), (0 : ℚ), (0 : ℚ)))).stepHoldDecrease) ≤
        (List.replicate 5 ((1000 : ℚ), (0 : ℚ), (0 : ℚ), (0 : ℚ))).length + 1 ∧
      (candTrace (init 2 : DifficultyController ℚ)
          (List.replicate 5 ((1000 : ℚ), (0 : ℚ), (0 : ℚ), (0 : ℚ)) ++
            [((1000 : ℚ), (0 : ℚ), (0 : ℚ), (0 : ℚ))])).drop
          ((List.replicate 5 ((1000 : ℚ), (0 : ℚ), (0 : ℚ), (0 : ℚ))).length + 1 -
            (if (runUpdates (init 2 : DifficultyController ℚ)
                  (List.replicate 5 ((1000 : ℚ), (0 : ℚ), (0 : ℚ), (0 : ℚ)))).currentUniqueColors <
                (runUpdates (init 2 : DifficultyController ℚ)
                  (List.replicate 5 ((1000 : ℚ), (0 : ℚ), (0 : ℚ), (0 : ℚ)) ++
                    [((1000 : ℚ), (0 : ℚ), (0 : ℚ), (0 : ℚ))])).currentUniqueColors
              then (runUpdates (init 2 : DifficultyController ℚ)
                  (List.replicate 5 ((1000 : ℚ), (0 : ℚ), (0 : ℚ), (0 : ℚ)))).stepHoldIncrease
              else (runUpdates (init 2 : DifficultyController ℚ)
                  (List.replicate 5 ((1000 : ℚ), (0 : ℚ), (0 : ℚ), (0 : ℚ)))).stepHoldDecrease)) =
        List.replicate
          (if (runUpdates (init 2 : DifficultyController ℚ)
                (List.replicate 5 ((1000 : ℚ), (0 : ℚ), (0 : ℚ), (0 : ℚ)))).currentUniqueColors <
              (runUpdates (init 2 : DifficultyController ℚ)
                (List.replicate 5 ((1000 : ℚ), (0 : ℚ), (0 : ℚ), (0 : ℚ)) ++
                  [((1000 : ℚ), (0 : ℚ), (0 : ℚ), (0 : ℚ))])).currentUniqueColors
            then (runUpdates (init 2 : DifficultyController ℚ)
                (List.replicate 5 ((1000 : ℚ), (0 : ℚ), (0 : ℚ), (0 : ℚ)))).stepHoldIncrease
            else (runUpdates (init 2 : DifficultyController ℚ)
                (List.replicate 5 ((1000 : ℚ), (0 : ℚ), (0 : ℚ), (0 : ℚ)))).stepHoldDecrease)
          (runUpdates (init 2 : DifficultyController ℚ)
            (List.replicate 5 ((1000 : ℚ), (0 : ℚ), (0 : ℚ), (0 : ℚ)) ++
              [((1000 : ℚ), (0 : ℚ), (0 : ℚ), (0 : ℚ))])).currentUniqueColors) := by
  have hf1 : ⌊(13 / 2 : ℚ)⌋ = 6 := by
    rw [Int.floor_eq_iff]
    norm_num
  have hf2 : ⌊(7 / 2 : ℚ)⌋ = 3 := by
    rw [Int.floor_eq_iff]
    norm_num
  have ht3 : Int.toNat 3 = 3 := rfl
  have ht6 : Int.toNat 6 = 6 := rfl
  have hinit : (init 2 : DifficultyController ℚ) =
      ⟨2, 9/5, 3/10, 1/20, 0, 3, 0, 3/10, 1, 0, 6/100, 12/100, 2, 3, 2, 6, 3,
        0, 2, 6/100, 12/100⟩ := by
    unfold DifficultyController.init jsRound
    norm_num [DifficultyController.mk.injEq, min_def, max_def, hf1, hf2, ht3, ht6]
  have hstep0 : update
      (⟨2, 9/5, 3/10, 1/20, 0, 3, 0, 3/10, 1, 0, 6/100, 12/100, 2, 3, 2, 6, 3,
        0, 2, 6/100, 12/100⟩ : DifficultyController ℚ) 1000 0 0 0 =
      ⟨2, 9/5, 3/10, 1/20, -3, 3, 1, 1/4, 1, 1, 6/100, 12/100, 2, 3, 2, 6, 3,
        1, 3, 6/100, 12/100⟩ := by
    unfold DifficultyController.update knob1Of candidateOf entropyAfter
      adjustmentOf integralAfter jsRound
    norm_num [DifficultyController.mk.injEq, min_def, max_def, hf2, ht3, ht6]
  have hstepk : ∀ k : ℕ, k + 1 < 6 → update
      (⟨2, 9/5, 3/10, 1/20, -3, 3, 1, 1/4, 1, 1, 6/100, 12/100, 2, 3, 2, 6, 3,
        k, 3, 6/100, 12/100⟩ : DifficultyController ℚ) 1000 0 0 0 =
      ⟨2, 9/5, 3/10, 1/20, -3, 3, 1, 1/4, 1, 1, 6/100, 12/100, 2, 3, 2, 6, 3,
        k + 1, 3, 6/100, 12/100⟩ := by
    intro k hk
    have hk6 : ¬ (k + 1 ≥ 6) := by omega
    unfold DifficultyController.update knob1Of candidateOf entropyAfter
      adjustmentOf integralAfter jsRound
    norm_num [DifficultyController.mk.injEq, min_def, max_def, hf2, hk6, ht3, ht6]
  have hrun : runUpdates (init 2 : DifficultyController ℚ)
      (List.replicate 5 ((1000 : ℚ), (0 : ℚ), (0 : ℚ), (0 : ℚ))) =
      ⟨2, 9/5, 3/10, 1/20, -3, 3, 1, 1/4, 1, 1, 6/100, 12/100, 2, 3, 2, 6, 3,
        5, 3, 6/100, 12/100⟩ := by
    show update (update (update (update (update (init 2) 1000 0 0 0)
      1000 0 0 0) 1000 0 0 0) 1000 0 0 0) 1000 0 0 0 = _
    rw [hinit, hstep0, hstepk 1 (by omega), hstepk 2 (by omega),
      hstepk 3 (by omega), hstepk 4 (by omega)]
  have hlast : (update
      (⟨2, 9/5, 3/10, 1/20, -3, 3, 1, 1/4, 1, 1, 6/100, 12/100, 2, 3, 2, 6, 3,
        5, 3, 6/100, 12/100⟩ : DifficultyController ℚ)
      1000 0 0 0).currentUniqueColors = 3 := by
    unfold DifficultyController.update knob1Of candidateOf entropyAfter
      adjustmentOf integralAfter jsRound
    norm_num [min_def, max_def, hf2, ht3, ht6]
  have hne : (runUpdates (init 2 : DifficultyController ℚ)
      (List.replicate 5 ((1000 : ℚ), (0 : ℚ), (0 : ℚ), (0 : ℚ)) ++
        [((1000 : ℚ), (0 : ℚ), (0 : ℚ), (0 : ℚ))])).currentUniqueColors ≠
      (runUpdates (init 2 : DifficultyController ℚ)
        (List.replicate 5 ((1000 : ℚ), (0 : ℚ), (0 : ℚ), (0 : ℚ)))).currentUniqueColors := by
    rw [runUpdates_append]
    rw [hrun]
    intro h
    have h2 : (3 : ℕ) = 2 := by
      rw [← hlast]
      exact h
    exact absurd h2 (by decide)
  exact ⟨hne, (claim_C2_stepHoldGate 2
    (List.replicate 5 ((1000 : ℚ), (0 : ℚ), (0 : ℚ), (0 : ℚ)))
    ((1000 : ℚ), (0 : ℚ), (0 : ℚ), (0 : ℚ))).2 hne⟩

/-- Membership in `setList` agrees with membership in the underlying list. -/
theorem mem_setList {x : ℕ} : ∀ {l : List ℕ}, x ∈ setList l ↔ x ∈ l
  | [] => by simp [setList]
  | a :: l => by
    rw [setList]
    by_cases hxa : x = a
    · subst hxa
      simp
    · simp only [List.mem_cons, hxa, false_or]
      rw [mem_setList (l := l.filter (fun b => b ≠ a))]
      simp [hxa]
termination_by l => l.length
decreasing_by
  simp only [List.length_cons]
  exact Nat.lt_succ_of_le (List.length_filter_le _ _)

/-- `setList` has no duplicates. -/
theorem setList_nodup : ∀ (l : List ℕ), (setList l).Nodup
  | [] => by simp [setList]
  | a :: l => by
    rw [setList]
    refine List.nodup_cons.2 ⟨?_, setList_nodup (l.filter (fun b => b ≠ a))⟩
    intro hmem
    have := mem_setList.1 hmem
    simp at this
termination_by l => l.length
decreasing_by
  simp only [List.length_cons]
  exact Nat.lt_succ_of_le (List.length_filter_le _ _)

/-- The distinct count is the cardinality of the finset of elements. -/
theorem uniqueCount_eq_card (l : List ℕ) : uniqueCount l = l.toFinset.card := by
  unfold uniqueCount
  have h1 : (setList l).toFinset = l.toFinset := by
    ext x
    simp [List.mem_toFinset, mem_setList]
  rw [← h1, List.toFinset_card_of_nodup (setList_nodup l)]

/-- `setList` of a nonempty list starts with its head. -/
theorem setList_head (a : ℕ) (l : List ℕ) :
    setList (a :: l) = a :: setList (l.filter (fun b => b ≠ a)) := by
  rw [setList]

/-- Distinct-count bounds when dropping the head of a list. -/
theorem uniqueCount_cons_bounds (a : ℕ) (tl : List ℕ) :
    uniqueCount (a :: tl) - 1 ≤ uniqueCount tl ∧
      uniqueCount tl ≤ uniqueCount (a :: tl) := by
  rw [uniqueCount_eq_card, uniqueCount_eq_card, List.toFinset_cons]
  constructor
  · have := Finset.card_insert_le a tl.toFinset
    omega
  · exact Finset.card_le_card (Finset.subset_insert a _)

/-- Appending one element: the distinct count is that of the inserted finset. -/
theorem uniqueCount_append_singleton (l : List ℕ) (c : ℕ) :
    uniqueCount (l ++ [c]) = (insert c l.toFinset).card := by
  rw [uniqueCount_eq_card, List.toFinset_append, Finset.union_comm]
  simp [Finset.insert_eq]

/-- Appending an element already present does not change the distinct count. -/
theorem uniqueCount_append_mem {l : List ℕ} {c : ℕ} (h : c ∈ l) :
    uniqueCount (l ++ [c]) = uniqueCount l := by
  rw [uniqueCount_append_singleton, uniqueCount_eq_card,
    Finset.insert_eq_self.2 (List.mem_toFinset.2 h)]

/-- Rotating the head to the back preserves the distinct count. -/
theorem uniqueCount_tail_append_head (a : ℕ) (tl : List ℕ) :
    uniqueCount (tl ++ [a]) = uniqueCount (a :: tl) := by
  rw [uniqueCount_append_singleton, uniqueCount_eq_card, List.toFinset_cons]

/-- The simulated trailing window of `isValidNextColor` in the steady state
(window already holding `n + 1` colors) is the tail of the window with the
candidate appended. -/
theorem simulated_window_eq {w : List ℕ} {n : ℕ} (hlen : w.length = n + 1)
    (c : ℕ) :
    (w ++ [c]).drop ((w ++ [c]).length - (n + 1)) = w.drop 1 ++ [c] := by
  have h1 : (w ++ [c]).length - (n + 1) = 1 := by
    simp [List.length_append, hlen]
  rw [h1, List.drop_append_of_le_length (by omega)]

namespace ColorSequenceGenerator

variable {α : Type} [LinearOrderedField α] [FloorRing α]

/-- In the steady state, `isValidNextColor` accepts exactly the candidates
whose insertion keeps the distinct count at `target`. -/
theorem isValidNextColor_iff (g : ColorSequenceGenerator α) {w : List ℕ}
    (c t : ℕ) (hlen : w.length = g.n + 1) :
    g.isValidNextColor w c t = true ↔ uniqueCount (w.drop 1 ++ [c]) = t := by
  simp only [isValidNextColor]
  rw [simulated_window_eq hlen c, decide_eq_true_eq]

end ColorSequenceGenerator

/-- A uniform pick from a nonempty list with a draw in `[0,1)` succeeds and
returns a member of the list. -/
theorem pickUniform_mem {α : Type} [LinearOrderedField α] [FloorRing α]
    {β : Type} (r : α) (l : List β) (h0 : 0 ≤ r) (h1 : r < 1)
    (hl : 0 < l.length) :
    ∃ c, pickUniform r l = some c ∧ c ∈ l := by
  have hlen : (0 : α) < (l.length : α) := by exact_mod_cast hl
  have hx1 : r * (l.length : α) < (l.length : α) := by
    calc r * (l.length : α) < 1 * (l.length : α) :=
          mul_lt_mul_of_pos_right h1 hlen
      _ = (l.length : α) := one_mul _
  have hfl : ⌊r * (l.length : α)⌋ < (l.length : ℤ) :=
    Int.floor_lt.2 (by exact_mod_cast hx1)
  have hfl0 : (0 : ℤ) ≤ ⌊r * (l.length : α)⌋ :=
    Int.floor_nonneg.2 (mul_nonneg h0 hlen.le)
  have hidx : Int.toNat ⌊r * (l.length : α)⌋ < l.length := by omega
  refine ⟨l.get ⟨_, hidx⟩, ?_, List.get_mem _ _ _⟩
  unfold pickUniform
  exact List.get?_eq_get hidx

namespace ColorSequenceGenerator

variable {α : Type} [LinearOrderedField α] [FloorRing α]

/-- In the steady state with the distinct count already at `target`,
`forceRepair` replays the first distinct color of the window, keeping the
count at `target` after insertion. -/
theorem forceRepair_steady (g : ColorSequenceGenerator α) (σ : ℕ → α)
    (w : List ℕ) (t : ℕ) (hlen : w.length = g.n + 1)
    (hcount : uniqueCount w = t) :
    ∃ c, g.forceRepair σ w t = some c ∧
      uniqueCount (w.drop 1 ++ [c]) = t := by
  obtain ⟨a, tl, rfl⟩ : ∃ a tl, w = a :: tl := by
    cases w with
    | nil => simp at hlen
    | cons a tl => exact ⟨a, tl, rfl⟩
  have hdrop : (a :: tl).length - (g.n + 1) = 0 := by rw [hlen]; omega
  refine ⟨a, ?_, ?_⟩
  · simp only [forceRepair, hdrop, List.drop_zero]
    rw [if_neg]
    · rw [setList_head]
      rfl
    · rintro ⟨hlt, -⟩
      have hcount2 : (setList (a :: tl)).length = t := hcount
      omega
  · simpa using uniqueCount_tail_append_head a tl ▸ hcount

/-- In the steady state, `pickNextWithConstraint` always returns a color and
the returned color keeps the distinct count at `target` after insertion. -/
theorem pickNext_steady (g : ColorSequenceGenerator α) (σ : ℕ → α)
    (hσ : ∀ i, 0 ≤ σ i ∧ σ i < 1) (w cands : List ℕ) (t : ℕ)
    (hlen : w.length = g.n + 1) (hcount : uniqueCount w = t) :
    ∃ c, g.pickNextWithConstraint σ w cands t = some c ∧
      uniqueCount (w.drop 1 ++ [c]) = t := by
  simp only [pickNextWithConstraint]
  by_cases hv :
      0 < (cands.filter (fun c => g.isValidNextColor w c t)).length
  · rw [if_pos hv]
    obtain ⟨c, hpick, hmem⟩ :=
      pickUniform_mem (σ 1) _ (hσ 1).1 (hσ 1).2 hv
    exact ⟨c, hpick,
      (g.isValidNextColor_iff c t hlen).1 (List.mem_filter.1 hmem).2⟩
  · rw [if_neg hv]
    exact g.forceRepair_steady σ w t hlen hcount

end ColorSequenceGenerator

namespace ColorSequenceGenerator

variable {α : Type} [LinearOrderedField α] [FloorRing α]

/-- The post-introduction tail of `generateForMinLoad` (swap-for-novelty then
constrained pick), factored over the already-normalized active set. -/
def minTail (g : ColorSequenceGenerator α) (σ : ℕ → α) (currentWindow : List ℕ)
    (excludeColor : Option ℕ) (target : ℕ) (activeSet : List ℕ) :
    Option ℕ × Option (List ℕ) :=
  let swapResult : Option (Option ℕ × Option (List ℕ)) :=
    if σ 3 < g.swapProbability then
      match pickUniform (σ 5) activeSet with
      | some keep =>
        let availableForSwap := g.availableColors.filter (fun c => c ∉ activeSet)
        if availableForSwap.length > 0 then
          let validReplacements := availableForSwap.filter
            (fun r => g.isValidNextColor currentWindow r target)
          if validReplacements.length > 0 then
            match pickUniform (σ 4) validReplacements with
            | some replacement => some (some replacement, some [keep, replacement])
            | none => some (none, some activeSet)
          else none
        else none
      | none => some (none, some activeSet)
    else none
  match swapResult with
  | some r => r
  | none =>
    let candidates :=
      if excludeColor.isSome then activeSet.filter (fun c => some c ≠ excludeColor)
      else activeSet
    (g.pickNextWithConstraint σ currentWindow candidates target, some activeSet)

/-- The post-introduction tail of `generateForMidLoad`. -/
def midTail (g : ColorSequenceGenerator α) (σ : ℕ → α) (currentWindow : List ℕ)
    (excludeColor : Option ℕ) (target : ℕ) (activeSet : List ℕ) :
    Option ℕ × Option (List ℕ) :=
  let swapResult : Option (Option ℕ × Option (List ℕ)) :=
    if σ 3 < g.swapProbability then
      let keepIndex := Int.toNat ⌊σ 5 * (activeSet.length : α)⌋
      let keep := activeSet.eraseIdx keepIndex
      let availableForSwap := g.availableColors.filter (fun c => c ∉ activeSet)
      if availableForSwap.length > 0 then
        let validReplacements := availableForSwap.filter
          (fun r => g.isValidNextColor currentWindow r target)
        if validReplacements.length > 0 then
          match pickUniform (σ 4) validReplacements with
          | some replacement => some (some replacement, some (keep ++ [replacement]))
          | none => some (none, some activeSet)
        else none
      else none
    else none
  match swapResult with
  | some r => r
  | none =>
    let candidates :=
      if excludeColor.isSome then activeSet.filter (fun c => some c ≠ excludeColor)
      else activeSet
    (g.pickNextWithConstraint σ currentWindow candidates target, some activeSet)

/-- With at least two distinct colors in the window, `generateForMinLoad`
skips the introduction branch and runs its tail on the normalized pair. -/
theorem generateForMinLoad_eq (g : ColorSequenceGenerator α) (σ : ℕ → α)
    (w : List ℕ) (ex : Option ℕ) (t : ℕ) (h2 : ¬ (setList w).length < 2) :
    g.generateForMinLoad σ w ex t =
      g.minTail σ w ex t
        (match g.activeSet with
         | some s => if s.length ≠ 2 then (setList w).take 2 else s
         | none => (setList w).take 2) := by
  simp only [generateForMinLoad, minTail]
  rw [if_neg h2]

/-- With the window already holding `target` distinct colors,
`generateForMidLoad` skips the introduction branch and runs its tail. -/
theorem generateForMidLoad_eq (g : ColorSequenceGenerator α) (σ : ℕ → α)
    (w : List ℕ) (ex : Option ℕ) (t : ℕ) (ht : ¬ (setList w).length < t) :
    g.generateForMidLoad σ w ex t =
      g.midTail σ w ex t
        (match g.activeSet with
         | some s => if s.length ≠ t then (setList w).take t else s
         | none => (setList w).take t) := by
  simp only [generateForMidLoad, midTail]
  rw [if_neg ht]

/-- The min-load tail always emits a color that keeps the distinct count at
`target` in the steady state. -/
theorem minTail_steady (g : ColorSequenceGenerator α) (σ : ℕ → α)
    (hσ : ∀ i, 0 ≤ σ i ∧ σ i < 1) (w : List ℕ) (ex : Option ℕ) (t : ℕ)
    (A : List ℕ) (hlen : w.length = g.n + 1) (hcount : uniqueCount w = t)
    (hA : 0 < A.length) :
    ∃ c, (g.minTail σ w ex t A).1 = some c ∧
      uniqueCount (w.drop 1 ++ [c]) = t := by
  simp only [minTail]
  by_cases hsw : σ 3 < g.swapProbability
  · obtain ⟨keep, hkeep, -⟩ := pickUniform_mem (σ 5) A (hσ 5).1 (hσ 5).2 hA
    simp only [if_pos hsw, hkeep]
    by_cases hav : (g.availableColors.filter (fun c => c ∉ A)).length > 0
    · by_cases hval : ((g.availableColors.filter (fun c => c ∉ A)).filter
          (fun r => g.isValidNextColor w r t)).length > 0
      · obtain ⟨rep, hrep, hmem⟩ :=
          pickUniform_mem (σ 4) _ (hσ 4).1 (hσ 4).2 hval
        simp only [if_pos hav, if_pos hval, hrep]
        exact ⟨rep, rfl, (g.isValidNextColor_iff rep t hlen).1
          (List.mem_filter.1 hmem).2⟩
      · simp only [if_pos hav, if_neg hval]
        exact g.pickNext_steady σ hσ w _ t hlen hcount
    · simp only [if_neg hav]
      exact g.pickNext_steady σ hσ w _ t hlen hcount
  · simp only [if_neg hsw]
    exact g.pickNext_steady σ hσ w _ t hlen hcount

/-- The mid-load tail always emits a color that keeps the distinct count at
`target` in the steady state. -/
theorem midTail_steady (g : ColorSequenceGenerator α) (σ : ℕ → α)
    (hσ : ∀ i, 0 ≤ σ i ∧ σ i < 1) (w : List ℕ) (ex : Option ℕ) (t : ℕ)
    (A : List ℕ) (hlen : w.length = g.n + 1) (hcount : uniqueCount w = t) :
    ∃ c, (g.midTail σ w ex t A).1 = some c ∧
      uniqueCount (w.drop 1 ++ [c]) = t := by
  simp only [midTail]
  by_cases hsw : σ 3 < g.swapProbability
  · by_cases hav : (g.availableColors.filter (fun c => c ∉ A)).length > 0
    · by_cases hval : ((g.availableColors.filter (fun c => c ∉ A)).filter
          (fun r => g.isValidNextColor w r t)).length > 0
      · obtain ⟨rep, hrep, hmem⟩ :=
          pickUniform_mem (σ 4) _ (hσ 4).1 (hσ 4).2 hval
        simp only [if_pos hsw, if_pos hav, if_pos hval, hrep]
        exact ⟨rep, rfl, (g.isValidNextColor_iff rep t hlen).1
          (List.mem_filter.1 hmem).2⟩
      · simp only [if_pos hsw, if_pos hav, if_neg hval]
        exact g.pickNext_steady σ hσ w _ t hlen hcount
    · simp only [if_pos hsw, if_neg hav]
      exact g.pickNext_steady σ hσ w _ t hlen hcount
  · simp only [if_neg hsw]
    exact g.pickNext_steady σ hσ w _ t hlen hcount

end ColorSequenceGenerator

namespace ColorSequenceGenerator

variable {α : Type} [LinearOrderedField α] [FloorRing α]

/-- In the steady state (full window at exactly `target ≥ 2` distinct colors)
every regime of `generateNextColor` emits a color that keeps the distinct
count at `target` after insertion. -/
theorem generateByRegime_steady (g : ColorSequenceGenerator α) (σ : ℕ → α)
    (hσ : ∀ i, 0 ≤ σ i ∧ σ i < 1) (w : List ℕ) (ex : Option ℕ) (t : ℕ)
    (hlen : w.length = g.n + 1) (hcount : uniqueCount w = t) (ht2 : 2 ≤ t) :
    ∃ c, (g.generateByRegime σ w ex t).1 = some c ∧
      uniqueCount (w.drop 1 ++ [c]) = t := by
  have hsl : (setList w).length = t := hcount
  simp only [generateByRegime]
  by_cases h2 : t = 2
  · rw [if_pos h2]
    rw [g.generateForMinLoad_eq σ w ex t (by omega)]
    refine g.minTail_steady σ hσ w ex t _ hlen hcount ?_
    cases hga : g.activeSet with
    | none =>
      simp only [List.length_take, hsl]
      omega
    | some s =>
      show 0 < (if s.length ≠ 2 then List.take 2 (setList w) else s).length
      by_cases hs2 : s.length ≠ 2
      · rw [if_pos hs2]
        simp only [List.length_take, hsl]
        omega
      · rw [if_neg hs2]
        have hs2e : s.length = 2 := not_not.1 hs2
        omega
  · rw [if_neg h2]
    by_cases hmax : t = g.n + 1
    · rw [if_pos hmax]
      simp only [generateForMaxLoad]
      exact g.pickNext_steady σ hσ w _ t hlen hcount
    · rw [if_neg hmax]
      rw [g.generateForMidLoad_eq σ w ex t (by omega)]
      exact g.midTail_steady σ hσ w ex t _ hlen hcount

/-- In the steady state, `generateOrdinary` emits a color that keeps the
distinct count at `target` after insertion. -/
theorem generateOrdinary_steady (g : ColorSequenceGenerator α) (σ : ℕ → α)
    (hσ : ∀ i, 0 ≤ σ i ∧ σ i < 1) (w : List ℕ) (ex : Option ℕ) (t : ℕ)
    (tse : α) (hlen : w.length = g.n + 1) (hcount : uniqueCount w = t)
    (ht2 : 2 ≤ t) :
    ∃ c, (g.generateOrdinary σ w ex t tse).1 = some c ∧
      uniqueCount (w.drop 1 ++ [c]) = t := by
  simp only [generateOrdinary]
  by_cases hrep : tse < 1 ∧ w.length > 0
  · obtain ⟨lc, hlc⟩ : ∃ lc, w.getLast? = some lc := by
      cases w with
      | nil => simp at hlen
      | cons a tl =>
        exact ⟨(a :: tl).getLast (by simp), List.getLast?_eq_getLast _ _⟩
    by_cases hcondi : some lc ≠ ex ∧
        σ 0 < (1 - 1 / ((g.n : α) + 1)) * (1 - tse) ∧
        g.isValidNextColor w lc t = true
    · simp only [if_pos hrep, hlc, if_pos hcondi]
      exact ⟨lc, rfl, (g.isValidNextColor_iff lc t hlen).1 hcondi.2.2⟩
    · simp only [if_pos hrep, hlc, if_neg hcondi]
      exact g.generateByRegime_steady σ hσ w ex t hlen hcount ht2
  · simp only [if_neg hrep]
    exact g.generateByRegime_steady σ hσ w ex t hlen hcount ht2

end ColorSequenceGenerator

/-- With a full window (`n + 1` colors), `addColor` evicts the oldest color. -/
theorem addColor_full (ms : WorkingMemoryState) (c : ℕ)
    (hlen : ms.recentColors.length = ms.n + 1) :
    (ms.addColor c).recentColors = ms.recentColors.drop 1 ++ [c] := by
  have hgt : (ms.recentColors ++ [c]).length > ms.n + 1 := by
    simp only [List.length_append, hlen, List.length_singleton]
    omega
  simp only [WorkingMemoryState.addColor, if_pos hgt]
  exact List.drop_append_of_le_length (by omega)

/-- Claim C1 (amended).  In the steady state — a full `(n+1)`-window whose
distinct count already equals the committed target `tU ≥ 2`, with the n-back
color (when supplied) being the second window entry — `generateNextColor`
always emits a color, and after insertion the trailing window's distinct
count equals `tU`, except possibly on a match trial (emitted color equal to
the n-back color), where it is `tU` or `tU - 1`.  The original claim is
refuted by `claim_C1_counterexample`: during warm-up (window not yet full)
the distinct count can differ from `tU` on a non-match trial. -/
theorem claim_C1_amended {α : Type} [LinearOrderedField α] [FloorRing α]
    (g : ColorSequenceGenerator α) (σ : ℕ → α)
    (tU : ℕ) (shouldMatch isForced : Bool) (nBackColor : Option ℕ) (tse : α)
    (hσ : ∀ i, 0 ≤ σ i ∧ σ i < 1)
    (hms : g.memoryState.n = g.n)
    (hlen : g.memoryState.recentColors.length = g.n + 1)
    (h2 : 2 ≤ tU)
    (hcount : uniqueCount g.memoryState.recentColors = tU)
    (hnb : nBackColor = none ∨
      nBackColor = (g.memoryState.recentColors.drop 1).head?) :
    ∃ c, (g.generateNextColor σ tU shouldMatch nBackColor isForced tse).1
        = some c ∧
      (uniqueCount ((g.memoryState.addColor c).recentColors) = tU ∨
       (shouldMatch = true ∧ nBackColor = some c ∧
        uniqueCount ((g.memoryState.addColor c).recentColors) = tU - 1)) := by
  have hadd : ∀ c, (g.memoryState.addColor c).recentColors
      = g.memoryState.recentColors.drop 1 ++ [c] := by
    intro c
    exact addColor_full g.memoryState c (by rw [hms]; exact hlen)
  have htarget : max 2 tU = tU := max_eq_right h2
  cases shouldMatch with
  | false =>
    obtain ⟨c, hc, hcnt⟩ :=
      ColorSequenceGenerator.generateOrdinary_steady
        { g with
          activeSet := if g.lastTarget ≠ none ∧ g.lastTarget ≠ some tU
            then none else g.activeSet,
          lastTarget := some tU }
        σ hσ g.memoryState.recentColors nBackColor tU tse hlen hcount h2
    refine ⟨c, ?_, Or.inl ?_⟩
    · simp only [ColorSequenceGenerator.generateNextColor, htarget]
      exact hc
    · rw [hadd c]
      exact hcnt
  | true =>
    cases nBackColor with
    | none =>
      obtain ⟨c, hc, hcnt⟩ :=
        ColorSequenceGenerator.generateOrdinary_steady
          { g with
            activeSet := if g.lastTarget ≠ none ∧ g.lastTarget ≠ some tU
              then none else g.activeSet,
            lastTarget := some tU }
          σ hσ g.memoryState.recentColors none tU tse hlen hcount h2
      refine ⟨c, ?_, Or.inl ?_⟩
      · simp only [ColorSequenceGenerator.generateNextColor, htarget]
        exact hc
      · rw [hadd c]
        exact hcnt
    | some nb =>
      obtain ⟨a, tl, hwtl⟩ : ∃ a tl, g.memoryState.recentColors = a :: tl := by
        cases hW : g.memoryState.recentColors with
        | nil => rw [hW] at hlen; simp at hlen
        | cons a tl => exact ⟨a, tl, rfl⟩
      have hdrop1 : g.memoryState.recentColors.drop 1 = tl := by
        rw [hwtl]
        rfl
      have hnbeq : tl.head? = some nb := by
        rcases hnb with h | h
        · exact absurd h (by simp)
        · rw [hdrop1] at h
          exact h.symm
      have hnbmem : nb ∈ tl := by
        cases tl with
        | nil => simp at hnbeq
        | cons x xs =>
          rw [List.head?_cons] at hnbeq
          have hx : x = nb := Option.some.inj hnbeq
          subst hx
          exact List.mem_cons_self _ _
      have hcnt2 : uniqueCount (g.memoryState.recentColors.drop 1 ++ [nb])
          = uniqueCount tl := by
        rw [hdrop1]
        exact uniqueCount_append_mem hnbmem
      have hbounds := uniqueCount_cons_bounds a tl
      have hta : uniqueCount (a :: tl) = tU := by
        rw [← hwtl]
        exact hcount
      have hdisj : uniqueCount tl = tU ∨ uniqueCount tl = tU - 1 := by omega
      have hfinish :
          uniqueCount ((g.memoryState.addColor nb).recentColors) = tU ∨
          ((true = true) ∧ (some nb = some nb) ∧
           uniqueCount ((g.memoryState.addColor nb).recentColors) = tU - 1) := by
        rw [hadd nb, hcnt2]
        rcases hdisj with h | h
        · exact Or.inl h
        · exact Or.inr ⟨rfl, rfl, h⟩
      cases isForced with
      | true =>
        refine ⟨nb, ?_, hfinish⟩
        simp only [ColorSequenceGenerator.generateNextColor, htarget]
        rfl
      | false =>
        by_cases hvm :
            ColorSequenceGenerator.isValidMatchColor
              { g with
                activeSet := if g.lastTarget ≠ none ∧ g.lastTarget ≠ some tU
                  then none else g.activeSet,
                lastTarget := some tU }
              g.memoryState.recentColors nb tU = true
        · refine ⟨nb, ?_, hfinish⟩
          simp only [ColorSequenceGenerator.generateNextColor, htarget]
          rw [if_pos hvm]
          rfl
        · obtain ⟨c, hc, hcnt⟩ :=
            ColorSequenceGenerator.generateOrdinary_steady
              { g with
                activeSet := if g.lastTarget ≠ none ∧ g.lastTarget ≠ some tU
                  then none else g.activeSet,
                lastTarget := some tU }
              σ hσ g.memoryState.recentColors none tU tse hlen hcount h2
          refine ⟨c, ?_, Or.inl ?_⟩
          · simp only [ColorSequenceGenerator.generateNextColor, htarget]
            rw [if_neg hvm]
            exact hc
          · rw [hadd c]
            exact hcnt

/-- Claim C1 is refuted as literally stated ("every trial"): on a warm-up
trial of a fresh generator (window not yet full) with committed target 2, a
non-match trial emits a color after which the trailing window's distinct
count is 1, not the committed 2.  The invariant only holds in the steady
state (see the amended theorem). -/
theorem claim_C1_counterexample :
    ((ColorSequenceGenerator.init 2 [0, 1, 2] :
        ColorSequenceGenerator ℚ).generateNextColor (fun _ => 0) 2 false none
        false 1).1 = some 0 ∧
    uniqueCount (((WorkingMemoryState.init 2).addColor 0).recentColors) = 1 ∧
    (1 : ℕ) ≠ 2 := by
  refine ⟨?_, ?_, by decide⟩
  · norm_num [ColorSequenceGenerator.generateNextColor,
      ColorSequenceGenerator.init, ColorSequenceGenerator.generateOrdinary,
      ColorSequenceGenerator.generateByRegime,
      ColorSequenceGenerator.generateForMinLoad,
      ColorSequenceGenerator.pickNextWithConstraint,
      ColorSequenceGenerator.isValidNextColor, ColorSequenceGenerator.forceRepair,
      pickUniform, uniqueCount, setList, WorkingMemoryState.init,
      Option.some_ne_none, ne_eq, decide_False, Bool.not_false,
      List.filter_true]
  · norm_num [WorkingMemoryState.init, WorkingMemoryState.addColor,
      uniqueCount, setList]

/-- Witness for `claim_C1_amended`: a concrete 1-back generator in the steady
state (full window `[0, 1]` with 2 distinct colors, committed target 2) on a
non-match trial. -/
theorem claim_C1_witness :
    uniqueCount (⟨1, [0, 1], 2⟩ : WorkingMemoryState).recentColors = 2 ∧
    ∃ c, ((⟨1, [0, 1, 2], ⟨1, [0, 1], 2⟩, none, 7 / 10, none⟩ :
          ColorSequenceGenerator ℚ).generateNextColor (fun _ => 0) 2 false
          none false 1).1 = some c ∧
      (uniqueCount (((⟨1, [0, 1], 2⟩ : WorkingMemoryState).addColor c).recentColors)
          = 2 ∨
       (false = true ∧ (none : Option ℕ) = some c ∧
        uniqueCount (((⟨1, [0, 1], 2⟩ : WorkingMemoryState).addColor c).recentColors)
          = 2 - 1)) := by
  constructor
  · simp [uniqueCount, setList]
  · exact claim_C1_amended
      (⟨1, [0, 1, 2], ⟨1, [0, 1], 2⟩, none, 7 / 10, none⟩ :
        ColorSequenceGenerator ℚ)
      (fun _ => 0) 2 false false none 1
      (fun _ => ⟨le_refl 0, by norm_num⟩) rfl rfl (le_refl 2)
      (by simp [uniqueCount, setList]) (Or.inl rfl)

namespace SPRTStopper

/-- The logistic accuracy map is strictly positive. -/
theorem thetaToAccuracy_pos (theta : ℝ) (b : Bool) :
    0 < thetaToAccuracy theta b := by
  unfold thetaToAccuracy
  cases b
  · rw [if_neg (by simp)]
    positivity
  · rw [if_pos rfl]
    positivity

/-- The logistic accuracy map lies strictly below 1. -/
theorem thetaToAccuracy_lt_one (theta : ℝ) (b : Bool) :
    thetaToAccuracy theta b < 1 := by
  unfold thetaToAccuracy
  cases b
  · rw [if_neg (by simp), div_lt_one (by positivity)]
    linarith [Real.exp_pos (-(theta - 0.2) * 1.5)]
  · rw [if_pos rfl, div_lt_one (by positivity)]
    linarith [Real.exp_pos (-(theta - 0.5) * 1.5)]

/-- The logistic accuracy map is strictly increasing in `theta`. -/
theorem thetaToAccuracy_strict {t0 t1 : ℝ} (b : Bool) (h : t1 < t0) :
    thetaToAccuracy t1 b < thetaToAccuracy t0 b := by
  unfold thetaToAccuracy
  cases b
  · rw [if_neg (by simp), if_neg (by simp)]
    refine one_div_lt_one_div_of_lt (by positivity) ?_
    have := Real.exp_lt_exp.2
      (show -(t0 - 0.2) * 1.5 < -(t1 - 0.2) * 1.5 by nlinarith)
    linarith
  · rw [if_pos rfl, if_pos rfl]
    refine one_div_lt_one_div_of_lt (by positivity) ?_
    have := Real.exp_lt_exp.2
      (show -(t0 - 0.5) * 1.5 < -(t1 - 0.5) * 1.5 by nlinarith)
    linarith

/-- On a correct trial the guard of `nextLogLR` holds and the increment is the
log ratio of the two hit probabilities. -/
theorem nextLogLR_correct (s : SPRTStopper) (wasMatch : Bool) :
    s.nextLogLR true wasMatch = s.logLR +
      Real.log (thetaToAccuracy s.theta1 wasMatch /
        thetaToAccuracy s.theta0 wasMatch) := by
  have e : s.nextLogLR true wasMatch =
      if thetaToAccuracy s.theta0 wasMatch > 0 ∧
         thetaToAccuracy s.theta1 wasMatch > 0 then
        s.logLR + Real.log (thetaToAccuracy s.theta1 wasMatch /
          thetaToAccuracy s.theta0 wasMatch)
      else s.logLR := rfl
  rw [e, if_pos ⟨thetaToAccuracy_pos s.theta0 wasMatch,
    thetaToAccuracy_pos s.theta1 wasMatch⟩]

/-- On an incorrect trial the guard of `nextLogLR` holds and the increment is
the log ratio of the two miss probabilities. -/
theorem nextLogLR_incorrect (s : SPRTStopper) (wasMatch : Bool) :
    s.nextLogLR false wasMatch = s.logLR +
      Real.log ((1 - thetaToAccuracy s.theta1 wasMatch) /
        (1 - thetaToAccuracy s.theta0 wasMatch)) := by
  have h0 := thetaToAccuracy_lt_one s.theta0 wasMatch
  have h1 := thetaToAccuracy_lt_one s.theta1 wasMatch
  have e : s.nextLogLR false wasMatch =
      if 1 - thetaToAccuracy s.theta0 wasMatch > 0 ∧
         1 - thetaToAccuracy s.theta1 wasMatch > 0 then
        s.logLR + Real.log ((1 - thetaToAccuracy s.theta1 wasMatch) /
          (1 - thetaToAccuracy s.theta0 wasMatch))
      else s.logLR := rfl
  rw [e, if_pos ⟨by linarith, by linarith⟩]

/-- With `theta1 < theta0`, the correct-trial increment is negative. -/
theorem log_ratio_correct_neg {t0 t1 : ℝ} (b : Bool) (h : t1 < t0) :
    Real.log (thetaToAccuracy t1 b / thetaToAccuracy t0 b) < 0 :=
  Real.log_neg
    (div_pos (thetaToAccuracy_pos t1 b) (thetaToAccuracy_pos t0 b))
    ((div_lt_one (thetaToAccuracy_pos t0 b)).2 (thetaToAccuracy_strict b h))

/-- With `theta1 < theta0`, the incorrect-trial increment is positive. -/
theorem log_ratio_incorrect_pos {t0 t1 : ℝ} (b : Bool) (h : t1 < t0) :
    0 < Real.log ((1 - thetaToAccuracy t1 b) /
      (1 - thetaToAccuracy t0 b)) := by
  have h1 := thetaToAccuracy_lt_one t0 b
  have hs := thetaToAccuracy_strict b h
  exact Real.log_pos ((one_lt_div (by linarith)).2 (by linarith))

/-- `recordTrial` in the interior of the two boundaries just accumulates. -/
theorem recordTrial_mid_eq (s : SPRTStopper) (correct wasMatch : Bool)
    (hst : ¬ s.nextLogLR correct wasMatch ≥ s.stopBound)
    (hac : ¬ s.nextLogLR correct wasMatch ≤ s.acceptBound) :
    s.recordTrial correct wasMatch =
      { s with logLR := s.nextLogLR correct wasMatch,
               trialsRecorded := s.trialsRecorded + 1 } := by
  simp only [recordTrial, if_neg hst, if_neg hac]

/-- `recordTrial` at or below the accept boundary resets `logLR` to 0. -/
theorem recordTrial_accept_eq (s : SPRTStopper) (correct wasMatch : Bool)
    (hst : ¬ s.nextLogLR correct wasMatch ≥ s.stopBound)
    (hac : s.nextLogLR correct wasMatch ≤ s.acceptBound) :
    s.recordTrial correct wasMatch =
      { s with logLR := 0, decision := "continue",
               trialsRecorded := s.trialsRecorded + 1 } := by
  simp only [recordTrial, if_neg hst, if_pos hac]

/-- `runTrials` splits over list append. -/
theorem runTrials_append (s : SPRTStopper) (l1 l2 : List (Bool × Bool)) :
    s.runTrials (l1 ++ l2) = (s.runTrials l1).runTrials l2 := by
  induction l1 generalizing s with
  | nil => rfl
  | cons t rest ih =>
    simp only [List.cons_append, runTrials]
    exact ih _

end SPRTStopper

/-- Taylor bounds for `exp (-0.45)`. -/
theorem exp_neg045_bounds :
    (0.6375 : ℝ) < Real.exp (-0.45) ∧ Real.exp (-0.45) < 0.6377 := by
  have habs : |(-0.45 : ℝ)| = 0.45 := by
    rw [abs_of_nonpos (by norm_num)]
    norm_num
  have h := Real.exp_bound (x := (-0.45 : ℝ)) (by rw [habs]; norm_num)
    (n := 6) (by norm_num)
  rw [habs] at h
  have hsum : ∑ m ∈ Finset.range 6, (-0.45 : ℝ) ^ m / m.factorial
      = 244845051 / 384000000 := by
    simp [Finset.sum_range_succ, Nat.factorial]
    norm_num
  rw [hsum] at h
  norm_num [Nat.factorial] at h
  have h2 := abs_le.1 h
  constructor <;> nlinarith [h2.1, h2.2]

/-- Taylor bounds for `exp (-0.5)`. -/
theorem exp_neg05_bounds :
    (0.60648 : ℝ) < Real.exp (-0.5) ∧ Real.exp (-0.5) < 0.60654 := by
  have habs : |(-0.5 : ℝ)| = 0.5 := by
    rw [abs_of_nonpos (by norm_num)]
    norm_num
  have h := Real.exp_bound (x := (-0.5 : ℝ)) (by rw [habs]; norm_num)
    (n := 6) (by norm_num)
  rw [habs] at h
  have hsum : ∑ m ∈ Finset.range 6, (-0.5 : ℝ) ^ m / m.factorial
      = 2329 / 3840 := by
    simp [Finset.sum_range_succ, Nat.factorial]
    norm_num
  rw [hsum] at h
  norm_num [Nat.factorial] at h
  have h2 := abs_le.1 h
  constructor <;> nlinarith [h2.1, h2.2]

/-- Bounds for `exp (-1.5)`, via `exp (-1) * exp (-0.5)`. -/
theorem exp_neg15_bounds :
    (0.2231 : ℝ) < Real.exp (-1.5) ∧ Real.exp (-1.5) < 0.2232 := by
  have hmul : Real.exp (-1.5 : ℝ) = Real.exp (-1) * Real.exp (-0.5) := by
    rw [← Real.exp_add]
    norm_num
  have h1 := Real.exp_neg_one_gt_d9
  have h2 := Real.exp_neg_one_lt_d9
  have h5 := exp_neg05_bounds
  rw [hmul]
  constructor <;>
    nlinarith [Real.exp_pos (-1 : ℝ), Real.exp_pos (-0.5 : ℝ), h5.1, h5.2]

/-- The per-trial `logLR` increment for a correct target trial at the
stopper's fixed hypotheses `theta0 = 1.5`, `theta1 = 0.8`. -/
noncomputable def sprtCorrectTargetStep : ℝ :=
  Real.log (SPRTStopper.thetaToAccuracy 0.8 true /
    SPRTStopper.thetaToAccuracy 1.5 true)

/-- Numeric location of the correct-target increment: it is negative, seven
increments stay strictly above the accept bound `log (0.10 / 0.95)`, and
eight increments fall strictly below it. -/
theorem sprtCorrectTargetStep_facts :
    sprtCorrectTargetStep < 0 ∧
    Real.log (0.10 / (1 - 0.05)) < 7 * sprtCorrectTargetStep ∧
    8 * sprtCorrectTargetStep < Real.log (0.10 / (1 - 0.05)) := by
  have e1 : SPRTStopper.thetaToAccuracy 0.8 true
      = 1 / (1 + Real.exp (-(0.8 - 0.5) * 1.5)) := rfl
  have e0 : SPRTStopper.thetaToAccuracy 1.5 true
      = 1 / (1 + Real.exp (-(1.5 - 0.5) * 1.5)) := rfl
  rw [show (-(0.8 - 0.5) * 1.5 : ℝ) = -0.45 by norm_num] at e1
  rw [show (-(1.5 - 0.5) * 1.5 : ℝ) = -1.5 by norm_num] at e0
  have hbne : (1 + Real.exp (-0.45) : ℝ) ≠ 0 := by positivity
  have hane : (1 + Real.exp (-1.5) : ℝ) ≠ 0 := by positivity
  have hratio : SPRTStopper.thetaToAccuracy 0.8 true /
      SPRTStopper.thetaToAccuracy 1.5 true
      = (1 + Real.exp (-1.5)) / (1 + Real.exp (-0.45)) := by
    rw [e1, e0]
    field_simp
  have h45 := exp_neg045_bounds
  have h15 := exp_neg15_bounds
  have hr_pos : (0 : ℝ) < (1 + Real.exp (-1.5)) / (1 + Real.exp (-0.45)) := by
    positivity
  have hr_lo : (0.7467 : ℝ)
      < (1 + Real.exp (-1.5)) / (1 + Real.exp (-0.45)) := by
    rw [lt_div_iff₀ (by positivity)]
    nlinarith [h45.2, h15.1]
  have hr_hi : (1 + Real.exp (-1.5)) / (1 + Real.exp (-0.45))
      < (0.7471 : ℝ) := by
    rw [div_lt_iff₀ (by positivity)]
    nlinarith [h45.1, h15.2]
  have hacc_arg : (0.10 / (1 - 0.05) : ℝ) = 2 / 19 := by norm_num
  have hstep : sprtCorrectTargetStep
      = Real.log ((1 + Real.exp (-1.5)) / (1 + Real.exp (-0.45))) := by
    rw [sprtCorrectTargetStep, hratio]
  refine ⟨?_, ?_, ?_⟩
  · rw [hstep]
    exact Real.log_neg hr_pos (by linarith)
  · rw [hstep, hacc_arg]
    have h7 : (2 / 19 : ℝ)
        < ((1 + Real.exp (-1.5)) / (1 + Real.exp (-0.45))) ^ 7 := by
      calc (2 / 19 : ℝ) < 0.7467 ^ 7 := by norm_num
        _ ≤ _ := pow_le_pow_left₀ (by norm_num) hr_lo.le 7
    have := Real.log_lt_log (by norm_num : (0:ℝ) < 2 / 19) h7
    rw [Real.log_pow] at this
    push_cast at this
    linarith
  · rw [hstep, hacc_arg]
    have h8 : ((1 + Real.exp (-1.5)) / (1 + Real.exp (-0.45))) ^ 8
        < (2 / 19 : ℝ) := by
      calc ((1 + Real.exp (-1.5)) / (1 + Real.exp (-0.45))) ^ 8
          ≤ (0.7471 : ℝ) ^ 8 := pow_le_pow_left₀ hr_pos.le hr_hi.le 8
        _ < 2 / 19 := by norm_num
    have := Real.log_lt_log (by positivity) h8
    rw [Real.log_pow] at this
    push_cast at this
    linarith

/-- One correct target trial in the interior region advances the explicit
trace state. -/
theorem sprt_correct_step (n : ℕ) (hn : n + 1 ≤ 7) :
    ({ SPRTStopper.init with
        logLR := (n : ℝ) * sprtCorrectTargetStep,
        trialsRecorded := n } : SPRTStopper).recordTrial true true =
      { SPRTStopper.init with
        logLR := ((n : ℝ) + 1) * sprtCorrectTargetStep,
        trialsRecorded := n + 1 } := by
  have hfacts := sprtCorrectTargetStep_facts
  have hd : Real.log (SPRTStopper.thetaToAccuracy (0.8 : ℝ) true /
      SPRTStopper.thetaToAccuracy 1.5 true) = sprtCorrectTargetStep := rfl
  have hnext : ({ SPRTStopper.init with
      logLR := (n : ℝ) * sprtCorrectTargetStep,
      trialsRecorded := n } : SPRTStopper).nextLogLR true true
      = ((n : ℝ) + 1) * sprtCorrectTargetStep := by
    rw [SPRTStopper.nextLogLR_correct]
    show (n : ℝ) * sprtCorrectTargetStep +
        Real.log (SPRTStopper.thetaToAccuracy (0.8 : ℝ) true /
          SPRTStopper.thetaToAccuracy 1.5 true)
        = ((n : ℝ) + 1) * sprtCorrectTargetStep
    rw [hd]
    ring
  have hcast : (0 : ℝ) < (n : ℝ) + 1 := by positivity
  have hnew_neg : ((n : ℝ) + 1) * sprtCorrectTargetStep < 0 :=
    mul_neg_of_pos_of_neg hcast hfacts.1
  have hstop_pos : (0 : ℝ) < Real.log ((1 - 0.10) / 0.05) :=
    Real.log_pos (by norm_num)
  have hseven : Real.log (0.10 / (1 - 0.05))
      < ((n : ℝ) + 1) * sprtCorrectTargetStep := by
    have hle : ((n : ℝ) + 1) ≤ 7 := by exact_mod_cast hn
    have hmono : 7 * sprtCorrectTargetStep
        ≤ ((n : ℝ) + 1) * sprtCorrectTargetStep :=
      mul_le_mul_of_nonpos_right hle hfacts.1.le
    linarith [hfacts.2.1]
  have hst : ¬ ({ SPRTStopper.init with
      logLR := (n : ℝ) * sprtCorrectTargetStep,
      trialsRecorded := n } : SPRTStopper).nextLogLR true true
      ≥ ({ SPRTStopper.init with
      logLR := (n : ℝ) * sprtCorrectTargetStep,
      trialsRecorded := n } : SPRTStopper).stopBound := by
    rw [hnext]
    show ¬ ((n : ℝ) + 1) * sprtCorrectTargetStep
      ≥ Real.log ((1 - 0.10) / 0.05)
    push_neg
    linarith
  have hac : ¬ ({ SPRTStopper.init with
      logLR := (n : ℝ) * sprtCorrectTargetStep,
      trialsRecorded := n } : SPRTStopper).nextLogLR true true
      ≤ ({ SPRTStopper.init with
      logLR := (n : ℝ) * sprtCorrectTargetStep,
      trialsRecorded := n } : SPRTStopper).acceptBound := by
    rw [hnext]
    show ¬ ((n : ℝ) + 1) * sprtCorrectTargetStep
      ≤ Real.log (0.10 / (1 - 0.05))
    push_neg
    exact hseven
  rw [SPRTStopper.recordTrial_mid_eq _ true true hst hac, hnext]

/-- Explicit state after `k ≤ 7` consecutive correct target trials from a
fresh stopper: `logLR = k` increments, no boundary hit. -/
theorem sprt_correct_trace : ∀ k, k ≤ 7 →
    SPRTStopper.init.runTrials (List.replicate k (true, true)) =
      { SPRTStopper.init with
        logLR := (k : ℝ) * sprtCorrectTargetStep,
        trialsRecorded := k } := by
  intro k
  induction k with
  | zero =>
    intro _
    show SPRTStopper.init = _
    rw [show ((0 : ℕ) : ℝ) * sprtCorrectTargetStep = 0 by push_cast; ring]
    rfl
  | succ n ih =>
    intro hk
    have hstate := ih (by omega)
    rw [List.replicate_succ', SPRTStopper.runTrials_append, hstate]
    show ({ SPRTStopper.init with
        logLR := (n : ℝ) * sprtCorrectTargetStep,
        trialsRecorded := n } : SPRTStopper).recordTrial true true = _
    rw [sprt_correct_step n hk]
    push_cast
    rfl

/-- Claim C7 is refuted as stated: in a run of 8 consecutive correct target
trials from a fresh stopper, the 8th `recordTrial` call strictly increases
`logLR` (the accept boundary resets it from a negative value to 0), so
`logLR` does not strictly decrease at each call of an all-correct run. -/
theorem claim_C7_counterexample :
    (SPRTStopper.init.runTrials (List.replicate 7 (true, true))).logLR <
      ((SPRTStopper.init.runTrials (List.replicate 7 (true, true))).recordTrial
          true true).logLR ∧
    ((SPRTStopper.init.runTrials (List.replicate 7 (true, true))).recordTrial
        true true).logLR = 0 := by
  have hfacts := sprtCorrectTargetStep_facts
  have htr := sprt_correct_trace 7 (le_refl 7)
  rw [htr]
  have hnext : ({ SPRTStopper.init with
      logLR := ((7 : ℕ) : ℝ) * sprtCorrectTargetStep,
      trialsRecorded := 7 } : SPRTStopper).nextLogLR true true
      = 8 * sprtCorrectTargetStep := by
    rw [SPRTStopper.nextLogLR_correct]
    show ((7 : ℕ) : ℝ) * sprtCorrectTargetStep +
        Real.log (SPRTStopper.thetaToAccuracy (0.8 : ℝ) true /
          SPRTStopper.thetaToAccuracy 1.5 true)
        = 8 * sprtCorrectTargetStep
    rw [show Real.log (SPRTStopper.thetaToAccuracy (0.8 : ℝ) true /
        SPRTStopper.thetaToAccuracy 1.5 true) = sprtCorrectTargetStep from rfl]
    push_cast
    ring
  have hstop_pos : (0 : ℝ) < Real.log ((1 - 0.10) / 0.05) :=
    Real.log_pos (by norm_num)
  have hst : ¬ ({ SPRTStopper.init with
      logLR := ((7 : ℕ) : ℝ) * sprtCorrectTargetStep,
      trialsRecorded := 7 } : SPRTStopper).nextLogLR true true
      ≥ ({ SPRTStopper.init with
      logLR := ((7 : ℕ) : ℝ) * sprtCorrectTargetStep,
      trialsRecorded := 7 } : SPRTStopper).stopBound := by
    rw [hnext]
    show ¬ 8 * sprtCorrectTargetStep ≥ Real.log ((1 - 0.10) / 0.05)
    push_neg
    linarith [hfacts.1]
  have hac : ({ SPRTStopper.init with
      logLR := ((7 : ℕ) : ℝ) * sprtCorrectTargetStep,
      trialsRecorded := 7 } : SPRTStopper).nextLogLR true true
      ≤ ({ SPRTStopper.init with
      logLR := ((7 : ℕ) : ℝ) * sprtCorrectTargetStep,
      trialsRecorded := 7 } : SPRTStopper).acceptBound := by
    rw [hnext]
    show 8 * sprtCorrectTargetStep ≤ Real.log (0.10 / (1 - 0.05))
    linarith [hfacts.2.2]
  rw [SPRTStopper.recordTrial_accept_eq _ true true hst hac]
  constructor
  · show ((7 : ℕ) : ℝ) * sprtCorrectTargetStep < 0
    push_cast
    linarith [hfacts.1]
  · rfl

/-- Claim C7 (amended).  With the stopper's committed hypotheses
`theta0 = 1.5 > theta1 = 0.8`, a negative accept bound, and the accept bound
below the stop bound, `recordTrial` on an incorrect trial strictly increases
`logLR` (for both trial types); on a correct trial it strictly decreases
`logLR` while the accept boundary is not reached, and resets `logLR` to
exactly 0 when it is reached — which can be an increase, refuting the
original unconditional claim (see `claim_C7_counterexample`). -/
theorem claim_C7_amended (s : SPRTStopper) (wasMatch : Bool)
    (h0 : s.theta0 = 1.5) (h1 : s.theta1 = 0.8)
    (hacc : s.acceptBound < 0) (hsb : s.acceptBound < s.stopBound) :
    s.logLR < (s.recordTrial false wasMatch).logLR ∧
    (s.acceptBound < s.nextLogLR true wasMatch →
      (s.recordTrial true wasMatch).logLR < s.logLR) ∧
    (s.nextLogLR true wasMatch ≤ s.acceptBound →
      (s.recordTrial true wasMatch).logLR = 0) := by
  have hth : s.theta1 < s.theta0 := by
    rw [h0, h1]
    norm_num
  have hdpos := SPRTStopper.log_ratio_incorrect_pos wasMatch hth
  have hdneg := SPRTStopper.log_ratio_correct_neg wasMatch hth
  have hni := s.nextLogLR_incorrect wasMatch
  have hnc := s.nextLogLR_correct wasMatch
  refine ⟨?_, ?_, ?_⟩
  · by_cases hst : s.nextLogLR false wasMatch ≥ s.stopBound
    · have hrec : s.recordTrial false wasMatch =
          { s with logLR := s.nextLogLR false wasMatch, decision := "stop",
                   trialsRecorded := s.trialsRecorded + 1 } := by
        simp only [SPRTStopper.recordTrial, if_pos hst]
      rw [hrec]
      show s.logLR < s.nextLogLR false wasMatch
      rw [hni]
      linarith
    · by_cases hac2 : s.nextLogLR false wasMatch ≤ s.acceptBound
      · rw [SPRTStopper.recordTrial_accept_eq s false wasMatch hst hac2]
        show s.logLR < 0
        rw [hni] at hac2
        linarith
      · rw [SPRTStopper.recordTrial_mid_eq s false wasMatch hst hac2]
        show s.logLR < s.nextLogLR false wasMatch
        rw [hni]
        linarith
  · intro hgt
    by_cases hst : s.nextLogLR true wasMatch ≥ s.stopBound
    · have hrec : s.recordTrial true wasMatch =
          { s with logLR := s.nextLogLR true wasMatch, decision := "stop",
                   trialsRecorded := s.trialsRecorded + 1 } := by
        simp only [SPRTStopper.recordTrial, if_pos hst]
      rw [hrec]
      show s.nextLogLR true wasMatch < s.logLR
      rw [hnc]
      linarith
    · rw [SPRTStopper.recordTrial_mid_eq s true wasMatch hst (not_le.2 hgt)]
      show s.nextLogLR true wasMatch < s.logLR
      rw [hnc]
      linarith
  · intro hle
    have hst : ¬ s.nextLogLR true wasMatch ≥ s.stopBound := by
      push_neg
      linarith
    rw [SPRTStopper.recordTrial_accept_eq s true wasMatch hst hle]

/-- Witness for `claim_C7_amended` at a concrete stopper state. -/
theorem claim_C7_witness :
    ((⟨1.5, 0.8, 0, 1, -1, "continue", 0⟩ : SPRTStopper).acceptBound < 0) ∧
    ((⟨1.5, 0.8, 0, 1, -1, "continue", 0⟩ : SPRTStopper).logLR <
      ((⟨1.5, 0.8, 0, 1, -1, "continue", 0⟩ :
        SPRTStopper).recordTrial false true).logLR ∧
     ((⟨1.5, 0.8, 0, 1, -1, "continue", 0⟩ : SPRTStopper).acceptBound <
        (⟨1.5, 0.8, 0, 1, -1, "continue", 0⟩ :
          SPRTStopper).nextLogLR true true →
      ((⟨1.5, 0.8, 0, 1, -1, "continue", 0⟩ :
        SPRTStopper).recordTrial true true).logLR <
        (⟨1.5, 0.8, 0, 1, -1, "continue", 0⟩ : SPRTStopper).logLR) ∧
     ((⟨1.5, 0.8, 0, 1, -1, "continue", 0⟩ :
        SPRTStopper).nextLogLR true true ≤
        (⟨1.5, 0.8, 0, 1, -1, "continue", 0⟩ : SPRTStopper).acceptBound →
      ((⟨1.5, 0.8, 0, 1, -1, "continue", 0⟩ :
        SPRTStopper).recordTrial true true).logLR = 0)) :=
  ⟨by norm_num,
   claim_C7_amended (⟨1.5, 0.8, 0, 1, -1, "continue", 0⟩ : SPRTStopper) true
     rfl rfl (by norm_num) (by norm_num)⟩

-- ===========================================================================
-- CLAIM C10 MACHINERY: theta trajectory under consecutive correct target
-- trials
-- ===========================================================================

/-- `countP` over a constant list. -/
theorem countP_replicate {α : Type} (p : α → Bool) (a : α) (n : ℕ) :
    (List.replicate n a).countP p = if p a then n else 0 := by
  induction n with
  | zero => simp
  | succ n ih =>
    rw [List.replicate_succ, List.countP_cons, ih]
    by_cases h : p a
    · simp [h]
    · simp [h]

/-- The raw d-prime value produced when the pushed window consists of `j`
hits and nothing else. -/
noncomputable def dPrimeStep (j : ℕ) : ℝ :=
  computeDPrime (((j : ℝ) + 0.5) / ((j : ℝ) + 1)) 0.5

/-- One correct target trial at 500 ms, as in the claim scenario. -/
noncomputable def trainStep (ab : AbilityModel) : AbilityModel :=
  ab.recordTrial true true 500

/-- The ability model after `k` consecutive correct target trials from a
fresh model. -/
noncomputable def abilityAfter : ℕ → AbilityModel
  | 0 => AbilityModel.init
  | k + 1 => trainStep (abilityAfter k)

/-- The `theta` field of `recordTrial` is the EMA blend. -/
theorem recordTrial_theta (ab : AbilityModel) (w u : Bool) (rt : ℝ) :
    (ab.recordTrial w u rt).theta
      = ab.theta * (1 - ab.thetaAlpha) + ab.rawDPrimeAfter w u * ab.thetaAlpha :=
  rfl

/-- With a window of `k` hits and room to push, the raw d-prime after one
more hit is the `k+1`-hit value. -/
theorem rawDPrime_all_hits (ab : AbilityModel) (k : ℕ)
    (hw : ab.trialWindow = List.replicate k (true, true))
    (hsize : k < ab.windowSize) :
    ab.rawDPrimeAfter true true = dPrimeStep (k + 1) := by
  have hpw : ab.pushedWindow true true = List.replicate (k + 1) (true, true) := by
    unfold AbilityModel.pushedWindow
    rw [hw, ← List.replicate_succ']
    rw [if_neg (by simp [List.length_replicate]; omega)]
  simp only [AbilityModel.rawDPrimeAfter, dPrimeStep]
  rw [hpw, countP_replicate, countP_replicate, countP_replicate,
    countP_replicate]
  norm_num

/-- The trial window stays a pure hit run and the constants stay fixed for
the first 30 trials. -/
theorem abilityAfter_invariants : ∀ k, k ≤ 30 →
    (abilityAfter k).trialWindow = List.replicate k (true, true) ∧
    (abilityAfter k).windowSize = 30 ∧
    (abilityAfter k).thetaAlpha = 0.15 := by
  intro k
  induction k with
  | zero => exact fun _ => ⟨rfl, rfl, rfl⟩
  | succ n ih =>
    intro h
    obtain ⟨hw, hws, hal⟩ := ih (by omega)
    refine ⟨?_, hws, hal⟩
    show ((abilityAfter n).recordTrial true true 500).trialWindow = _
    show (abilityAfter n).pushedWindow true true = _
    unfold AbilityModel.pushedWindow
    rw [hw, ← List.replicate_succ']
    rw [if_neg (by simp [List.length_replicate, hws]; omega)]

/-- The `theta` recursion along the hit run. -/
theorem abilityAfter_theta (k : ℕ) (hk : k ≤ 29) :
    (abilityAfter (k + 1)).theta
      = (abilityAfter k).theta * 0.85 + dPrimeStep (k + 1) * 0.15 := by
  obtain ⟨hw, hws, hal⟩ := abilityAfter_invariants k (by omega)
  show ((abilityAfter k).recordTrial true true 500).theta = _
  rw [recordTrial_theta, hal, rawDPrime_all_hits _ k hw (by omega)]
  norm_num

/-- Central-branch bounds for the inverse-normal approximation at
`3/4`. -/
theorem invNormCentral1 :
    (0.67448974 : ℝ) < invNorm (3 / 4) ∧
    invNorm (3 / 4 : ℝ) < 0.67448977 := by
  simp only [invNorm]
  rw [if_neg (by norm_num), if_pos (by norm_num)]
  constructor
  · rw [lt_div_iff₀ (by norm_num)]
    norm_num
  · rw [div_lt_iff₀ (by norm_num)]
    norm_num

/-- Central-branch bounds for the inverse-normal approximation at
`5/6`. -/
theorem invNormCentral2 :
    (0.96742155 : ℝ) < invNorm (5 / 6) ∧
    invNorm (5 / 6 : ℝ) < 0.96742158 := by
  simp only [invNorm]
  rw [if_neg (by norm_num), if_pos (by norm_num)]
  constructor
  · rw [lt_div_iff₀ (by norm_num)]
    norm_num
  · rw [div_lt_iff₀ (by norm_num)]
    norm_num

/-- Central-branch bounds for the inverse-normal approximation at
`7/8`. -/
theorem invNormCentral3 :
    (1.15034937 : ℝ) < invNorm (7 / 8) ∧
    invNorm (7 / 8 : ℝ) < 1.1503494 := by
  simp only [invNorm]
  rw [if_neg (by norm_num), if_pos (by norm_num)]
  constructor
  · rw [lt_div_iff₀ (by norm_num)]
    norm_num
  · rw [div_lt_iff₀ (by norm_num)]
    norm_num

/-- Central-branch bounds for the inverse-normal approximation at
`9/10`. -/
theorem invNormCentral4 :
    (1.28155155 : ℝ) < invNorm (9 / 10) ∧
    invNorm (9 / 10 : ℝ) < 1.28155158 := by
  simp only [invNorm]
  rw [if_neg (by norm_num), if_pos (by norm_num)]
  constructor
  · rw [lt_div_iff₀ (by norm_num)]
    norm_num
  · rw [div_lt_iff₀ (by norm_num)]
    norm_num

/-- Central-branch bounds for the inverse-normal approximation at
`11/12`. -/
theorem invNormCentral5 :
    (1.38299411 : ℝ) < invNorm (11 / 12) ∧
    invNorm (11 / 12 : ℝ) < 1.38299414 := by
  simp only [invNorm]
  rw [if_neg (by norm_num), if_pos (by norm_num)]
  constructor
  · rw [lt_div_iff₀ (by norm_num)]
    norm_num
  · rw [div_lt_iff₀ (by norm_num)]
    norm_num

/-- Central-branch bounds for the inverse-normal approximation at
`13/14`. -/
theorem invNormCentral6 :
    (1.46523378 : ℝ) < invNorm (13 / 14) ∧
    invNorm (13 / 14 : ℝ) < 1.46523381 := by
  simp only [invNorm]
  rw [if_neg (by norm_num), if_pos (by norm_num)]
  constructor
  · rw [lt_div_iff₀ (by norm_num)]
    norm_num
  · rw [div_lt_iff₀ (by norm_num)]
    norm_num

/-- Central-branch bounds for the inverse-normal approximation at
`15/16`. -/
theorem invNormCentral7 :
    (1.53412053 : ℝ) < invNorm (15 / 16) ∧
    invNorm (15 / 16 : ℝ) < 1.53412056 := by
  simp only [invNorm]
  rw [if_neg (by norm_num), if_pos (by norm_num)]
  constructor
  · rw [lt_div_iff₀ (by norm_num)]
    norm_num
  · rw [div_lt_iff₀ (by norm_num)]
    norm_num

/-- Central-branch bounds for the inverse-normal approximation at
`17/18`. -/
theorem invNormCentral8 :
    (1.5932188 : ℝ) < invNorm (17 / 18) ∧
    invNorm (17 / 18 : ℝ) < 1.59321883 := by
  simp only [invNorm]
  rw [if_neg (by norm_num), if_pos (by norm_num)]
  constructor
  · rw [lt_div_iff₀ (by norm_num)]
    norm_num
  · rw [div_lt_iff₀ (by norm_num)]
    norm_num

/-- Central-branch bounds for the inverse-normal approximation at
`19/20`. -/
theorem invNormCentral9 :
    (1.64485361 : ℝ) < invNorm (19 / 20) ∧
    invNorm (19 / 20 : ℝ) < 1.64485364 := by
  simp only [invNorm]
  rw [if_neg (by norm_num), if_pos (by norm_num)]
  constructor
  · rw [lt_div_iff₀ (by norm_num)]
    norm_num
  · rw [div_lt_iff₀ (by norm_num)]
    norm_num

/-- Central-branch bounds for the inverse-normal approximation at
`21/22`. -/
theorem invNormCentral10 :
    (1.69062161 : ℝ) < invNorm (21 / 22) ∧
    invNorm (21 / 22 : ℝ) < 1.69062164 := by
  simp only [invNorm]
  rw [if_neg (by norm_num), if_pos (by norm_num)]
  constructor
  · rw [lt_div_iff₀ (by norm_num)]
    norm_num
  · rw [div_lt_iff₀ (by norm_num)]
    norm_num

/-- Central-branch bounds for the inverse-normal approximation at
`23/24`. -/
theorem invNormCentral11 :
    (1.73166438 : ℝ) < invNorm (23 / 24) ∧
    invNorm (23 / 24 : ℝ) < 1.73166441 := by
  simp only [invNorm]
  rw [if_neg (by norm_num), if_pos (by norm_num)]
  constructor
  · rw [lt_div_iff₀ (by norm_num)]
    norm_num
  · rw [div_lt_iff₀ (by norm_num)]
    norm_num

/-- Central-branch bounds for the inverse-normal approximation at
`25/26`. -/
theorem invNormCentral12 :
    (1.76882503 : ℝ) < invNorm (25 / 26) ∧
    invNorm (25 / 26 : ℝ) < 1.76882506 := by
  simp only [invNorm]
  rw [if_neg (by norm_num), if_pos (by norm_num)]
  constructor
  · rw [lt_div_iff₀ (by norm_num)]
    norm_num
  · rw [div_lt_iff₀ (by norm_num)]
    norm_num

/-- Central-branch bounds for the inverse-normal approximation at
`27/28`. -/
theorem invNormCentral13 :
    (1.80274308 : ℝ) < invNorm (27 / 28) ∧
    invNorm (27 / 28 : ℝ) < 1.80274311 := by
  simp only [invNorm]
  rw [if_neg (by norm_num), if_pos (by norm_num)]
  constructor
  · rw [lt_div_iff₀ (by norm_num)]
    norm_num
  · rw [div_lt_iff₀ (by norm_num)]
    norm_num

/-- Central-branch bounds for the inverse-normal approximation at
`29/30`. -/
theorem invNormCentral14 :
    (1.83391462 : ℝ) < invNorm (29 / 30) ∧
    invNorm (29 / 30 : ℝ) < 1.83391465 := by
  simp only [invNorm]
  rw [if_neg (by norm_num), if_pos (by norm_num)]
  constructor
  · rw [lt_div_iff₀ (by norm_num)]
    norm_num
  · rw [div_lt_iff₀ (by norm_num)]
    norm_num

/-- Central-branch bounds for the inverse-normal approximation at
`31/32`. -/
theorem invNormCentral15 :
    (1.86273185 : ℝ) < invNorm (31 / 32) ∧
    invNorm (31 / 32 : ℝ) < 1.86273188 := by
  simp only [invNorm]
  rw [if_neg (by norm_num), if_pos (by norm_num)]
  constructor
  · rw [lt_div_iff₀ (by norm_num)]
    norm_num
  · rw [div_lt_iff₀ (by norm_num)]
    norm_num

/-- Central-branch bounds for the inverse-normal approximation at
`33/34`. -/
theorem invNormCentral16 :
    (1.88950994 : ℝ) < invNorm (33 / 34) ∧
    invNorm (33 / 34 : ℝ) < 1.88950997 := by
  simp only [invNorm]
  rw [if_neg (by norm_num), if_pos (by norm_num)]
  constructor
  · rw [lt_div_iff₀ (by norm_num)]
    norm_num
  · rw [div_lt_iff₀ (by norm_num)]
    norm_num

/-- Central-branch bounds for the inverse-normal approximation at
`35/36`. -/
theorem invNormCentral17 :
    (1.91450581 : ℝ) < invNorm (35 / 36) ∧
    invNorm (35 / 36 : ℝ) < 1.91450584 := by
  simp only [invNorm]
  rw [if_neg (by norm_num), if_pos (by norm_num)]
  constructor
  · rw [lt_div_iff₀ (by norm_num)]
    norm_num
  · rw [div_lt_iff₀ (by norm_num)]
    norm_num

/-- Central-branch bounds for the inverse-normal approximation at
`37/38`. -/
theorem invNormCentral18 :
    (1.9379315 : ℝ) < invNorm (37 / 38) ∧
    invNorm (37 / 38 : ℝ) < 1.93793153 := by
  simp only [invNorm]
  rw [if_neg (by norm_num), if_pos (by norm_num)]
  constructor
  · rw [lt_div_iff₀ (by norm_num)]
    norm_num
  · rw [div_lt_iff₀ (by norm_num)]
    norm_num

/-- Central-branch bounds for the inverse-normal approximation at
`39/40`. -/
theorem invNormCentral19 :
    (1.95996397 : ℝ) < invNorm (39 / 40) ∧
    invNorm (39 / 40 : ℝ) < 1.959964 := by
  simp only [invNorm]
  rw [if_neg (by norm_num), if_pos (by norm_num)]
  constructor
  · rw [lt_div_iff₀ (by norm_num)]
    norm_num
  · rw [div_lt_iff₀ (by norm_num)]
    norm_num

set_option maxHeartbeats 2000000 in
/-- Tail-branch bounds for the inverse-normal approximation at
`41/42`. -/
theorem invNormTail20 :
    (1.980752 : ℝ) < invNorm (41 / 42) ∧
    invNorm (41 / 42 : ℝ) < 1.9807528 := by
  have hxabs : |(11 / 32 : ℝ)| = 11 / 32 := abs_of_nonneg (by norm_num)
  have hseries := Real.abs_log_sub_add_sum_range_le
    (x := (11 / 32 : ℝ)) (by rw [hxabs]; norm_num) 14
  rw [hxabs] at hseries
  have hsum : ∑ i ∈ Finset.range 14, (11 / 32 : ℝ) ^ (i + 1) / (i + 1)
      = 814546400114245648798685 / 1933809074735119715008512 := by
    norm_num [Finset.sum_range_succ]
  rw [hsum, show (1 - 11 / 32 : ℝ) = 21 / 32 by norm_num] at hseries
  have hser2 := abs_le.1 hseries
  have hlogm : Real.log 42 = 6 * Real.log 2 + Real.log (21 / 32) := by
    rw [show (42 : ℝ) = 2 ^ 6 * (21 / 32) by norm_num,
      Real.log_mul (by norm_num) (by norm_num), Real.log_pow]
    push_cast
    ring
  have hLl : (3.737669459 : ℝ) < Real.log 42 := by
    rw [hlogm]
    have := Real.log_two_gt_d9
    linarith [hser2.1, hser2.2]
  have hLh : Real.log 42 < (3.7376698 : ℝ) := by
    rw [hlogm]
    have := Real.log_two_lt_d9
    linarith [hser2.1, hser2.2]
  simp only [invNorm]
  rw [if_neg (by norm_num), if_neg (by norm_num)]
  rw [show (-2 : ℝ) * Real.log (1 - 41 / 42) = 2 * Real.log 42 by
    rw [show (1 - 41 / 42 : ℝ) = ((42 : ℝ))⁻¹ by norm_num,
      Real.log_inv]
    ring]
  have hL0 : (0 : ℝ) ≤ 2 * Real.log 42 := by linarith
  have hsq : Real.sqrt (2 * Real.log 42) ^ 2 = 2 * Real.log 42 :=
    Real.sq_sqrt hL0
  have hql : (2.734106603 : ℝ) < Real.sqrt (2 * Real.log 42) := by
    rw [show (2.734106603 : ℝ) = Real.sqrt (2.734106603 ^ 2) from
      (Real.sqrt_sq (by norm_num)).symm]
    exact Real.sqrt_lt_sqrt (by norm_num) (by nlinarith)
  have hqh : Real.sqrt (2 * Real.log 42) < (2.734106728 : ℝ) := by
    rw [show (2.734106728 : ℝ) = Real.sqrt (2.734106728 ^ 2) from
      (Real.sqrt_sq (by norm_num)).symm]
    exact Real.sqrt_lt_sqrt hL0 (by nlinarith)
  set q := Real.sqrt (2 * Real.log 42) with hqdef
  have hq0 : (0 : ℝ) < q := lt_trans (by norm_num) hql
  have h3 : q ^ 3 = 2 * Real.log 42 * q := by
    rw [show q ^ 3 = q ^ 2 * q by ring, hsq]
  have h4 : q ^ 4 = (2 * Real.log 42) ^ 2 := by
    rw [show q ^ 4 = (q ^ 2) ^ 2 by ring, hsq]
  have h5 : q ^ 5 = (2 * Real.log 42) ^ 2 * q := by
    rw [show q ^ 5 = (q ^ 2) ^ 2 * q by ring, hsq]
  have hb2l : (7.475338918 : ℝ) < q ^ 2 := by
    rw [hsq]
    linarith
  have hb2h : q ^ 2 < (7.4753396 : ℝ) := by
    rw [hsq]
    linarith
  have hb3l : (20.438373495366675554 : ℝ) < q ^ 3 := by
    rw [h3]
    nlinarith [hLl, hql, hq0, hLh, hqh]
  have hb3h : q ^ 3 < (20.4383762944448288 : ℝ) := by
    rw [h3]
    nlinarith [hLl, hql, hq0, hLh, hqh]
  have hb4l : (55.880691938965410724 : ℝ) < q ^ 4 := by
    rw [h4]
    nlinarith [hLl, hLh]
  have hb4h : q ^ 4 < (55.88070213532816 : ℝ) := by
    rw [h4]
    nlinarith [hLl, hLh]
  have hb5l : (152.783768810534202449095410572 : ℝ) < q ^ 5 := by
    rw [h5]
    nlinarith [hLl, hLh, hql, hqh, hq0]
  have hb5h : q ^ 5 < (152.78380367356468874386048 : ℝ) := by
    rw [h5]
    nlinarith [hLl, hLh, hql, hqh, hq0]
  have hD : (0 : ℝ) <
      (((0.007784695709041462 * q + 0.3224671290700398) * q +
        2.445134137142996) * q + 3.754408661907416) * q + 1 := by
    nlinarith [hq0, hb2l, hb3l, hb4l]
  constructor
  · rw [lt_neg, div_lt_iff₀ hD]
    linarith [hb2l, hb2h, hb3l, hb3h, hb4l, hb4h, hb5l, hb5h, hql, hqh]
  · rw [neg_lt, lt_div_iff₀ hD]
    linarith [hb2l, hb2h, hb3l, hb3h, hb4l, hb4h, hb5l, hb5h, hql, hqh]

set_option maxHeartbeats 2000000 in
/-- Tail-branch bounds for the inverse-normal approximation at
`43/44`. -/
theorem invNormTail21 :
    (2.0004234 : ℝ) < invNorm (43 / 44) ∧
    invNorm (43 / 44 : ℝ) < 2.0004238 := by
  have hxabs : |(10 / 32 : ℝ)| = 10 / 32 := abs_of_nonneg (by norm_num)
  have hseries := Real.abs_log_sub_add_sum_range_le
    (x := (10 / 32 : ℝ)) (by rw [hxabs]; norm_num) 14
  rw [hxabs] at hseries
  have hsum : ∑ i ∈ Finset.range 14, (10 / 32 : ℝ) ^ (i + 1) / (i + 1)
      = 486477140343236303615 / 1298333729375385550848 := by
    norm_num [Finset.sum_range_succ]
  rw [hsum, show (1 - 10 / 32 : ℝ) = 22 / 32 by norm_num] at hseries
  have hser2 := abs_le.1 hseries
  have hlogm : Real.log 44 = 6 * Real.log 2 + Real.log (22 / 32) := by
    rw [show (44 : ℝ) = 2 ^ 6 * (22 / 32) by norm_num,
      Real.log_mul (by norm_num) (by norm_num), Real.log_pow]
    push_cast
    ring
  have hLl : (3.784189596 : ℝ) < Real.log 44 := by
    rw [hlogm]
    have := Real.log_two_gt_d9
    linarith [hser2.1, hser2.2]
  have hLh : Real.log 44 < (3.784189677 : ℝ) := by
    rw [hlogm]
    have := Real.log_two_lt_d9
    linarith [hser2.1, hser2.2]
  simp only [invNorm]
  rw [if_neg (by norm_num), if_neg (by norm_num)]
  rw [show (-2 : ℝ) * Real.log (1 - 43 / 44) = 2 * Real.log 44 by
    rw [show (1 - 43 / 44 : ℝ) = ((44 : ℝ))⁻¹ by norm_num,
      Real.log_inv]
    ring]
  have hL0 : (0 : ℝ) ≤ 2 * Real.log 44 := by linarith
  have hsq : Real.sqrt (2 * Real.log 44) ^ 2 = 2 * Real.log 44 :=
    Real.sq_sqrt hL0
  have hql : (2.751068736 : ℝ) < Real.sqrt (2 * Real.log 44) := by
    rw [show (2.751068736 : ℝ) = Real.sqrt (2.751068736 ^ 2) from
      (Real.sqrt_sq (by norm_num)).symm]
    exact Real.sqrt_lt_sqrt (by norm_num) (by nlinarith)
  have hqh : Real.sqrt (2 * Real.log 44) < (2.751068766 : ℝ) := by
    rw [show (2.751068766 : ℝ) = Real.sqrt (2.751068766 ^ 2) from
      (Real.sqrt_sq (by norm_num)).symm]
    exact Real.sqrt_lt_sqrt hL0 (by nlinarith)
  set q := Real.sqrt (2 * Real.log 44) with hqdef
  have hq0 : (0 : ℝ) < q := lt_trans (by norm_num) hql
  have h3 : q ^ 3 = 2 * Real.log 44 * q := by
    rw [show q ^ 3 = q ^ 2 * q by ring, hsq]
  have h4 : q ^ 4 = (2 * Real.log 44) ^ 2 := by
    rw [show q ^ 4 = (q ^ 2) ^ 2 by ring, hsq]
  have h5 : q ^ 5 = (2 * Real.log 44) ^ 2 * q := by
    rw [show q ^ 5 = (q ^ 2) ^ 2 * q by ring, hsq]
  have hb2l : (7.568379192 : ℝ) < q ^ 2 := by
    rw [hsq]
    linarith
  have hb2h : q ^ 2 < (7.568379354 : ℝ) := by
    rw [hsq]
    linarith
  have hb3l : (20.821131377304141312 : ℝ) < q ^ 3 := by
    rw [h3]
    nlinarith [hLl, hql, hq0, hLh, hqh]
  have hb3h : q ^ 3 < (20.821132050028657164 : ℝ) := by
    rw [h3]
    nlinarith [hLl, hql, hq0, hLh, hqh]
  have hb4l : (57.280363593898572864 : ℝ) < q ^ 4 := by
    rw [h4]
    nlinarith [hLl, hLh]
  have hb4h : q ^ 4 < (57.280366046053457316 : ℝ) := by
    rw [h4]
    nlinarith [hLl, hLh]
  have hb5l : (157.582217469886964161168379904 : ℝ) < q ^ 5 := by
    rw [h5]
    nlinarith [hLl, hLh, hql, hqh, hq0]
  have hb5h : q ^ 5 < (157.582225934344583988361792056 : ℝ) := by
    rw [h5]
    nlinarith [hLl, hLh, hql, hqh, hq0]
  have hD : (0 : ℝ) <
      (((0.007784695709041462 * q + 0.3224671290700398) * q +
        2.445134137142996) * q + 3.754408661907416) * q + 1 := by
    nlinarith [hq0, hb2l, hb3l, hb4l]
  constructor
  · rw [lt_neg, div_lt_iff₀ hD]
    linarith [hb2l, hb2h, hb3l, hb3h, hb4l, hb4h, hb5l, hb5h, hql, hqh]
  · rw [neg_lt, lt_div_iff₀ hD]
    linarith [hb2l, hb2h, hb3l, hb3h, hb4l, hb4h, hb5l, hb5h, hql, hqh]

set_option maxHeartbeats 2000000 in
/-- Tail-branch bounds for the inverse-normal approximation at
`45/46`. -/
theorem invNormTail22 :
    (2.019086 : ℝ) < invNorm (45 / 46) ∧
    invNorm (45 / 46 : ℝ) < 2.0190864 := by
  have hxabs : |(9 / 32 : ℝ)| = 9 / 32 := abs_of_nonneg (by norm_num)
  have hseries := Real.abs_log_sub_add_sum_range_le
    (x := (9 / 32 : ℝ)) (by rw [hxabs]; norm_num) 14
  rw [hxabs] at hseries
  have hsum : ∑ i ∈ Finset.range 14, (9 / 32 : ℝ) ^ (i + 1) / (i + 1)
      = 3902704483159123826849307 / 11817722123381287147274240 := by
    norm_num [Finset.sum_range_succ]
  rw [hsum, show (1 - 9 / 32 : ℝ) = 23 / 32 by norm_num] at hseries
  have hser2 := abs_le.1 hseries
  have hlogm : Real.log 46 = 6 * Real.log 2 + Real.log (23 / 32) := by
    rw [show (46 : ℝ) = 2 ^ 6 * (23 / 32) by norm_num,
      Real.log_mul (by norm_num) (by norm_num), Real.log_pow]
    push_cast
    ring
  have hLl : (3.828641387 : ℝ) < Real.log 46 := by
    rw [hlogm]
    have := Real.log_two_gt_d9
    linarith [hser2.1, hser2.2]
  have hLh : Real.log 46 < (3.828641407 : ℝ) := by
    rw [hlogm]
    have := Real.log_two_lt_d9
    linarith [hser2.1, hser2.2]
  simp only [invNorm]
  rw [if_neg (by norm_num), if_neg (by norm_num)]
  rw [show (-2 : ℝ) * Real.log (1 - 45 / 46) = 2 * Real.log 46 by
    rw [show (1 - 45 / 46 : ℝ) = ((46 : ℝ))⁻¹ by norm_num,
      Real.log_inv]
    ring]
  have hL0 : (0 : ℝ) ≤ 2 * Real.log 46 := by linarith
  have hsq : Real.sqrt (2 * Real.log 46) ^ 2 = 2 * Real.log 46 :=
    Real.sq_sqrt hL0
  have hql : (2.76717957 : ℝ) < Real.sqrt (2 * Real.log 46) := by
    rw [show (2.76717957 : ℝ) = Real.sqrt (2.76717957 ^ 2) from
      (Real.sqrt_sq (by norm_num)).symm]
    exact Real.sqrt_lt_sqrt (by norm_num) (by nlinarith)
  have hqh : Real.sqrt (2 * Real.log 46) < (2.767179578 : ℝ) := by
    rw [show (2.767179578 : ℝ) = Real.sqrt (2.767179578 ^ 2) from
      (Real.sqrt_sq (by norm_num)).symm]
    exact Real.sqrt_lt_sqrt hL0 (by nlinarith)
  set q := Real.sqrt (2 * Real.log 46) with hqdef
  have hq0 : (0 : ℝ) < q := lt_trans (by norm_num) hql
  have h3 : q ^ 3 = 2 * Real.log 46 * q := by
    rw [show q ^ 3 = q ^ 2 * q by ring, hsq]
  have h4 : q ^ 4 = (2 * Real.log 46) ^ 2 := by
    rw [show q ^ 4 = (q ^ 2) ^ 2 by ring, hsq]
  have h5 : q ^ 5 = (2 * Real.log 46) ^ 2 * q := by
    rw [show q ^ 5 = (q ^ 2) ^ 2 * q by ring, hsq]
  have hb2l : (7.657282774 : ℝ) < q ^ 2 := by
    rw [hsq]
    linarith
  have hb2h : q ^ 2 < (7.657282814 : ℝ) := by
    rw [hsq]
    linarith
  have hb3l : (21.18907645392572718 : ℝ) < q ^ 3 := by
    rw [h3]
    nlinarith [hLl, hql, hq0, hLh, hqh]
  have hb3h : q ^ 3 < (21.189076625871172492 : ℝ) := by
    rw [h3]
    nlinarith [hLl, hql, hq0, hLh, hqh]
  have hb4l : (58.633979480997135076 : ℝ) < q ^ 4 := by
    rw [h4]
    nlinarith [hLl, hLh]
  have hb4h : q ^ 4 < (58.633980093579758596 : ℝ) := by
    rw [h4]
    nlinarith [hLl, hLh]
  have hb5l : (162.25075012761447541083759732 : ℝ) < q ^ 5 := by
    rw [h5]
    nlinarith [hLl, hLh, hql, hqh, hq0]
  have hb5h : q ^ 5 < (162.250752291812436901021152488 : ℝ) := by
    rw [h5]
    nlinarith [hLl, hLh, hql, hqh, hq0]
  have hD : (0 : ℝ) <
      (((0.007784695709041462 * q + 0.3224671290700398) * q +
        2.445134137142996) * q + 3.754408661907416) * q + 1 := by
    nlinarith [hq0, hb2l, hb3l, hb4l]
  constructor
  · rw [lt_neg, div_lt_iff₀ hD]
    linarith [hb2l, hb2h, hb3l, hb3h, hb4l, hb4h, hb5l, hb5h, hql, hqh]
  · rw [neg_lt, lt_div_iff₀ hD]
    linarith [hb2l, hb2h, hb3l, hb3h, hb4l, hb4h, hb5l, hb5h, hql, hqh]

set_option maxHeartbeats 2000000 in
/-- Tail-branch bounds for the inverse-normal approximation at
`47/48`. -/
theorem invNormTail23 :
    (2.036834 : ℝ) < invNorm (47 / 48) ∧
    invNorm (47 / 48 : ℝ) < 2.0368343 := by
  have hxabs : |(8 / 32 : ℝ)| = 8 / 32 := abs_of_nonneg (by norm_num)
  have hseries := Real.abs_log_sub_add_sum_range_le
    (x := (8 / 32 : ℝ)) (by rw [hxabs]; norm_num) 14
  rw [hxabs] at hseries
  have hsum : ∑ i ∈ Finset.range 14, (8 / 32 : ℝ) ^ (i + 1) / (i + 1)
      = 6957116311331 / 24183350231040 := by
    norm_num [Finset.sum_range_succ]
  rw [hsum, show (1 - 8 / 32 : ℝ) = 24 / 32 by norm_num] at hseries
  have hser2 := abs_le.1 hseries
  have hlogm : Real.log 48 = 6 * Real.log 2 + Real.log (24 / 32) := by
    rw [show (48 : ℝ) = 2 ^ 6 * (24 / 32) by norm_num,
      Real.log_mul (by norm_num) (by norm_num), Real.log_pow]
    push_cast
    ring
  have hLl : (3.871201008 : ℝ) < Real.log 48 := by
    rw [hlogm]
    have := Real.log_two_gt_d9
    linarith [hser2.1, hser2.2]
  have hLh : Real.log 48 < (3.871201014 : ℝ) := by
    rw [hlogm]
    have := Real.log_two_lt_d9
    linarith [hser2.1, hser2.2]
  simp only [invNorm]
  rw [if_neg (by norm_num), if_neg (by norm_num)]
  rw [show (-2 : ℝ) * Real.log (1 - 47 / 48) = 2 * Real.log 48 by
    rw [show (1 - 47 / 48 : ℝ) = ((48 : ℝ))⁻¹ by norm_num,
      Real.log_inv]
    ring]
  have hL0 : (0 : ℝ) ≤ 2 * Real.log 48 := by linarith
  have hsq : Real.sqrt (2 * Real.log 48) ^ 2 = 2 * Real.log 48 :=
    Real.sq_sqrt hL0
  have hql : (2.782517208 : ℝ) < Real.sqrt (2 * Real.log 48) := by
    rw [show (2.782517208 : ℝ) = Real.sqrt (2.782517208 ^ 2) from
      (Real.sqrt_sq (by norm_num)).symm]
    exact Real.sqrt_lt_sqrt (by norm_num) (by nlinarith)
  have hqh : Real.sqrt (2 * Real.log 48) < (2.782517211 : ℝ) := by
    rw [show (2.782517211 : ℝ) = Real.sqrt (2.782517211 ^ 2) from
      (Real.sqrt_sq (by norm_num)).symm]
    exact Real.sqrt_lt_sqrt hL0 (by nlinarith)
  set q := Real.sqrt (2 * Real.log 48) with hqdef
  have hq0 : (0 : ℝ) < q := lt_trans (by norm_num) hql
  have h3 : q ^ 3 = 2 * Real.log 48 * q := by
    rw [show q ^ 3 = q ^ 2 * q by ring, hsq]
  have h4 : q ^ 4 = (2 * Real.log 48) ^ 2 := by
    rw [show q ^ 4 = (q ^ 2) ^ 2 by ring, hsq]
  have h5 : q ^ 5 = (2 * Real.log 48) ^ 2 * q := by
    rw [show q ^ 5 = (q ^ 2) ^ 2 * q by ring, hsq]
  have hb2l : (7.742402016 : ℝ) < q ^ 2 := by
    rw [hsq]
    linarith
  have hb2h : q ^ 2 < (7.742402028 : ℝ) := by
    rw [hsq]
    linarith
  have hb3l : (21.543366840773891328 : ℝ) < q ^ 3 := by
    rw [h3]
    nlinarith [hLl, hql, hq0, hLh, hqh]
  have hb3h : q ^ 3 < (21.543366897391303908 : ℝ) := by
    rw [h3]
    nlinarith [hLl, hql, hq0, hLh, hqh]
  have hb4l : (59.944788977360864256 : ℝ) < q ^ 4 := by
    rw [h4]
    nlinarith [hLl, hLh]
  have hb4h : q ^ 4 < (59.944789163178512784 : ℝ) := by
    rw [h4]
    nlinarith [hLl, hLh]
  have hb5l : (166.797406859435327218072117248 : ℝ) < q ^ 5 := by
    rw [h5]
    nlinarith [hLl, hLh, hql, hqh, hq0]
  have hb5h : q ^ 5 < (166.797407556310499286863525424 : ℝ) := by
    rw [h5]
    nlinarith [hLl, hLh, hql, hqh, hq0]
  have hD : (0 : ℝ) <
      (((0.007784695709041462 * q + 0.3224671290700398) * q +
        2.445134137142996) * q + 3.754408661907416) * q + 1 := by
    nlinarith [hq0, hb2l, hb3l, hb4l]
  constructor
  · rw [lt_neg, div_lt_iff₀ hD]
    linarith [hb2l, hb2h, hb3l, hb3h, hb4l, hb4h, hb5l, hb5h, hql, hqh]
  · rw [neg_lt, lt_div_iff₀ hD]
    linarith [hb2l, hb2h, hb3l, hb3h, hb4l, hb4h, hb5l, hb5h, hql, hqh]

set_option maxHeartbeats 2000000 in
/-- Tail-branch bounds for the inverse-normal approximation at
`49/50`. -/
theorem invNormTail24 :
    (2.0537488 : ℝ) < invNorm (49 / 50) ∧
    invNorm (49 / 50 : ℝ) < 2.0537491 := by
  have hxabs : |(7 / 32 : ℝ)| = 7 / 32 := abs_of_nonneg (by norm_num)
  have hseries := Real.abs_log_sub_add_sum_range_le
    (x := (7 / 32 : ℝ)) (by rw [hxabs]; norm_num) 14
  rw [hxabs] at hseries
  have hsum : ∑ i ∈ Finset.range 14, (7 / 32 : ℝ) ^ (i + 1) / (i + 1)
      = 3750844891148280956863189 / 15194214158633083475066880 := by
    norm_num [Finset.sum_range_succ]
  rw [hsum, show (1 - 7 / 32 : ℝ) = 25 / 32 by norm_num] at hseries
  have hser2 := abs_le.1 hseries
  have hlogm : Real.log 50 = 6 * Real.log 2 + Real.log (25 / 32) := by
    rw [show (50 : ℝ) = 2 ^ 6 * (25 / 32) by norm_num,
      Real.log_mul (by norm_num) (by norm_num), Real.log_pow]
    push_cast
    ring
  have hLl : (3.912023003 : ℝ) < Real.log 50 := by
    rw [hlogm]
    have := Real.log_two_gt_d9
    linarith [hser2.1, hser2.2]
  have hLh : Real.log 50 < (3.912023008 : ℝ) := by
    rw [hlogm]
    have := Real.log_two_lt_d9
    linarith [hser2.1, hser2.2]
  simp only [invNorm]
  rw [if_neg (by norm_num), if_neg (by norm_num)]
  rw [show (-2 : ℝ) * Real.log (1 - 49 / 50) = 2 * Real.log 50 by
    rw [show (1 - 49 / 50 : ℝ) = ((50 : ℝ))⁻¹ by norm_num,
      Real.log_inv]
    ring]
  have hL0 : (0 : ℝ) ≤ 2 * Real.log 50 := by linarith
  have hsq : Real.sqrt (2 * Real.log 50) ^ 2 = 2 * Real.log 50 :=
    Real.sq_sqrt hL0
  have hql : (2.797149621 : ℝ) < Real.sqrt (2 * Real.log 50) := by
    rw [show (2.797149621 : ℝ) = Real.sqrt (2.797149621 ^ 2) from
      (Real.sqrt_sq (by norm_num)).symm]
    exact Real.sqrt_lt_sqrt (by norm_num) (by nlinarith)
  have hqh : Real.sqrt (2 * Real.log 50) < (2.797149624 : ℝ) := by
    rw [show (2.797149624 : ℝ) = Real.sqrt (2.797149624 ^ 2) from
      (Real.sqrt_sq (by norm_num)).symm]
    exact Real.sqrt_lt_sqrt hL0 (by nlinarith)
  set q := Real.sqrt (2 * Real.log 50) with hqdef
  have hq0 : (0 : ℝ) < q := lt_trans (by norm_num) hql
  have h3 : q ^ 3 = 2 * Real.log 50 * q := by
    rw [show q ^ 3 = q ^ 2 * q by ring, hsq]
  have h4 : q ^ 4 = (2 * Real.log 50) ^ 2 := by
    rw [show q ^ 4 = (q ^ 2) ^ 2 by ring, hsq]
  have h5 : q ^ 5 = (2 * Real.log 50) ^ 2 * q := by
    rw [show q ^ 5 = (q ^ 2) ^ 2 * q by ring, hsq]
  have hb2l : (7.824046006 : ℝ) < q ^ 2 := by
    rw [hsq]
    linarith
  have hb2h : q ^ 2 < (7.824046016 : ℝ) := by
    rw [hsq]
    linarith
  have hb3l : (21.885027320369463726 : ℝ) < q ^ 3 := by
    rw [h3]
    nlinarith [hLl, hql, hq0, hLh, hqh]
  have hb3h : q ^ 3 < (21.885027371813097984 : ℝ) := by
    rw [h3]
    nlinarith [hLl, hql, hq0, hLh, hqh]
  have hb4l : (61.215695904004552036 : ℝ) < q ^ 4 := by
    rw [h4]
    nlinarith [hLl, hLh]
  have hb4h : q ^ 4 < (61.215696060485472256 : ℝ) := by
    rw [h4]
    nlinarith [hLl, hLh]
  have hb5l : (171.229460597137585109772178356 : ℝ) < q ^ 5 := by
    rw [h5]
    nlinarith [hLl, hLh, hql, hqh, hq0]
  have hb5h : q ^ 5 < (171.229461218485219978332831744 : ℝ) := by
    rw [h5]
    nlinarith [hLl, hLh, hql, hqh, hq0]
  have hD : (0 : ℝ) <
      (((0.007784695709041462 * q + 0.3224671290700398) * q +
        2.445134137142996) * q + 3.754408661907416) * q + 1 := by
    nlinarith [hq0, hb2l, hb3l, hb4l]
  constructor
  · rw [lt_neg, div_lt_iff₀ hD]
    linarith [hb2l, hb2h, hb3l, hb3h, hb4l, hb4h, hb5l, hb5h, hql, hqh]
  · rw [neg_lt, lt_div_iff₀ hD]
    linarith [hb2l, hb2h, hb3l, hb3h, hb4l, hb4h, hb5l, hb5h, hql, hqh]

set_option maxHeartbeats 2000000 in
/-- Tail-branch bounds for the inverse-normal approximation at
`51/52`. -/
theorem invNormTail25 :
    (2.0699017 : ℝ) < invNorm (51 / 52) ∧
    invNorm (51 / 52 : ℝ) < 2.069902 := by
  have hxabs : |(6 / 32 : ℝ)| = 6 / 32 := abs_of_nonneg (by norm_num)
  have hseries := Real.abs_log_sub_add_sum_range_le
    (x := (6 / 32 : ℝ)) (by rw [hxabs]; norm_num) 14
  rw [hxabs] at hseries
  have hsum : ∑ i ∈ Finset.range 14, (6 / 32 : ℝ) ^ (i + 1) / (i + 1)
      = 4279130013275667345 / 20608471894847389696 := by
    norm_num [Finset.sum_range_succ]
  rw [hsum, show (1 - 6 / 32 : ℝ) = 26 / 32 by norm_num] at hseries
  have hser2 := abs_le.1 hseries
  have hlogm : Real.log 52 = 6 * Real.log 2 + Real.log (26 / 32) := by
    rw [show (52 : ℝ) = 2 ^ 6 * (26 / 32) by norm_num,
      Real.log_mul (by norm_num) (by norm_num), Real.log_pow]
    push_cast
    ring
  have hLl : (3.951243717 : ℝ) < Real.log 52 := by
    rw [hlogm]
    have := Real.log_two_gt_d9
    linarith [hser2.1, hser2.2]
  have hLh : Real.log 52 < (3.951243721 : ℝ) := by
    rw [hlogm]
    have := Real.log_two_lt_d9
    linarith [hser2.1, hser2.2]
  simp only [invNorm]
  rw [if_neg (by norm_num), if_neg (by norm_num)]
  rw [show (-2 : ℝ) * Real.log (1 - 51 / 52) = 2 * Real.log 52 by
    rw [show (1 - 51 / 52 : ℝ) = ((52 : ℝ))⁻¹ by norm_num,
      Real.log_inv]
    ring]
  have hL0 : (0 : ℝ) ≤ 2 * Real.log 52 := by linarith
  have hsq : Real.sqrt (2 * Real.log 52) ^ 2 = 2 * Real.log 52 :=
    Real.sq_sqrt hL0
  have hql : (2.811136324 : ℝ) < Real.sqrt (2 * Real.log 52) := by
    rw [show (2.811136324 : ℝ) = Real.sqrt (2.811136324 ^ 2) from
      (Real.sqrt_sq (by norm_num)).symm]
    exact Real.sqrt_lt_sqrt (by norm_num) (by nlinarith)
  have hqh : Real.sqrt (2 * Real.log 52) < (2.811136326 : ℝ) := by
    rw [show (2.811136326 : ℝ) = Real.sqrt (2.811136326 ^ 2) from
      (Real.sqrt_sq (by norm_num)).symm]
    exact Real.sqrt_lt_sqrt hL0 (by nlinarith)
  set q := Real.sqrt (2 * Real.log 52) with hqdef
  have hq0 : (0 : ℝ) < q := lt_trans (by norm_num) hql
  have h3 : q ^ 3 = 2 * Real.log 52 * q := by
    rw [show q ^ 3 = q ^ 2 * q by ring, hsq]
  have h4 : q ^ 4 = (2 * Real.log 52) ^ 2 := by
    rw [show q ^ 4 = (q ^ 2) ^ 2 by ring, hsq]
  have h5 : q ^ 5 = (2 * Real.log 52) ^ 2 * q := by
    rw [show q ^ 5 = (q ^ 2) ^ 2 * q by ring, hsq]
  have hb2l : (7.902487434 : ℝ) < q ^ 2 := by
    rw [hsq]
    linarith
  have hb2h : q ^ 2 < (7.902487442 : ℝ) := by
    rw [hsq]
    linarith
  have hb3l : (22.214969475670952616 : ℝ) < q ^ 3 := by
    rw [h3]
    nlinarith [hLl, hql, hq0, hLh, hqh]
  have hb3h : q ^ 3 < (22.214969513965018092 : ℝ) := by
    rw [h3]
    nlinarith [hLl, hql, hq0, hLh, hqh]
  have hb4l : (62.449307644527904356 : ℝ) < q ^ 4 := by
    rw [h4]
    nlinarith [hLl, hLh]
  have hb4h : q ^ 4 < (62.449307770967703364 : ℝ) := by
    rw [h4]
    nlinarith [hLl, hLh]
  have hb5l : (175.553517128183271766749427344 : ℝ) < q ^ 5 := by
    rw [h5]
    nlinarith [hLl, hLh, hql, hqh, hq0]
  have hb5h : q ^ 5 < (175.553517608521399099332800664 : ℝ) := by
    rw [h5]
    nlinarith [hLl, hLh, hql, hqh, hq0]
  have hD : (0 : ℝ) <
      (((0.007784695709041462 * q + 0.3224671290700398) * q +
        2.445134137142996) * q + 3.754408661907416) * q + 1 := by
    nlinarith [hq0, hb2l, hb3l, hb4l]
  constructor
  · rw [lt_neg, div_lt_iff₀ hD]
    linarith [hb2l, hb2h, hb3l, hb3h, hb4l, hb4h, hb5l, hb5h, hql, hqh]
  · rw [neg_lt, lt_div_iff₀ hD]
    linarith [hb2l, hb2h, hb3l, hb3h, hb4l, hb4h, hb5l, hb5h, hql, hqh]

set_option maxHeartbeats 2000000 in
/-- Tail-branch bounds for the inverse-normal approximation at
`53/54`. -/
theorem invNormTail26 :
    (2.0853554 : ℝ) < invNorm (53 / 54) ∧
    invNorm (53 / 54 : ℝ) < 2.0853557 := by
  have hxabs : |(5 / 32 : ℝ)| = 5 / 32 := abs_of_nonneg (by norm_num)
  have hseries := Real.abs_log_sub_add_sum_range_le
    (x := (5 / 32 : ℝ)) (by rw [hxabs]; norm_num) 14
  rw [hxabs] at hseries
  have hsum : ∑ i ∈ Finset.range 14, (5 / 32 : ℝ) ^ (i + 1) / (i + 1)
      = 3614075290579309795165855 / 21271899822086316865093632 := by
    norm_num [Finset.sum_range_succ]
  rw [hsum, show (1 - 5 / 32 : ℝ) = 27 / 32 by norm_num] at hseries
  have hser2 := abs_le.1 hseries
  have hlogm : Real.log 54 = 6 * Real.log 2 + Real.log (27 / 32) := by
    rw [show (54 : ℝ) = 2 ^ 6 * (27 / 32) by norm_num,
      Real.log_mul (by norm_num) (by norm_num), Real.log_pow]
    push_cast
    ring
  have hLl : (3.988984045 : ℝ) < Real.log 54 := by
    rw [hlogm]
    have := Real.log_two_gt_d9
    linarith [hser2.1, hser2.2]
  have hLh : Real.log 54 < (3.988984049 : ℝ) := by
    rw [hlogm]
    have := Real.log_two_lt_d9
    linarith [hser2.1, hser2.2]
  simp only [invNorm]
  rw [if_neg (by norm_num), if_neg (by norm_num)]
  rw [show (-2 : ℝ) * Real.log (1 - 53 / 54) = 2 * Real.log 54 by
    rw [show (1 - 53 / 54 : ℝ) = ((54 : ℝ))⁻¹ by norm_num,
      Real.log_inv]
    ring]
  have hL0 : (0 : ℝ) ≤ 2 * Real.log 54 := by linarith
  have hsq : Real.sqrt (2 * Real.log 54) ^ 2 = 2 * Real.log 54 :=
    Real.sq_sqrt hL0
  have hql : (2.824529711 : ℝ) < Real.sqrt (2 * Real.log 54) := by
    rw [show (2.824529711 : ℝ) = Real.sqrt (2.824529711 ^ 2) from
      (Real.sqrt_sq (by norm_num)).symm]
    exact Real.sqrt_lt_sqrt (by norm_num) (by nlinarith)
  have hqh : Real.sqrt (2 * Real.log 54) < (2.824529713 : ℝ) := by
    rw [show (2.824529713 : ℝ) = Real.sqrt (2.824529713 ^ 2) from
      (Real.sqrt_sq (by norm_num)).symm]
    exact Real.sqrt_lt_sqrt hL0 (by nlinarith)
  set q := Real.sqrt (2 * Real.log 54) with hqdef
  have hq0 : (0 : ℝ) < q := lt_trans (by norm_num) hql
  have h3 : q ^ 3 = 2 * Real.log 54 * q := by
    rw [show q ^ 3 = q ^ 2 * q by ring, hsq]
  have h4 : q ^ 4 = (2 * Real.log 54) ^ 2 := by
    rw [show q ^ 4 = (q ^ 2) ^ 2 by ring, hsq]
  have h5 : q ^ 5 = (2 * Real.log 54) ^ 2 * q := by
    rw [show q ^ 5 = (q ^ 2) ^ 2 * q by ring, hsq]
  have hb2l : (7.97796809 : ℝ) < q ^ 2 := by
    rw [hsq]
    linarith
  have hb2h : q ^ 2 < (7.977968098 : ℝ) := by
    rw [hsq]
    linarith
  have hb3l : (22.53400790361492199 : ℝ) < q ^ 3 := by
    rw [h3]
    nlinarith [hLl, hql, hq0, hLh, hqh]
  have hb3h : q ^ 3 < (22.534007942167095874 : ℝ) := by
    rw [h3]
    nlinarith [hLl, hql, hq0, hLh, hqh]
  have hb4l : (63.6479748450582481 : ℝ) < q ^ 4 := by
    rw [h4]
    nlinarith [hLl, hLh]
  have hb4h : q ^ 4 < (63.647974972705737604 : ℝ) := by
    rw [h4]
    nlinarith [hLl, hLh]
  have hb5l : (179.7755959948476432840592991 : ℝ) < q ^ 5 := by
    rw [h5]
    nlinarith [hLl, hLh, hql, hqh, hq0]
  have hb5h : q ^ 5 < (179.775596482687719868079427652 : ℝ) := by
    rw [h5]
    nlinarith [hLl, hLh, hql, hqh, hq0]
  have hD : (0 : ℝ) <
      (((0.007784695709041462 * q + 0.3224671290700398) * q +
        2.445134137142996) * q + 3.754408661907416) * q + 1 := by
    nlinarith [hq0, hb2l, hb3l, hb4l]
  constructor
  · rw [lt_neg, div_lt_iff₀ hD]
    linarith [hb2l, hb2h, hb3l, hb3h, hb4l, hb4h, hb5l, hb5h, hql, hqh]
  · rw [neg_lt, lt_div_iff₀ hD]
    linarith [hb2l, hb2h, hb3l, hb3h, hb4l, hb4h, hb5l, hb5h, hql, hqh]

set_option maxHeartbeats 2000000 in
/-- Tail-branch bounds for the inverse-normal approximation at
`55/56`. -/
theorem invNormTail27 :
    (2.1001653 : ℝ) < invNorm (55 / 56) ∧
    invNorm (55 / 56 : ℝ) < 2.1001656 := by
  have hxabs : |(4 / 32 : ℝ)| = 4 / 32 := abs_of_nonneg (by norm_num)
  have hseries := Real.abs_log_sub_add_sum_range_le
    (x := (4 / 32 : ℝ)) (by rw [hxabs]; norm_num) 14
  rw [hxabs] at hseries
  have hsum : ∑ i ∈ Finset.range 14, (4 / 32 : ℝ) ^ (i + 1) / (i + 1)
      = 52907809745752723 / 396220010185359360 := by
    norm_num [Finset.sum_range_succ]
  rw [hsum, show (1 - 4 / 32 : ℝ) = 28 / 32 by norm_num] at hseries
  have hser2 := abs_le.1 hseries
  have hlogm : Real.log 56 = 6 * Real.log 2 + Real.log (28 / 32) := by
    rw [show (56 : ℝ) = 2 ^ 6 * (28 / 32) by norm_num,
      Real.log_mul (by norm_num) (by norm_num), Real.log_pow]
    push_cast
    ring
  have hLl : (4.025351689 : ℝ) < Real.log 56 := by
    rw [hlogm]
    have := Real.log_two_gt_d9
    linarith [hser2.1, hser2.2]
  have hLh : Real.log 56 < (4.025351693 : ℝ) := by
    rw [hlogm]
    have := Real.log_two_lt_d9
    linarith [hser2.1, hser2.2]
  simp only [invNorm]
  rw [if_neg (by norm_num), if_neg (by norm_num)]
  rw [show (-2 : ℝ) * Real.log (1 - 55 / 56) = 2 * Real.log 56 by
    rw [show (1 - 55 / 56 : ℝ) = ((56 : ℝ))⁻¹ by norm_num,
      Real.log_inv]
    ring]
  have hL0 : (0 : ℝ) ≤ 2 * Real.log 56 := by linarith
  have hsq : Real.sqrt (2 * Real.log 56) ^ 2 = 2 * Real.log 56 :=
    Real.sq_sqrt hL0
  have hql : (2.837376143 : ℝ) < Real.sqrt (2 * Real.log 56) := by
    rw [show (2.837376143 : ℝ) = Real.sqrt (2.837376143 ^ 2) from
      (Real.sqrt_sq (by norm_num)).symm]
    exact Real.sqrt_lt_sqrt (by norm_num) (by nlinarith)
  have hqh : Real.sqrt (2 * Real.log 56) < (2.837376145 : ℝ) := by
    rw [show (2.837376145 : ℝ) = Real.sqrt (2.837376145 ^ 2) from
      (Real.sqrt_sq (by norm_num)).symm]
    exact Real.sqrt_lt_sqrt hL0 (by nlinarith)
  set q := Real.sqrt (2 * Real.log 56) with hqdef
  have hq0 : (0 : ℝ) < q := lt_trans (by norm_num) hql
  have h3 : q ^ 3 = 2 * Real.log 56 * q := by
    rw [show q ^ 3 = q ^ 2 * q by ring, hsq]
  have h4 : q ^ 4 = (2 * Real.log 56) ^ 2 := by
    rw [show q ^ 4 = (q ^ 2) ^ 2 by ring, hsq]
  have h5 : q ^ 5 = (2 * Real.log 56) ^ 2 * q := by
    rw [show q ^ 5 = (q ^ 2) ^ 2 * q by ring, hsq]
  have hb2l : (8.050703378 : ℝ) < q ^ 2 := by
    rw [hsq]
    linarith
  have hb2h : q ^ 2 < (8.050703386 : ℝ) := by
    rw [hsq]
    linarith
  have hb3l : (22.842873699106711054 : ℝ) < q ^ 3 := by
    rw [h3]
    nlinarith [hLl, hql, hq0, hLh, hqh]
  have hb3h : q ^ 3 < (22.84287373790712697 : ℝ) := by
    rw [h3]
    nlinarith [hLl, hql, hq0, hLh, hqh]
  have hb4l : (64.813824880540610884 : ℝ) < q ^ 4 := by
    rw [h4]
    nlinarith [hLl, hLh]
  have hb4h : q ^ 4 < (64.813825009351864996 : ℝ) := by
    rw [h4]
    nlinarith [hLl, hLh]
  have hb5l : (183.901200452625754264907740412 : ℝ) < q ^ 5 := by
    rw [h5]
    nlinarith [hLl, hLh, hql, hqh, hq0]
  have hb5h : q ^ 5 < (183.90120094773938365091092042 : ℝ) := by
    rw [h5]
    nlinarith [hLl, hLh, hql, hqh, hq0]
  have hD : (0 : ℝ) <
      (((0.007784695709041462 * q + 0.3224671290700398) * q +
        2.445134137142996) * q + 3.754408661907416) * q + 1 := by
    nlinarith [hq0, hb2l, hb3l, hb4l]
  constructor
  · rw [lt_neg, div_lt_iff₀ hD]
    linarith [hb2l, hb2h, hb3l, hb3h, hb4l, hb4h, hb5l, hb5h, hql, hqh]
  · rw [neg_lt, lt_div_iff₀ hD]
    linarith [hb2l, hb2h, hb3l, hb3h, hb4l, hb4h, hb5l, hb5h, hql, hqh]

set_option maxHeartbeats 2000000 in
/-- Tail-branch bounds for the inverse-normal approximation at
`57/58`. -/
theorem invNormTail28 :
    (2.1143806 : ℝ) < invNorm (57 / 58) ∧
    invNorm (57 / 58 : ℝ) < 2.1143809 := by
  have hxabs : |(3 / 32 : ℝ)| = 3 / 32 := abs_of_nonneg (by norm_num)
  have hseries := Real.abs_log_sub_add_sum_range_le
    (x := (3 / 32 : ℝ)) (by rw [hxabs]; norm_num) 14
  rw [hxabs] at hseries
  have hsum : ∑ i ∈ Finset.range 14, (3 / 32 : ℝ) ^ (i + 1) / (i + 1)
      = 1163337426312438758501811 / 11817722123381287147274240 := by
    norm_num [Finset.sum_range_succ]
  rw [hsum, show (1 - 3 / 32 : ℝ) = 29 / 32 by norm_num] at hseries
  have hser2 := abs_le.1 hseries
  have hlogm : Real.log 58 = 6 * Real.log 2 + Real.log (29 / 32) := by
    rw [show (58 : ℝ) = 2 ^ 6 * (29 / 32) by norm_num,
      Real.log_mul (by norm_num) (by norm_num), Real.log_pow]
    push_cast
    ring
  have hLl : (4.060443008 : ℝ) < Real.log 58 := by
    rw [hlogm]
    have := Real.log_two_gt_d9
    linarith [hser2.1, hser2.2]
  have hLh : Real.log 58 < (4.060443012 : ℝ) := by
    rw [hlogm]
    have := Real.log_two_lt_d9
    linarith [hser2.1, hser2.2]
  simp only [invNorm]
  rw [if_neg (by norm_num), if_neg (by norm_num)]
  rw [show (-2 : ℝ) * Real.log (1 - 57 / 58) = 2 * Real.log 58 by
    rw [show (1 - 57 / 58 : ℝ) = ((58 : ℝ))⁻¹ by norm_num,
      Real.log_inv]
    ring]
  have hL0 : (0 : ℝ) ≤ 2 * Real.log 58 := by linarith
  have hsq : Real.sqrt (2 * Real.log 58) ^ 2 = 2 * Real.log 58 :=
    Real.sq_sqrt hL0
  have hql : (2.84971683 : ℝ) < Real.sqrt (2 * Real.log 58) := by
    rw [show (2.84971683 : ℝ) = Real.sqrt (2.84971683 ^ 2) from
      (Real.sqrt_sq (by norm_num)).symm]
    exact Real.sqrt_lt_sqrt (by norm_num) (by nlinarith)
  have hqh : Real.sqrt (2 * Real.log 58) < (2.849716833 : ℝ) := by
    rw [show (2.849716833 : ℝ) = Real.sqrt (2.849716833 ^ 2) from
      (Real.sqrt_sq (by norm_num)).symm]
    exact Real.sqrt_lt_sqrt hL0 (by nlinarith)
  set q := Real.sqrt (2 * Real.log 58) with hqdef
  have hq0 : (0 : ℝ) < q := lt_trans (by norm_num) hql
  have h3 : q ^ 3 = 2 * Real.log 58 * q := by
    rw [show q ^ 3 = q ^ 2 * q by ring, hsq]
  have h4 : q ^ 4 = (2 * Real.log 58) ^ 2 := by
    rw [show q ^ 4 = (q ^ 2) ^ 2 by ring, hsq]
  have h5 : q ^ 5 = (2 * Real.log 58) ^ 2 * q := by
    rw [show q ^ 5 = (q ^ 2) ^ 2 * q by ring, hsq]
  have hb2l : (8.120886016 : ℝ) < q ^ 2 := by
    rw [hsq]
    linarith
  have hb2h : q ^ 2 < (8.120886024 : ℝ) := by
    rw [hsq]
    linarith
  have hb3l : (23.14222555430684928 : ℝ) < q ^ 3 := by
    rw [h3]
    nlinarith [hLl, hql, hq0, hLh, hqh]
  have hb3h : q ^ 3 < (23.142225601467241992 : ℝ) := by
    rw [h3]
    nlinarith [hLl, hql, hq0, hLh, hqh]
  have hb4l : (65.948789684864352256 : ℝ) < q ^ 4 := by
    rw [h4]
    nlinarith [hLl, hLh]
  have hb4h : q ^ 4 < (65.948789814798528576 : ℝ) := by
    rw [h4]
    nlinarith [hLl, hLh]
  have hb5l : (187.93537588308834089097166848 : ℝ) < q ^ 5 := by
    rw [h5]
    nlinarith [hLl, hLh, hql, hqh, hq0]
  have hb5h : q ^ 5 < (187.935376451210319386658719808 : ℝ) := by
    rw [h5]
    nlinarith [hLl, hLh, hql, hqh, hq0]
  have hD : (0 : ℝ) <
      (((0.007784695709041462 * q + 0.3224671290700398) * q +
        2.445134137142996) * q + 3.754408661907416) * q + 1 := by
    nlinarith [hq0, hb2l, hb3l, hb4l]
  constructor
  · rw [lt_neg, div_lt_iff₀ hD]
    linarith [hb2l, hb2h, hb3l, hb3h, hb4l, hb4h, hb5l, hb5h, hql, hqh]
  · rw [neg_lt, lt_div_iff₀ hD]
    linarith [hb2l, hb2h, hb3l, hb3h, hb4l, hb4h, hb5l, hb5h, hql, hqh]

set_option maxHeartbeats 2000000 in
/-- Tail-branch bounds for the inverse-normal approximation at
`59/60`. -/
theorem invNormTail29 :
    (2.1280451 : ℝ) < invNorm (59 / 60) ∧
    invNorm (59 / 60 : ℝ) < 2.1280454 := by
  have hxabs : |(2 / 32 : ℝ)| = 2 / 32 := abs_of_nonneg (by norm_num)
  have hseries := Real.abs_log_sub_add_sum_range_le
    (x := (2 / 32 : ℝ)) (by rw [hxabs]; norm_num) 14
  rw [hxabs] at hseries
  have hsum : ∑ i ∈ Finset.range 14, (2 / 32 : ℝ) ^ (i + 1) / (i + 1)
      = 418962694184574647747 / 6491668646876927754240 := by
    norm_num [Finset.sum_range_succ]
  rw [hsum, show (1 - 2 / 32 : ℝ) = 30 / 32 by norm_num] at hseries
  have hser2 := abs_le.1 hseries
  have hlogm : Real.log 60 = 6 * Real.log 2 + Real.log (30 / 32) := by
    rw [show (60 : ℝ) = 2 ^ 6 * (30 / 32) by norm_num,
      Real.log_mul (by norm_num) (by norm_num), Real.log_pow]
    push_cast
    ring
  have hLl : (4.09434456 : ℝ) < Real.log 60 := by
    rw [hlogm]
    have := Real.log_two_gt_d9
    linarith [hser2.1, hser2.2]
  have hLh : Real.log 60 < (4.094344564 : ℝ) := by
    rw [hlogm]
    have := Real.log_two_lt_d9
    linarith [hser2.1, hser2.2]
  simp only [invNorm]
  rw [if_neg (by norm_num), if_neg (by norm_num)]
  rw [show (-2 : ℝ) * Real.log (1 - 59 / 60) = 2 * Real.log 60 by
    rw [show (1 - 59 / 60 : ℝ) = ((60 : ℝ))⁻¹ by norm_num,
      Real.log_inv]
    ring]
  have hL0 : (0 : ℝ) ≤ 2 * Real.log 60 := by linarith
  have hsq : Real.sqrt (2 * Real.log 60) ^ 2 = 2 * Real.log 60 :=
    Real.sq_sqrt hL0
  have hql : (2.861588565 : ℝ) < Real.sqrt (2 * Real.log 60) := by
    rw [show (2.861588565 : ℝ) = Real.sqrt (2.861588565 ^ 2) from
      (Real.sqrt_sq (by norm_num)).symm]
    exact Real.sqrt_lt_sqrt (by norm_num) (by nlinarith)
  have hqh : Real.sqrt (2 * Real.log 60) < (2.861588568 : ℝ) := by
    rw [show (2.861588568 : ℝ) = Real.sqrt (2.861588568 ^ 2) from
      (Real.sqrt_sq (by norm_num)).symm]
    exact Real.sqrt_lt_sqrt hL0 (by nlinarith)
  set q := Real.sqrt (2 * Real.log 60) with hqdef
  have hq0 : (0 : ℝ) < q := lt_trans (by norm_num) hql
  have h3 : q ^ 3 = 2 * Real.log 60 * q := by
    rw [show q ^ 3 = q ^ 2 * q by ring, hsq]
  have h4 : q ^ 4 = (2 * Real.log 60) ^ 2 := by
    rw [show q ^ 4 = (q ^ 2) ^ 2 by ring, hsq]
  have h5 : q ^ 5 = (2 * Real.log 60) ^ 2 * q := by
    rw [show q ^ 5 = (q ^ 2) ^ 2 * q by ring, hsq]
  have hb2l : (8.18868912 : ℝ) < q ^ 2 := by
    rw [hsq]
    linarith
  have hb2h : q ^ 2 < (8.188689128 : ℝ) := by
    rw [hsq]
    linarith
  have hb3l : (23.4326591481319128 : ℝ) < q ^ 3 := by
    rw [h3]
    nlinarith [hLl, hql, hq0, hLh, hqh]
  have hb3h : q ^ 3 < (23.432659195590688704 : ℝ) := by
    rw [h3]
    nlinarith [hLl, hql, hq0, hLh, hqh]
  have hb4l : (67.0546295040063744 : ℝ) < q ^ 4 := by
    rw [h4]
    nlinarith [hLl, hLh]
  have hb4h : q ^ 4 < (67.054629635025400384 : ℝ) := by
    rw [h4]
    nlinarith [hLl, hLh]
  have hb5l : (191.882761018976262670148736 : ℝ) < q ^ 5 := by
    rw [h5]
    nlinarith [hLl, hLh, hql, hqh, hq0]
  have hb5h : q ^ 5 < (191.882761595062698128477210112 : ℝ) := by
    rw [h5]
    nlinarith [hLl, hLh, hql, hqh, hq0]
  have hD : (0 : ℝ) <
      (((0.007784695709041462 * q + 0.3224671290700398) * q +
        2.445134137142996) * q + 3.754408661907416) * q + 1 := by
    nlinarith [hq0, hb2l, hb3l, hb4l]
  constructor
  · rw [lt_neg, div_lt_iff₀ hD]
    linarith [hb2l, hb2h, hb3l, hb3h, hb4l, hb4h, hb5l, hb5h, hql, hqh]
  · rw [neg_lt, lt_div_iff₀ hD]
    linarith [hb2l, hb2h, hb3l, hb3h, hb4l, hb4h, hb5l, hb5h, hql, hqh]

set_option maxHeartbeats 2000000 in
/-- Tail-branch bounds for the inverse-normal approximation at
`61/62`. -/
theorem invNormTail30 :
    (2.141198 : ℝ) < invNorm (61 / 62) ∧
    invNorm (61 / 62 : ℝ) < 2.1411983 := by
  have hxabs : |(1 / 32 : ℝ)| = 1 / 32 := abs_of_nonneg (by norm_num)
  have hseries := Real.abs_log_sub_add_sum_range_le
    (x := (1 / 32 : ℝ)) (by rw [hxabs]; norm_num) 14
  rw [hxabs] at hseries
  have hsum : ∑ i ∈ Finset.range 14, (1 / 32 : ℝ) ^ (i + 1) / (i + 1)
      = 675355130029392856295495 / 21271899822086316865093632 := by
    norm_num [Finset.sum_range_succ]
  rw [hsum, show (1 - 1 / 32 : ℝ) = 31 / 32 by norm_num] at hseries
  have hser2 := abs_le.1 hseries
  have hlogm : Real.log 62 = 6 * Real.log 2 + Real.log (31 / 32) := by
    rw [show (62 : ℝ) = 2 ^ 6 * (31 / 32) by norm_num,
      Real.log_mul (by norm_num) (by norm_num), Real.log_pow]
    push_cast
    ring
  have hLl : (4.127134383 : ℝ) < Real.log 62 := by
    rw [hlogm]
    have := Real.log_two_gt_d9
    linarith [hser2.1, hser2.2]
  have hLh : Real.log 62 < (4.127134387 : ℝ) := by
    rw [hlogm]
    have := Real.log_two_lt_d9
    linarith [hser2.1, hser2.2]
  simp only [invNorm]
  rw [if_neg (by norm_num), if_neg (by norm_num)]
  rw [show (-2 : ℝ) * Real.log (1 - 61 / 62) = 2 * Real.log 62 by
    rw [show (1 - 61 / 62 : ℝ) = ((62 : ℝ))⁻¹ by norm_num,
      Real.log_inv]
    ring]
  have hL0 : (0 : ℝ) ≤ 2 * Real.log 62 := by linarith
  have hsq : Real.sqrt (2 * Real.log 62) ^ 2 = 2 * Real.log 62 :=
    Real.sq_sqrt hL0
  have hql : (2.873024323 : ℝ) < Real.sqrt (2 * Real.log 62) := by
    rw [show (2.873024323 : ℝ) = Real.sqrt (2.873024323 ^ 2) from
      (Real.sqrt_sq (by norm_num)).symm]
    exact Real.sqrt_lt_sqrt (by norm_num) (by nlinarith)
  have hqh : Real.sqrt (2 * Real.log 62) < (2.873024326 : ℝ) := by
    rw [show (2.873024326 : ℝ) = Real.sqrt (2.873024326 ^ 2) from
      (Real.sqrt_sq (by norm_num)).symm]
    exact Real.sqrt_lt_sqrt hL0 (by nlinarith)
  set q := Real.sqrt (2 * Real.log 62) with hqdef
  have hq0 : (0 : ℝ) < q := lt_trans (by norm_num) hql
  have h3 : q ^ 3 = 2 * Real.log 62 * q := by
    rw [show q ^ 3 = q ^ 2 * q by ring, hsq]
  have h4 : q ^ 4 = (2 * Real.log 62) ^ 2 := by
    rw [show q ^ 4 = (q ^ 2) ^ 2 by ring, hsq]
  have h5 : q ^ 5 = (2 * Real.log 62) ^ 2 * q := by
    rw [show q ^ 5 = (q ^ 2) ^ 2 * q by ring, hsq]
  have hb2l : (8.254268766 : ℝ) < q ^ 2 := by
    rw [hsq]
    linarith
  have hb2h : q ^ 2 < (8.254268774 : ℝ) := by
    rw [hsq]
    linarith
  have hb3l : (23.714714933297195418 : ℝ) < q ^ 3 := by
    rw [h3]
    nlinarith [hLl, hql, hq0, hLh, hqh]
  have hb3h : q ^ 3 < (23.714714981044196324 : ℝ) := by
    rw [h3]
    nlinarith [hLl, hql, hq0, hLh, hqh]
  have hb4l : (68.132952861363162756 : ℝ) < q ^ 4 := by
    rw [h4]
    nlinarith [hLl, hLh]
  have hb4h : q ^ 4 < (68.132952993431463076 : ℝ) := by
    rw [h4]
    nlinarith [hLl, hLh]
  have hb5l : (195.747630768508813534195714188 : ℝ) < q ^ 5 := by
    rw [h5]
    nlinarith [hLl, hLh, hql, hqh, hq0]
  have hb5h : q ^ 5 < (195.747631352343111631118786776 : ℝ) := by
    rw [h5]
    nlinarith [hLl, hLh, hql, hqh, hq0]
  have hD : (0 : ℝ) <
      (((0.007784695709041462 * q + 0.3224671290700398) * q +
        2.445134137142996) * q + 3.754408661907416) * q + 1 := by
    nlinarith [hq0, hb2l, hb3l, hb4l]
  constructor
  · rw [lt_neg, div_lt_iff₀ hD]
    linarith [hb2l, hb2h, hb3l, hb3h, hb4l, hb4h, hb5l, hb5h, hql, hqh]
  · rw [neg_lt, lt_div_iff₀ hD]
    linarith [hb2l, hb2h, hb3l, hb3h, hb4l, hb4h, hb5l, hb5h, hql, hqh]

/-- Bounds for the `1`-hit raw d-prime value. -/
theorem dPrimeStepB1 :
    (0.67448974 : ℝ) < dPrimeStep 1 ∧ dPrimeStep 1 < 0.67448977 := by
  have e : dPrimeStep 1 = invNorm (3 / 4) := by
    unfold dPrimeStep computeDPrime
    rw [show (max 0.01 (min 0.99 ((((1 : ℕ) : ℝ) + 0.5) / (((1 : ℕ) : ℝ) + 1))) : ℝ)
        = 3 / 4 by norm_num,
      show (max 0.01 (min 0.99 (0.5 : ℝ)) : ℝ) = 1 / 2 by norm_num,
      invNorm_half, sub_zero]
  rw [e]
  exact invNormCentral1

/-- Bounds for the `2`-hit raw d-prime value. -/
theorem dPrimeStepB2 :
    (0.96742155 : ℝ) < dPrimeStep 2 ∧ dPrimeStep 2 < 0.96742158 := by
  have e : dPrimeStep 2 = invNorm (5 / 6) := by
    unfold dPrimeStep computeDPrime
    rw [show (max 0.01 (min 0.99 ((((2 : ℕ) : ℝ) + 0.5) / (((2 : ℕ) : ℝ) + 1))) : ℝ)
        = 5 / 6 by norm_num,
      show (max 0.01 (min 0.99 (0.5 : ℝ)) : ℝ) = 1 / 2 by norm_num,
      invNorm_half, sub_zero]
  rw [e]
  exact invNormCentral2

/-- Bounds for the `3`-hit raw d-prime value. -/
theorem dPrimeStepB3 :
    (1.15034937 : ℝ) < dPrimeStep 3 ∧ dPrimeStep 3 < 1.1503494 := by
  have e : dPrimeStep 3 = invNorm (7 / 8) := by
    unfold dPrimeStep computeDPrime
    rw [show (max 0.01 (min 0.99 ((((3 : ℕ) : ℝ) + 0.5) / (((3 : ℕ) : ℝ) + 1))) : ℝ)
        = 7 / 8 by norm_num,
      show (max 0.01 (min 0.99 (0.5 : ℝ)) : ℝ) = 1 / 2 by norm_num,
      invNorm_half, sub_zero]
  rw [e]
  exact invNormCentral3

/-- Bounds for the `4`-hit raw d-prime value. -/
theorem dPrimeStepB4 :
    (1.28155155 : ℝ) < dPrimeStep 4 ∧ dPrimeStep 4 < 1.28155158 := by
  have e : dPrimeStep 4 = invNorm (9 / 10) := by
    unfold dPrimeStep computeDPrime
    rw [show (max 0.01 (min 0.99 ((((4 : ℕ) : ℝ) + 0.5) / (((4 : ℕ) : ℝ) + 1))) : ℝ)
        = 9 / 10 by norm_num,
      show (max 0.01 (min 0.99 (0.5 : ℝ)) : ℝ) = 1 / 2 by norm_num,
      invNorm_half, sub_zero]
  rw [e]
  exact invNormCentral4

/-- Bounds for the `5`-hit raw d-prime value. -/
theorem dPrimeStepB5 :
    (1.38299411 : ℝ) < dPrimeStep 5 ∧ dPrimeStep 5 < 1.38299414 := by
  have e : dPrimeStep 5 = invNorm (11 / 12) := by
    unfold dPrimeStep computeDPrime
    rw [show (max 0.01 (min 0.99 ((((5 : ℕ) : ℝ) + 0.5) / (((5 : ℕ) : ℝ) + 1))) : ℝ)
        = 11 / 12 by norm_num,
      show (max 0.01 (min 0.99 (0.5 : ℝ)) : ℝ) = 1 / 2 by norm_num,
      invNorm_half, sub_zero]
  rw [e]
  exact invNormCentral5

/-- Bounds for the `6`-hit raw d-prime value. -/
theorem dPrimeStepB6 :
    (1.46523378 : ℝ) < dPrimeStep 6 ∧ dPrimeStep 6 < 1.46523381 := by
  have e : dPrimeStep 6 = invNorm (13 / 14) := by
    unfold dPrimeStep computeDPrime
    rw [show (max 0.01 (min 0.99 ((((6 : ℕ) : ℝ) + 0.5) / (((6 : ℕ) : ℝ) + 1))) : ℝ)
        = 13 / 14 by norm_num,
      show (max 0.01 (min 0.99 (0.5 : ℝ)) : ℝ) = 1 / 2 by norm_num,
      invNorm_half, sub_zero]
  rw [e]
  exact invNormCentral6

/-- Bounds for the `7`-hit raw d-prime value. -/
theorem dPrimeStepB7 :
    (1.53412053 : ℝ) < dPrimeStep 7 ∧ dPrimeStep 7 < 1.53412056 := by
  have e : dPrimeStep 7 = invNorm (15 / 16) := by
    unfold dPrimeStep computeDPrime
    rw [show (max 0.01 (min 0.99 ((((7 : ℕ) : ℝ) + 0.5) / (((7 : ℕ) : ℝ) + 1))) : ℝ)
        = 15 / 16 by norm_num,
      show (max 0.01 (min 0.99 (0.5 : ℝ)) : ℝ) = 1 / 2 by norm_num,
      invNorm_half, sub_zero]
  rw [e]
  exact invNormCentral7

/-- Bounds for the `8`-hit raw d-prime value. -/
theorem dPrimeStepB8 :
    (1.5932188 : ℝ) < dPrimeStep 8 ∧ dPrimeStep 8 < 1.59321883 := by
  have e : dPrimeStep 8 = invNorm (17 / 18) := by
    unfold dPrimeStep computeDPrime
    rw [show (max 0.01 (min 0.99 ((((8 : ℕ) : ℝ) + 0.5) / (((8 : ℕ) : ℝ) + 1))) : ℝ)
        = 17 / 18 by norm_num,
      show (max 0.01 (min 0.99 (0.5 : ℝ)) : ℝ) = 1 / 2 by norm_num,
      invNorm_half, sub_zero]
  rw [e]
  exact invNormCentral8

/-- Bounds for the `9`-hit raw d-prime value. -/
theorem dPrimeStepB9 :
    (1.64485361 : ℝ) < dPrimeStep 9 ∧ dPrimeStep 9 < 1.64485364 := by
  have e : dPrimeStep 9 = invNorm (19 / 20) := by
    unfold dPrimeStep computeDPrime
    rw [show (max 0.01 (min 0.99 ((((9 : ℕ) : ℝ) + 0.5) / (((9 : ℕ) : ℝ) + 1))) : ℝ)
        = 19 / 20 by norm_num,
      show (max 0.01 (min 0.99 (0.5 : ℝ)) : ℝ) = 1 / 2 by norm_num,
      invNorm_half, sub_zero]
  rw [e]
  exact invNormCentral9

/-- Bounds for the `10`-hit raw d-prime value. -/
theorem dPrimeStepB10 :
    (1.69062161 : ℝ) < dPrimeStep 10 ∧ dPrimeStep 10 < 1.69062164 := by
  have e : dPrimeStep 10 = invNorm (21 / 22) := by
    unfold dPrimeStep computeDPrime
    rw [show (max 0.01 (min 0.99 ((((10 : ℕ) : ℝ) + 0.5) / (((10 : ℕ) : ℝ) + 1))) : ℝ)
        = 21 / 22 by norm_num,
      show (max 0.01 (min 0.99 (0.5 : ℝ)) : ℝ) = 1 / 2 by norm_num,
      invNorm_half, sub_zero]
  rw [e]
  exact invNormCentral10

/-- Bounds for the `11`-hit raw d-prime value. -/
theorem dPrimeStepB11 :
    (1.73166438 : ℝ) < dPrimeStep 11 ∧ dPrimeStep 11 < 1.73166441 := by
  have e : dPrimeStep 11 = invNorm (23 / 24) := by
    unfold dPrimeStep computeDPrime
    rw [show (max 0.01 (min 0.99 ((((11 : ℕ) : ℝ) + 0.5) / (((11 : ℕ) : ℝ) + 1))) : ℝ)
        = 23 / 24 by norm_num,
      show (max 0.01 (min 0.99 (0.5 : ℝ)) : ℝ) = 1 / 2 by norm_num,
      invNorm_half, sub_zero]
  rw [e]
  exact invNormCentral11

/-- Bounds for the `12`-hit raw d-prime value. -/
theorem dPrimeStepB12 :
    (1.76882503 : ℝ) < dPrimeStep 12 ∧ dPrimeStep 12 < 1.76882506 := by
  have e : dPrimeStep 12 = invNorm (25 / 26) := by
    unfold dPrimeStep computeDPrime
    rw [show (max 0.01 (min 0.99 ((((12 : ℕ) : ℝ) + 0.5) / (((12 : ℕ) : ℝ) + 1))) : ℝ)
        = 25 / 26 by norm_num,
      show (max 0.01 (min 0.99 (0.5 : ℝ)) : ℝ) = 1 / 2 by norm_num,
      invNorm_half, sub_zero]
  rw [e]
  exact invNormCentral12

/-- Bounds for the `13`-hit raw d-prime value. -/
theorem dPrimeStepB13 :
    (1.80274308 : ℝ) < dPrimeStep 13 ∧ dPrimeStep 13 < 1.80274311 := by
  have e : dPrimeStep 13 = invNorm (27 / 28) := by
    unfold dPrimeStep computeDPrime
    rw [show (max 0.01 (min 0.99 ((((13 : ℕ) : ℝ) + 0.5) / (((13 : ℕ) : ℝ) + 1))) : ℝ)
        = 27 / 28 by norm_num,
      show (max 0.01 (min 0.99 (0.5 : ℝ)) : ℝ) = 1 / 2 by norm_num,
      invNorm_half, sub_zero]
  rw [e]
  exact invNormCentral13

/-- Bounds for the `14`-hit raw d-prime value. -/
theorem dPrimeStepB14 :
    (1.83391462 : ℝ) < dPrimeStep 14 ∧ dPrimeStep 14 < 1.83391465 := by
  have e : dPrimeStep 14 = invNorm (29 / 30) := by
    unfold dPrimeStep computeDPrime
    rw [show (max 0.01 (min 0.99 ((((14 : ℕ) : ℝ) + 0.5) / (((14 : ℕ) : ℝ) + 1))) : ℝ)
        = 29 / 30 by norm_num,
      show (max 0.01 (min 0.99 (0.5 : ℝ)) : ℝ) = 1 / 2 by norm_num,
      invNorm_half, sub_zero]
  rw [e]
  exact invNormCentral14

/-- Bounds for the `15`-hit raw d-prime value. -/
theorem dPrimeStepB15 :
    (1.86273185 : ℝ) < dPrimeStep 15 ∧ dPrimeStep 15 < 1.86273188 := by
  have e : dPrimeStep 15 = invNorm (31 / 32) := by
    unfold dPrimeStep computeDPrime
    rw [show (max 0.01 (min 0.99 ((((15 : ℕ) : ℝ) + 0.5) / (((15 : ℕ) : ℝ) + 1))) : ℝ)
        = 31 / 32 by norm_num,
      show (max 0.01 (min 0.99 (0.5 : ℝ)) : ℝ) = 1 / 2 by norm_num,
      invNorm_half, sub_zero]
  rw [e]
  exact invNormCentral15

/-- Bounds for the `16`-hit raw d-prime value. -/
theorem dPrimeStepB16 :
    (1.88950994 : ℝ) < dPrimeStep 16 ∧ dPrimeStep 16 < 1.88950997 := by
  have e : dPrimeStep 16 = invNorm (33 / 34) := by
    unfold dPrimeStep computeDPrime
    rw [show (max 0.01 (min 0.99 ((((16 : ℕ) : ℝ) + 0.5) / (((16 : ℕ) : ℝ) + 1))) : ℝ)
        = 33 / 34 by norm_num,
      show (max 0.01 (min 0.99 (0.5 : ℝ)) : ℝ) = 1 / 2 by norm_num,
      invNorm_half, sub_zero]
  rw [e]
  exact invNormCentral16

/-- Bounds for the `17`-hit raw d-prime value. -/
theorem dPrimeStepB17 :
    (1.91450581 : ℝ) < dPrimeStep 17 ∧ dPrimeStep 17 < 1.91450584 := by
  have e : dPrimeStep 17 = invNorm (35 / 36) := by
    unfold dPrimeStep computeDPrime
    rw [show (max 0.01 (min 0.99 ((((17 : ℕ) : ℝ) + 0.5) / (((17 : ℕ) : ℝ) + 1))) : ℝ)
        = 35 / 36 by norm_num,
      show (max 0.01 (min 0.99 (0.5 : ℝ)) : ℝ) = 1 / 2 by norm_num,
      invNorm_half, sub_zero]
  rw [e]
  exact invNormCentral17

/-- Bounds for the `18`-hit raw d-prime value. -/
theorem dPrimeStepB18 :
    (1.9379315 : ℝ) < dPrimeStep 18 ∧ dPrimeStep 18 < 1.93793153 := by
  have e : dPrimeStep 18 = invNorm (37 / 38) := by
    unfold dPrimeStep computeDPrime
    rw [show (max 0.01 (min 0.99 ((((18 : ℕ) : ℝ) + 0.5) / (((18 : ℕ) : ℝ) + 1))) : ℝ)
        = 37 / 38 by norm_num,
      show (max 0.01 (min 0.99 (0.5 : ℝ)) : ℝ) = 1 / 2 by norm_num,
      invNorm_half, sub_zero]
  rw [e]
  exact invNormCentral18

/-- Bounds for the `19`-hit raw d-prime value. -/
theorem dPrimeStepB19 :
    (1.95996397 : ℝ) < dPrimeStep 19 ∧ dPrimeStep 19 < 1.959964 := by
  have e : dPrimeStep 19 = invNorm (39 / 40) := by
    unfold dPrimeStep computeDPrime
    rw [show (max 0.01 (min 0.99 ((((19 : ℕ) : ℝ) + 0.5) / (((19 : ℕ) : ℝ) + 1))) : ℝ)
        = 39 / 40 by norm_num,
      show (max 0.01 (min 0.99 (0.5 : ℝ)) : ℝ) = 1 / 2 by norm_num,
      invNorm_half, sub_zero]
  rw [e]
  exact invNormCentral19

/-- Bounds for the `20`-hit raw d-prime value. -/
theorem dPrimeStepB20 :
    (1.980752 : ℝ) < dPrimeStep 20 ∧ dPrimeStep 20 < 1.9807528 := by
  have e : dPrimeStep 20 = invNorm (41 / 42) := by
    unfold dPrimeStep computeDPrime
    rw [show (max 0.01 (min 0.99 ((((20 : ℕ) : ℝ) + 0.5) / (((20 : ℕ) : ℝ) + 1))) : ℝ)
        = 41 / 42 by norm_num,
      show (max 0.01 (min 0.99 (0.5 : ℝ)) : ℝ) = 1 / 2 by norm_num,
      invNorm_half, sub_zero]
  rw [e]
  exact invNormTail20

/-- Bounds for the `21`-hit raw d-prime value. -/
theorem dPrimeStepB21 :
    (2.0004234 : ℝ) < dPrimeStep 21 ∧ dPrimeStep 21 < 2.0004238 := by
  have e : dPrimeStep 21 = invNorm (43 / 44) := by
    unfold dPrimeStep computeDPrime
    rw [show (max 0.01 (min 0.99 ((((21 : ℕ) : ℝ) + 0.5) / (((21 : ℕ) : ℝ) + 1))) : ℝ)
        = 43 / 44 by norm_num,
      show (max 0.01 (min 0.99 (0.5 : ℝ)) : ℝ) = 1 / 2 by norm_num,
      invNorm_half, sub_zero]
  rw [e]
  exact invNormTail21

/-- Bounds for the `22`-hit raw d-prime value. -/
theorem dPrimeStepB22 :
    (2.019086 : ℝ) < dPrimeStep 22 ∧ dPrimeStep 22 < 2.0190864 := by
  have e : dPrimeStep 22 = invNorm (45 / 46) := by
    unfold dPrimeStep computeDPrime
    rw [show (max 0.01 (min 0.99 ((((22 : ℕ) : ℝ) + 0.5) / (((22 : ℕ) : ℝ) + 1))) : ℝ)
        = 45 / 46 by norm_num,
      show (max 0.01 (min 0.99 (0.5 : ℝ)) : ℝ) = 1 / 2 by norm_num,
      invNorm_half, sub_zero]
  rw [e]
  exact invNormTail22

/-- Bounds for the `23`-hit raw d-prime value. -/
theorem dPrimeStepB23 :
    (2.036834 : ℝ) < dPrimeStep 23 ∧ dPrimeStep 23 < 2.0368343 := by
  have e : dPrimeStep 23 = invNorm (47 / 48) := by
    unfold dPrimeStep computeDPrime
    rw [show (max 0.01 (min 0.99 ((((23 : ℕ) : ℝ) + 0.5) / (((23 : ℕ) : ℝ) + 1))) : ℝ)
        = 47 / 48 by norm_num,
      show (max 0.01 (min 0.99 (0.5 : ℝ)) : ℝ) = 1 / 2 by norm_num,
      invNorm_half, sub_zero]
  rw [e]
  exact invNormTail23

/-- Bounds for the `24`-hit raw d-prime value. -/
theorem dPrimeStepB24 :
    (2.0537488 : ℝ) < dPrimeStep 24 ∧ dPrimeStep 24 < 2.0537491 := by
  have e : dPrimeStep 24 = invNorm (49 / 50) := by
    unfold dPrimeStep computeDPrime
    rw [show (max 0.01 (min 0.99 ((((24 : ℕ) : ℝ) + 0.5) / (((24 : ℕ) : ℝ) + 1))) : ℝ)
        = 49 / 50 by norm_num,
      show (max 0.01 (min 0.99 (0.5 : ℝ)) : ℝ) = 1 / 2 by norm_num,
      invNorm_half, sub_zero]
  rw [e]
  exact invNormTail24

/-- Bounds for the `25`-hit raw d-prime value. -/
theorem dPrimeStepB25 :
    (2.0699017 : ℝ) < dPrimeStep 25 ∧ dPrimeStep 25 < 2.069902 := by
  have e : dPrimeStep 25 = invNorm (51 / 52) := by
    unfold dPrimeStep computeDPrime
    rw [show (max 0.01 (min 0.99 ((((25 : ℕ) : ℝ) + 0.5) / (((25 : ℕ) : ℝ) + 1))) : ℝ)
        = 51 / 52 by norm_num,
      show (max 0.01 (min 0.99 (0.5 : ℝ)) : ℝ) = 1 / 2 by norm_num,
      invNorm_half, sub_zero]
  rw [e]
  exact invNormTail25

/-- Bounds for the `26`-hit raw d-prime value. -/
theorem dPrimeStepB26 :
    (2.0853554 : ℝ) < dPrimeStep 26 ∧ dPrimeStep 26 < 2.0853557 := by
  have e : dPrimeStep 26 = invNorm (53 / 54) := by
    unfold dPrimeStep computeDPrime
    rw [show (max 0.01 (min 0.99 ((((26 : ℕ) : ℝ) + 0.5) / (((26 : ℕ) : ℝ) + 1))) : ℝ)
        = 53 / 54 by norm_num,
      show (max 0.01 (min 0.99 (0.5 : ℝ)) : ℝ) = 1 / 2 by norm_num,
      invNorm_half, sub_zero]
  rw [e]
  exact invNormTail26

/-- Bounds for the `27`-hit raw d-prime value. -/
theorem dPrimeStepB27 :
    (2.1001653 : ℝ) < dPrimeStep 27 ∧ dPrimeStep 27 < 2.1001656 := by
  have e : dPrimeStep 27 = invNorm (55 / 56) := by
    unfold dPrimeStep computeDPrime
    rw [show (max 0.01 (min 0.99 ((((27 : ℕ) : ℝ) + 0.5) / (((27 : ℕ) : ℝ) + 1))) : ℝ)
        = 55 / 56 by norm_num,
      show (max 0.01 (min 0.99 (0.5 : ℝ)) : ℝ) = 1 / 2 by norm_num,
      invNorm_half, sub_zero]
  rw [e]
  exact invNormTail27

/-- Bounds for the `28`-hit raw d-prime value. -/
theorem dPrimeStepB28 :
    (2.1143806 : ℝ) < dPrimeStep 28 ∧ dPrimeStep 28 < 2.1143809 := by
  have e : dPrimeStep 28 = invNorm (57 / 58) := by
    unfold dPrimeStep computeDPrime
    rw [show (max 0.01 (min 0.99 ((((28 : ℕ) : ℝ) + 0.5) / (((28 : ℕ) : ℝ) + 1))) : ℝ)
        = 57 / 58 by norm_num,
      show (max 0.01 (min 0.99 (0.5 : ℝ)) : ℝ) = 1 / 2 by norm_num,
      invNorm_half, sub_zero]
  rw [e]
  exact invNormTail28

/-- Bounds for the `29`-hit raw d-prime value. -/
theorem dPrimeStepB29 :
    (2.1280451 : ℝ) < dPrimeStep 29 ∧ dPrimeStep 29 < 2.1280454 := by
  have e : dPrimeStep 29 = invNorm (59 / 60) := by
    unfold dPrimeStep computeDPrime
    rw [show (max 0.01 (min 0.99 ((((29 : ℕ) : ℝ) + 0.5) / (((29 : ℕ) : ℝ) + 1))) : ℝ)
        = 59 / 60 by norm_num,
      show (max 0.01 (min 0.99 (0.5 : ℝ)) : ℝ) = 1 / 2 by norm_num,
      invNorm_half, sub_zero]
  rw [e]
  exact invNormTail29

/-- Bounds for the `30`-hit raw d-prime value. -/
theorem dPrimeStepB30 :
    (2.141198 : ℝ) < dPrimeStep 30 ∧ dPrimeStep 30 < 2.1411983 := by
  have e : dPrimeStep 30 = invNorm (61 / 62) := by
    unfold dPrimeStep computeDPrime
    rw [show (max 0.01 (min 0.99 ((((30 : ℕ) : ℝ) + 0.5) / (((30 : ℕ) : ℝ) + 1))) : ℝ)
        = 61 / 62 by norm_num,
      show (max 0.01 (min 0.99 (0.5 : ℝ)) : ℝ) = 1 / 2 by norm_num,
      invNorm_half, sub_zero]
  rw [e]
  exact invNormTail30

/-- Claim C10 is refuted as stated: the very first correct target trial
strictly DECREASES `theta` (from the neutral prior 1.5 to about 1.376), so
`theta` does not strictly increase across the 30 calls. -/
theorem claim_C10_counterexample :
    (abilityAfter 1).theta < (abilityAfter 0).theta := by
  have hrec : (abilityAfter 1).theta
      = (abilityAfter 0).theta * 0.85 + dPrimeStep 1 * 0.15 :=
    abilityAfter_theta 0 (by norm_num)
  have h0 : (abilityAfter 0).theta = 1.5 := rfl
  rw [hrec, h0]
  linarith [dPrimeStepB1.2]

set_option maxHeartbeats 1600000 in
/-- Claim C10 (amended).  Feeding 30 consecutive correct target trials
(`wasMatch = true`, `userClicked = true`, 500 ms) to a fresh ability model:
`theta` first dips (see `claim_C10_counterexample`), is strictly increasing
from the 4th through the 30th `recordTrial` call, and exceeds 2.0 after the
30th call. -/
theorem claim_C10_amended :
    (∀ k, 4 ≤ k → k ≤ 29 →
      (abilityAfter k).theta < (abilityAfter (k + 1)).theta) ∧
    2 < (abilityAfter 30).theta := by
  have ht0 : (abilityAfter 0).theta = 1.5 := rfl
  have ht1 : (1.376173461 : ℝ) < (abilityAfter 1).theta ∧
      (abilityAfter 1).theta < (1.376173466 : ℝ) := by
    have hrec : (abilityAfter 1).theta
        = (abilityAfter 0).theta * 0.85 + dPrimeStep 1 * 0.15 :=
      abilityAfter_theta 0 (by norm_num)
    rw [hrec, ht0]
    exact ⟨by linarith [dPrimeStepB1.1], by linarith [dPrimeStepB1.2]⟩
  have ht2 : (1.314860674 : ℝ) < (abilityAfter 2).theta ∧
      (abilityAfter 2).theta < (1.314860684 : ℝ) := by
    have hrec : (abilityAfter 2).theta
        = (abilityAfter 1).theta * 0.85 + dPrimeStep 2 * 0.15 :=
      abilityAfter_theta 1 (by norm_num)
    rw [hrec]
    exact ⟨by linarith [ht1.1, dPrimeStepB2.1],
      by linarith [ht1.2, dPrimeStepB2.2]⟩
  have ht3 : (1.290183978 : ℝ) < (abilityAfter 3).theta ∧
      (abilityAfter 3).theta < (1.290183992 : ℝ) := by
    have hrec : (abilityAfter 3).theta
        = (abilityAfter 2).theta * 0.85 + dPrimeStep 3 * 0.15 :=
      abilityAfter_theta 2 (by norm_num)
    rw [hrec]
    exact ⟨by linarith [ht2.1, dPrimeStepB3.1],
      by linarith [ht2.2, dPrimeStepB3.2]⟩
  have ht4 : (1.288889113 : ℝ) < (abilityAfter 4).theta ∧
      (abilityAfter 4).theta < (1.288889131 : ℝ) := by
    have hrec : (abilityAfter 4).theta
        = (abilityAfter 3).theta * 0.85 + dPrimeStep 4 * 0.15 :=
      abilityAfter_theta 3 (by norm_num)
    rw [hrec]
    exact ⟨by linarith [ht3.1, dPrimeStepB4.1],
      by linarith [ht3.2, dPrimeStepB4.2]⟩
  have ht5 : (1.303004862 : ℝ) < (abilityAfter 5).theta ∧
      (abilityAfter 5).theta < (1.303004883 : ℝ) := by
    have hrec : (abilityAfter 5).theta
        = (abilityAfter 4).theta * 0.85 + dPrimeStep 5 * 0.15 :=
      abilityAfter_theta 4 (by norm_num)
    rw [hrec]
    exact ⟨by linarith [ht4.1, dPrimeStepB5.1],
      by linarith [ht4.2, dPrimeStepB5.2]⟩
  have ht6 : (1.327339199 : ℝ) < (abilityAfter 6).theta ∧
      (abilityAfter 6).theta < (1.327339223 : ℝ) := by
    have hrec : (abilityAfter 6).theta
        = (abilityAfter 5).theta * 0.85 + dPrimeStep 6 * 0.15 :=
      abilityAfter_theta 5 (by norm_num)
    rw [hrec]
    exact ⟨by linarith [ht5.1, dPrimeStepB6.1],
      by linarith [ht5.2, dPrimeStepB6.2]⟩
  have ht7 : (1.358356398 : ℝ) < (abilityAfter 7).theta ∧
      (abilityAfter 7).theta < (1.358356424 : ℝ) := by
    have hrec : (abilityAfter 7).theta
        = (abilityAfter 6).theta * 0.85 + dPrimeStep 7 * 0.15 :=
      abilityAfter_theta 6 (by norm_num)
    rw [hrec]
    exact ⟨by linarith [ht6.1, dPrimeStepB7.1],
      by linarith [ht6.2, dPrimeStepB7.2]⟩
  have ht8 : (1.393585758 : ℝ) < (abilityAfter 8).theta ∧
      (abilityAfter 8).theta < (1.393585785 : ℝ) := by
    have hrec : (abilityAfter 8).theta
        = (abilityAfter 7).theta * 0.85 + dPrimeStep 8 * 0.15 :=
      abilityAfter_theta 7 (by norm_num)
    rw [hrec]
    exact ⟨by linarith [ht7.1, dPrimeStepB8.1],
      by linarith [ht7.2, dPrimeStepB8.2]⟩
  have ht9 : (1.431275935 : ℝ) < (abilityAfter 9).theta ∧
      (abilityAfter 9).theta < (1.431275964 : ℝ) := by
    have hrec : (abilityAfter 9).theta
        = (abilityAfter 8).theta * 0.85 + dPrimeStep 9 * 0.15 :=
      abilityAfter_theta 8 (by norm_num)
    rw [hrec]
    exact ⟨by linarith [ht8.1, dPrimeStepB9.1],
      by linarith [ht8.2, dPrimeStepB9.2]⟩
  have ht10 : (1.470177786 : ℝ) < (abilityAfter 10).theta ∧
      (abilityAfter 10).theta < (1.470177816 : ℝ) := by
    have hrec : (abilityAfter 10).theta
        = (abilityAfter 9).theta * 0.85 + dPrimeStep 10 * 0.15 :=
      abilityAfter_theta 9 (by norm_num)
    rw [hrec]
    exact ⟨by linarith [ht9.1, dPrimeStepB10.1],
      by linarith [ht9.2, dPrimeStepB10.2]⟩
  have ht11 : (1.509400775 : ℝ) < (abilityAfter 11).theta ∧
      (abilityAfter 11).theta < (1.509400806 : ℝ) := by
    have hrec : (abilityAfter 11).theta
        = (abilityAfter 10).theta * 0.85 + dPrimeStep 11 * 0.15 :=
      abilityAfter_theta 10 (by norm_num)
    rw [hrec]
    exact ⟨by linarith [ht10.1, dPrimeStepB11.1],
      by linarith [ht10.2, dPrimeStepB11.2]⟩
  have ht12 : (1.548314413 : ℝ) < (abilityAfter 12).theta ∧
      (abilityAfter 12).theta < (1.548314445 : ℝ) := by
    have hrec : (abilityAfter 12).theta
        = (abilityAfter 11).theta * 0.85 + dPrimeStep 12 * 0.15 :=
      abilityAfter_theta 11 (by norm_num)
    rw [hrec]
    exact ⟨by linarith [ht11.1, dPrimeStepB12.1],
      by linarith [ht11.2, dPrimeStepB12.2]⟩
  have ht13 : (1.586478713 : ℝ) < (abilityAfter 13).theta ∧
      (abilityAfter 13).theta < (1.586478745 : ℝ) := by
    have hrec : (abilityAfter 13).theta
        = (abilityAfter 12).theta * 0.85 + dPrimeStep 13 * 0.15 :=
      abilityAfter_theta 12 (by norm_num)
    rw [hrec]
    exact ⟨by linarith [ht12.1, dPrimeStepB13.1],
      by linarith [ht12.2, dPrimeStepB13.2]⟩
  have ht14 : (1.623594099 : ℝ) < (abilityAfter 14).theta ∧
      (abilityAfter 14).theta < (1.623594131 : ℝ) := by
    have hrec : (abilityAfter 14).theta
        = (abilityAfter 13).theta * 0.85 + dPrimeStep 14 * 0.15 :=
      abilityAfter_theta 13 (by norm_num)
    rw [hrec]
    exact ⟨by linarith [ht13.1, dPrimeStepB14.1],
      by linarith [ht13.2, dPrimeStepB14.2]⟩
  have ht15 : (1.659464761 : ℝ) < (abilityAfter 15).theta ∧
      (abilityAfter 15).theta < (1.659464794 : ℝ) := by
    have hrec : (abilityAfter 15).theta
        = (abilityAfter 14).theta * 0.85 + dPrimeStep 15 * 0.15 :=
      abilityAfter_theta 14 (by norm_num)
    rw [hrec]
    exact ⟨by linarith [ht14.1, dPrimeStepB15.1],
      by linarith [ht14.2, dPrimeStepB15.2]⟩
  have ht16 : (1.693971537 : ℝ) < (abilityAfter 16).theta ∧
      (abilityAfter 16).theta < (1.693971571 : ℝ) := by
    have hrec : (abilityAfter 16).theta
        = (abilityAfter 15).theta * 0.85 + dPrimeStep 16 * 0.15 :=
      abilityAfter_theta 15 (by norm_num)
    rw [hrec]
    exact ⟨by linarith [ht15.1, dPrimeStepB16.1],
      by linarith [ht15.2, dPrimeStepB16.2]⟩
  have ht17 : (1.727051677 : ℝ) < (abilityAfter 17).theta ∧
      (abilityAfter 17).theta < (1.727051712 : ℝ) := by
    have hrec : (abilityAfter 17).theta
        = (abilityAfter 16).theta * 0.85 + dPrimeStep 17 * 0.15 :=
      abilityAfter_theta 16 (by norm_num)
    rw [hrec]
    exact ⟨by linarith [ht16.1, dPrimeStepB17.1],
      by linarith [ht16.2, dPrimeStepB17.2]⟩
  have ht18 : (1.75868365 : ℝ) < (abilityAfter 18).theta ∧
      (abilityAfter 18).theta < (1.758683685 : ℝ) := by
    have hrec : (abilityAfter 18).theta
        = (abilityAfter 17).theta * 0.85 + dPrimeStep 18 * 0.15 :=
      abilityAfter_theta 17 (by norm_num)
    rw [hrec]
    exact ⟨by linarith [ht17.1, dPrimeStepB18.1],
      by linarith [ht17.2, dPrimeStepB18.2]⟩
  have ht19 : (1.788875698 : ℝ) < (abilityAfter 19).theta ∧
      (abilityAfter 19).theta < (1.788875733 : ℝ) := by
    have hrec : (abilityAfter 19).theta
        = (abilityAfter 18).theta * 0.85 + dPrimeStep 19 * 0.15 :=
      abilityAfter_theta 18 (by norm_num)
    rw [hrec]
    exact ⟨by linarith [ht18.1, dPrimeStepB19.1],
      by linarith [ht18.2, dPrimeStepB19.2]⟩
  have ht20 : (1.817657143 : ℝ) < (abilityAfter 20).theta ∧
      (abilityAfter 20).theta < (1.817657294 : ℝ) := by
    have hrec : (abilityAfter 20).theta
        = (abilityAfter 19).theta * 0.85 + dPrimeStep 20 * 0.15 :=
      abilityAfter_theta 19 (by norm_num)
    rw [hrec]
    exact ⟨by linarith [ht19.1, dPrimeStepB20.1],
      by linarith [ht19.2, dPrimeStepB20.2]⟩
  have ht21 : (1.845072081 : ℝ) < (abilityAfter 21).theta ∧
      (abilityAfter 21).theta < (1.84507227 : ℝ) := by
    have hrec : (abilityAfter 21).theta
        = (abilityAfter 20).theta * 0.85 + dPrimeStep 21 * 0.15 :=
      abilityAfter_theta 20 (by norm_num)
    rw [hrec]
    exact ⟨by linarith [ht20.1, dPrimeStepB21.1],
      by linarith [ht20.2, dPrimeStepB21.2]⟩
  have ht22 : (1.871174168 : ℝ) < (abilityAfter 22).theta ∧
      (abilityAfter 22).theta < (1.87117439 : ℝ) := by
    have hrec : (abilityAfter 22).theta
        = (abilityAfter 21).theta * 0.85 + dPrimeStep 22 * 0.15 :=
      abilityAfter_theta 21 (by norm_num)
    rw [hrec]
    exact ⟨by linarith [ht21.1, dPrimeStepB22.1],
      by linarith [ht21.2, dPrimeStepB22.2]⟩
  have ht23 : (1.896023142 : ℝ) < (abilityAfter 23).theta ∧
      (abilityAfter 23).theta < (1.896023377 : ℝ) := by
    have hrec : (abilityAfter 23).theta
        = (abilityAfter 22).theta * 0.85 + dPrimeStep 23 * 0.15 :=
      abilityAfter_theta 22 (by norm_num)
    rw [hrec]
    exact ⟨by linarith [ht22.1, dPrimeStepB23.1],
      by linarith [ht22.2, dPrimeStepB23.2]⟩
  have ht24 : (1.91968199 : ℝ) < (abilityAfter 24).theta ∧
      (abilityAfter 24).theta < (1.919682236 : ℝ) := by
    have hrec : (abilityAfter 24).theta
        = (abilityAfter 23).theta * 0.85 + dPrimeStep 24 * 0.15 :=
      abilityAfter_theta 23 (by norm_num)
    rw [hrec]
    exact ⟨by linarith [ht23.1, dPrimeStepB24.1],
      by linarith [ht23.2, dPrimeStepB24.2]⟩
  have ht25 : (1.942214946 : ℝ) < (abilityAfter 25).theta ∧
      (abilityAfter 25).theta < (1.942215201 : ℝ) := by
    have hrec : (abilityAfter 25).theta
        = (abilityAfter 24).theta * 0.85 + dPrimeStep 25 * 0.15 :=
      abilityAfter_theta 24 (by norm_num)
    rw [hrec]
    exact ⟨by linarith [ht24.1, dPrimeStepB25.1],
      by linarith [ht24.2, dPrimeStepB25.2]⟩
  have ht26 : (1.963686014 : ℝ) < (abilityAfter 26).theta ∧
      (abilityAfter 26).theta < (1.963686276 : ℝ) := by
    have hrec : (abilityAfter 26).theta
        = (abilityAfter 25).theta * 0.85 + dPrimeStep 26 * 0.15 :=
      abilityAfter_theta 25 (by norm_num)
    rw [hrec]
    exact ⟨by linarith [ht25.1, dPrimeStepB26.1],
      by linarith [ht25.2, dPrimeStepB26.2]⟩
  have ht27 : (1.984157906 : ℝ) < (abilityAfter 27).theta ∧
      (abilityAfter 27).theta < (1.984158175 : ℝ) := by
    have hrec : (abilityAfter 27).theta
        = (abilityAfter 26).theta * 0.85 + dPrimeStep 27 * 0.15 :=
      abilityAfter_theta 26 (by norm_num)
    rw [hrec]
    exact ⟨by linarith [ht26.1, dPrimeStepB27.1],
      by linarith [ht26.2, dPrimeStepB27.2]⟩
  have ht28 : (2.00369131 : ℝ) < (abilityAfter 28).theta ∧
      (abilityAfter 28).theta < (2.003691584 : ℝ) := by
    have hrec : (abilityAfter 28).theta
        = (abilityAfter 27).theta * 0.85 + dPrimeStep 28 * 0.15 :=
      abilityAfter_theta 27 (by norm_num)
    rw [hrec]
    exact ⟨by linarith [ht27.1, dPrimeStepB28.1],
      by linarith [ht27.2, dPrimeStepB28.2]⟩
  have ht29 : (2.022344378 : ℝ) < (abilityAfter 29).theta ∧
      (abilityAfter 29).theta < (2.022344657 : ℝ) := by
    have hrec : (abilityAfter 29).theta
        = (abilityAfter 28).theta * 0.85 + dPrimeStep 29 * 0.15 :=
      abilityAfter_theta 28 (by norm_num)
    rw [hrec]
    exact ⟨by linarith [ht28.1, dPrimeStepB29.1],
      by linarith [ht28.2, dPrimeStepB29.2]⟩
  have ht30 : (2.040172421 : ℝ) < (abilityAfter 30).theta ∧
      (abilityAfter 30).theta < (2.040172704 : ℝ) := by
    have hrec : (abilityAfter 30).theta
        = (abilityAfter 29).theta * 0.85 + dPrimeStep 30 * 0.15 :=
      abilityAfter_theta 29 (by norm_num)
    rw [hrec]
    exact ⟨by linarith [ht29.1, dPrimeStepB30.1],
      by linarith [ht29.2, dPrimeStepB30.2]⟩
  refine ⟨?_, by linarith [ht30.1]⟩
  intro k h4 h29
  interval_cases k
  · linarith [ht4.2, ht5.1]
  · linarith [ht5.2, ht6.1]
  · linarith [ht6.2, ht7.1]
  · linarith [ht7.2, ht8.1]
  · linarith [ht8.2, ht9.1]
  · linarith [ht9.2, ht10.1]
  · linarith [ht10.2, ht11.1]
  · linarith [ht11.2, ht12.1]
  · linarith [ht12.2, ht13.1]
  · linarith [ht13.2, ht14.1]
  · linarith [ht14.2, ht15.1]
  · linarith [ht15.2, ht16.1]
  · linarith [ht16.2, ht17.1]
  · linarith [ht17.2, ht18.1]
  · linarith [ht18.2, ht19.1]
  · linarith [ht19.2, ht20.1]
  · linarith [ht20.2, ht21.1]
  · linarith [ht21.2, ht22.1]
  · linarith [ht22.2, ht23.1]
  · linarith [ht23.2, ht24.1]
  · linarith [ht24.2, ht25.1]
  · linarith [ht25.2, ht26.1]
  · linarith [ht26.2, ht27.1]
  · linarith [ht27.2, ht28.1]
  · linarith [ht28.2, ht29.1]
  · linarith [ht29.2, ht30.1]

/-- Witness for `claim_C10_amended`: the strict increase at the 5th call. -/
theorem claim_C10_witness :
    (abilityAfter 4).theta < (abilityAfter (4 + 1)).theta :=
  claim_C10_amended.1 4 (by norm_num) (by norm_num)
